import Mathlib

/-!
Verification of the appstudio Environment controller
(`appstudio-controller/controllers/appstudio.redhat.com/environment_controller.go`).

The controller is embedded shallowly: the Kubernetes API server is modelled as a
keyed entity store (`Cluster`), client calls are modelled as lookups/updates on
that store, and non-not-found ("generic") store failures are modelled by an
explicit fault-injection structure (`Faults`).  Each Go function of the
controller becomes a pure Lean function that threads the store state and
returns a trace of mutating operations (`Op`), so that claims about "no
create/update call" can be stated as properties of the trace.
-/

namespace EnvironmentController

/-- A `metav1.Condition` restricted to the fields the controller reads/writes
(`Type`, `Message`, `Status`, `Reason`). -/
structure Condition where
  condType : String
  message : String
  status : String
  reason : String
deriving DecidableEq, Repr

/-- `metav1.ConditionTrue`. -/
def ConditionTrue : String := "True"

/-- `metav1.ConditionFalse`. -/
def ConditionFalse : String := "False"

/-- Constant from the controller source. -/
def EnvironmentConditionErrorOccurred : String := "ErrorOccurred"

/-- Constant from the controller source. -/
def EnvironmentReasonErrorOccurred : String := "ErrorOccurred"

/-- Constant `managedEnvironmentSecretLabel` from the controller source. -/
def managedEnvironmentSecretLabel : String := "appstudio.openshift.io/environment-secret"

/-- Modelled from the spec: `sharedutil.ManagedEnvironmentSecretType` lives in
`backend-shared/util`, which is not part of the sources under review.  The spec
only requires it to be a distinguished secret type ("managed-environment"
type), distinct from the opaque type. -/
def ManagedEnvironmentSecretType : String := "managed-gitops.redhat.com/managed-environment"

/-- `corev1.SecretTypeOpaque`. -/
def SecretTypeOpaque : String := "Opaque"

/-- `appstudioshared.DeploymentTargetClaimPhase_Bound`. -/
def DeploymentTargetClaimPhase_Bound : String := "Bound"

/-- `managedgitopsv1alpha1.GroupVersion.Group`. -/
def GroupVersionGroup : String := "managed-gitops.redhat.com"

/-- `managedgitopsv1alpha1.GroupVersion.Version`. -/
def GroupVersionVersion : String := "v1alpha1"

/-- The inline credential block of an Environment
(`env.Spec.UnstableConfigurationFields`, with the embedded
`KubernetesClusterCredentials` fields promoted as in the Go API type). -/
structure UnstableConfig where
  apiURL : String
  clusterCredentialsSecret : String
  allowInsecureSkipTLSVerify : Bool
  clusterResources : Bool
  namespaces : List String
deriving DecidableEq, Repr

/-- The part of `Environment.Spec` the controller reads: the claim reference
(`GetDeploymentTargetClaimName`, empty string meaning unset) and the optional
inline credentials. -/
structure EnvironmentSpec where
  deploymentTargetClaimName : String
  unstableConfigurationFields : Option UnstableConfig
deriving DecidableEq, Repr

/-- An `appstudioshared.Environment`; `ns` is `ObjectMeta.Namespace`,
`conditions` is `Status.Conditions`.  `apiVersion`, `kind` and `uid` feed the
owner references the controller writes. -/
structure Environment where
  name : String
  ns : String
  apiVersion : String
  kind : String
  uid : String
  spec : EnvironmentSpec
  conditions : List Condition
deriving DecidableEq, Repr

/-- `env.GetDeploymentTargetClaimName()` (external API accessor: returns the
referenced claim's name, or the empty string when no claim is referenced). -/
def Environment.GetDeploymentTargetClaimName (e : Environment) : String :=
  e.spec.deploymentTargetClaimName

/-- An `appstudioshared.DeploymentTargetClaim`: `targetName` is
`Spec.TargetName`, `phase` is `Status.Phase`. -/
structure DeploymentTargetClaim where
  name : String
  ns : String
  targetName : String
  phase : String
deriving DecidableEq, Repr

/-- `Spec.KubernetesClusterCredentials` of a DeploymentTarget. -/
structure KubernetesClusterCredentials where
  apiURL : String
  clusterCredentialsSecret : String
  allowInsecureSkipTLSVerify : Bool
deriving DecidableEq, Repr

/-- An `appstudioshared.DeploymentTarget`: `claimRef` is `Spec.ClaimRef`. -/
structure DeploymentTarget where
  name : String
  ns : String
  claimRef : String
  kubernetesClusterCredentials : KubernetesClusterCredentials
deriving DecidableEq, Repr

/-- A `metav1.OwnerReference` restricted to the fields the controller writes. -/
structure OwnerReference where
  apiVersion : String
  kind : String
  name : String
  uid : String
  blockOwnerDeletion : Option Bool
  controller : Option Bool
deriving DecidableEq, Repr

/-- A `corev1.Secret` restricted to the fields the controller reads/writes.
`data` is the payload map, represented as an association list; the controller
only copies it wholesale and compares copies, so list equality coincides with
map equality everywhere it is used. -/
structure Secret where
  name : String
  ns : String
  secretType : String
  data : List (String × String)
  labels : List (String × String)
  ownerReferences : List OwnerReference
deriving DecidableEq, Repr

/-- `managedgitopsv1alpha1.GitOpsDeploymentManagedEnvironmentSpec`, restricted
to the fields the controller writes. -/
structure GitOpsDeploymentManagedEnvironmentSpec where
  apiURL : String
  clusterCredentialsSecret : String
  allowInsecureSkipTLSVerify : Bool
  clusterResources : Bool
  namespaces : List String
deriving DecidableEq, Repr

/-- A `managedgitopsv1alpha1.GitOpsDeploymentManagedEnvironment`. -/
structure GitOpsDeploymentManagedEnvironment where
  name : String
  ns : String
  ownerReferences : List OwnerReference
  spec : GitOpsDeploymentManagedEnvironmentSpec
deriving DecidableEq, Repr

/-- The watched object graph: the Kubernetes API server modelled as a keyed
entity store (each list is keyed by namespace+name), plus the set of
namespaces currently being torn down. -/
structure Cluster where
  environments : List Environment
  managedEnvironments : List GitOpsDeploymentManagedEnvironment
  secrets : List Secret
  deploymentTargetClaims : List DeploymentTargetClaim
  deploymentTargets : List DeploymentTarget
  deletingNamespaces : List String
deriving DecidableEq, Repr

/-- Keyed lookup of an Environment. -/
def findEnvironment (st : Cluster) (ns name : String) : Option Environment :=
  st.environments.find? (fun e => e.ns == ns && e.name == name)

/-- Keyed lookup of a GitOpsDeploymentManagedEnvironment. -/
def findManagedEnvironment (st : Cluster) (ns name : String) :
    Option GitOpsDeploymentManagedEnvironment :=
  st.managedEnvironments.find? (fun m => m.ns == ns && m.name == name)

/-- Keyed lookup of a Secret. -/
def findSecret (st : Cluster) (ns name : String) : Option Secret :=
  st.secrets.find? (fun s => s.ns == ns && s.name == name)

/-- Keyed lookup of a DeploymentTargetClaim. -/
def findDeploymentTargetClaim (st : Cluster) (ns name : String) :
    Option DeploymentTargetClaim :=
  st.deploymentTargetClaims.find? (fun d => d.ns == ns && d.name == name)

/-- Store write: create-or-replace a ManagedEnvironment under its key. -/
def upsertManagedEnvironment (st : Cluster) (m : GitOpsDeploymentManagedEnvironment) : Cluster :=
  { st with managedEnvironments :=
      m :: st.managedEnvironments.filter (fun x => !(x.ns == m.ns && x.name == m.name)) }

/-- Store write: delete a ManagedEnvironment by key. -/
def removeManagedEnvironment (st : Cluster) (ns name : String) : Cluster :=
  { st with managedEnvironments :=
      st.managedEnvironments.filter (fun x => !(x.ns == ns && x.name == name)) }

/-- Store write: create-or-replace a Secret under its key. -/
def upsertSecret (st : Cluster) (s : Secret) : Cluster :=
  { st with secrets := s :: st.secrets.filter (fun x => !(x.ns == s.ns && x.name == s.name)) }

/-- Store write: delete a Secret by key. -/
def removeSecret (st : Cluster) (ns name : String) : Cluster :=
  { st with secrets := st.secrets.filter (fun x => !(x.ns == ns && x.name == name)) }

/-- Store write: `client.Status().Update` on an Environment — replaces the
stored Environment's condition list with the in-memory object's. -/
def statusUpdateStore (st : Cluster) (env : Environment) : Cluster :=
  { st with environments := st.environments.map fun e =>
      if e.ns == env.ns && e.name == env.name then { e with conditions := env.conditions } else e }

/-- Outcome of a client `Get`-style call: the object, a not-found error, or a
generic (non-not-found) error. -/
inductive GetResult (α : Type) where
  | found (a : α)
  | notFound
  | genericError
deriving DecidableEq

/-- Behaviour override for one client call site: `ok` follows the store,
`notFound` forces a not-found error, `generic` forces a non-not-found error. -/
inductive FaultMode where
  | ok
  | notFound
  | generic
deriving DecidableEq, Repr

/-- One `FaultMode` per client call site of the controller. -/
structure Faults where
  getEnv : FaultMode
  getManagedEnvDel : FaultMode
  deleteManagedEnv : FaultMode
  statusUpdate : FaultMode
  getDTC : FaultMode
  getDT : FaultMode
  getSecret : FaultMode
  deleteManagedSecret : FaultMode
  getManagedSecret : FaultMode
  createManagedSecret : FaultMode
  updateManagedSecret : FaultMode
  getManagedEnvCur : FaultMode
  createManagedEnv : FaultMode
  updateManagedEnv : FaultMode
deriving DecidableEq, Repr

/-- The fault-free client: every call site follows the store. -/
def Faults.none : Faults :=
  ⟨FaultMode.ok, FaultMode.ok, FaultMode.ok, FaultMode.ok, FaultMode.ok,
   FaultMode.ok, FaultMode.ok, FaultMode.ok, FaultMode.ok, FaultMode.ok,
   FaultMode.ok, FaultMode.ok, FaultMode.ok, FaultMode.ok⟩

/-- Apply a call site's fault mode to the store lookup it would perform. -/
def applyFault {α : Type} (f : FaultMode) (lookup : Option α) : GetResult α :=
  match f with
  | FaultMode.generic => GetResult.genericError
  | FaultMode.notFound => GetResult.notFound
  | FaultMode.ok =>
    match lookup with
    | some a => GetResult.found a
    | none => GetResult.notFound

/-- A mutating client call performed by the controller, recorded in traces. -/
inductive Op where
  | createManagedEnv (ns name : String)
  | updateManagedEnv (ns name : String)
  | deleteManagedEnv (ns name : String)
  | createSecret (ns name : String)
  | updateSecret (ns name : String)
  | deleteSecret (ns name : String)
  | statusWrite (ns name : String)
deriving DecidableEq, Repr

/-- Whether an operation is a create or an update of a ManagedEnvironment or
of the managed secret (status writes, deletes are neither). -/
def Op.isCreateOrUpdate : Op → Bool
  | Op.createManagedEnv _ _ => true
  | Op.updateManagedEnv _ _ => true
  | Op.createSecret _ _ => true
  | Op.updateSecret _ _ => true
  | _ => false

/-- `generateManagedEnvSecretName` from the controller source. -/
def generateManagedEnvSecretName (envName : String) : String :=
  "managed-environment-secret-" ++ envName

/-- `generateEmptyManagedEnvironment` from the controller source. -/
def generateEmptyManagedEnvironment (environmentName environmentNamespace : String) :
    GitOpsDeploymentManagedEnvironment :=
  { name := "managed-environment-" ++ environmentName
  , ns := environmentNamespace
  , ownerReferences := []
  , spec := ⟨"", "", false, false, []⟩ }

/-- `findCondition` from the controller source: first condition of the given
type, if any. -/
def findCondition (conditions : List Condition) (conditionType : String) : Option Condition :=
  conditions.find? (fun c => c.condType == conditionType)

/-- Modelled from the spec: `insertOrUpdateConditionsInSlice` (defined in
`backend-shared`, outside the sources under review) upserts the condition into
the list keyed by its type; it reports `changed = false` exactly when a
condition of the same type with identical status, reason and message is
already present. -/
def insertOrUpdateConditionsInSlice (newCondition : Condition) (conditions : List Condition) :
    Bool × List Condition :=
  match conditions.find? (fun c => c.condType == newCondition.condType) with
  | some c =>
    if c.status == newCondition.status && c.reason == newCondition.reason &&
        c.message == newCondition.message then
      (false, conditions)
    else
      (true, conditions.map fun x =>
        if x.condType == newCondition.condType then newCondition else x)
  | none => (true, conditions ++ [newCondition])

/-- Result of a status-condition helper: whether it returned an error, the
(possibly mutated) in-memory Environment, the store, and the trace. -/
structure StatusResult where
  err : Bool
  environment : Environment
  cluster : Cluster
  trace : List Op
deriving DecidableEq, Repr

/-- `updateStatusConditionOfEnvironment` from the controller source: build the
new condition, upsert it into the in-memory list, and issue one status write
when the upsert changed anything. -/
def updateStatusConditionOfEnvironment (st : Cluster) (f : Faults) (message : String)
    (environment : Environment) (conditionType : String) (status : String) (reason : String) :
    StatusResult :=
  let newCondition : Condition :=
    { condType := conditionType, message := message, status := status, reason := reason }
  let r := insertOrUpdateConditionsInSlice newCondition environment.conditions
  if r.1 then
    let env2 := { environment with conditions := r.2 }
    match f.statusUpdate with
    | FaultMode.ok =>
      { err := false, environment := env2, cluster := statusUpdateStore st env2
      , trace := [Op.statusWrite env2.ns env2.name] }
    | _ => { err := true, environment := env2, cluster := st, trace := [] }
  else
    { err := false, environment := environment, cluster := st, trace := [] }

/-- `updateConditionErrorAsResolved` from the controller source: no-op when no
`ErrorOccurred` condition exists or when its reason is already the resolved
reason; otherwise flip it to false/resolved via one status write. -/
def updateConditionErrorAsResolved (st : Cluster) (f : Faults) (message : String)
    (environment : Environment) (conditionType : String) (status : String) (reason : String) :
    StatusResult :=
  match findCondition environment.conditions EnvironmentConditionErrorOccurred with
  | Option.none => { err := false, environment := environment, cluster := st, trace := [] }
  | some cond =>
    let reason2 := reason ++ "Resolved"
    if cond.reason != reason2 then
      updateStatusConditionOfEnvironment st f "" environment
        EnvironmentConditionErrorOccurred ConditionFalse reason2
    else
      { err := false, environment := environment, cluster := st, trace := [] }

/-- The managed-environment secret template built by `generateDesiredResource`
(name, namespace, label, owner reference and managed type; empty data). -/
def mkManagedEnvSecret (env : Environment) : Secret :=
  { name := generateManagedEnvSecretName env.name
  , ns := env.ns
  , secretType := ManagedEnvironmentSecretType
  , data := []
  , labels := [(managedEnvironmentSecretLabel, env.name)]
  , ownerReferences :=
      [{ apiVersion := env.apiVersion, kind := env.kind, name := env.name, uid := env.uid
       , blockOwnerDeletion := some true, controller := some true }] }

/-- Modelled from the spec: `getDTBoundByDTC` (defined outside the sources
under review) resolves the DeploymentTarget bound to a claim by the symmetric
match — the claim's recorded target name equals the target's name, or the
target's recorded claim reference equals the claim's name; it yields a
not-found outcome when no target in the claim's namespace matches. -/
def getDTBoundByDTC (st : Cluster) (f : Faults) (dtc : DeploymentTargetClaim) :
    GetResult DeploymentTarget :=
  applyFault f.getDT (st.deploymentTargets.find? fun dt =>
    dt.ns == dtc.ns && (dtc.targetName == dt.name || dt.claimRef == dtc.name))

/-- Result of `generateDesiredResource`: the desired ManagedEnvironment (or
none), the `semanticErrOccurred_dontContinue` flag, whether a non-nil error was
returned, the function's local copy of the Environment, the store, and the
trace. -/
structure GenResult where
  desired : Option GitOpsDeploymentManagedEnvironment
  semanticErr : Bool
  err : Bool
  environment : Environment
  cluster : Cluster
  trace : List Op
deriving DecidableEq, Repr

/-- Tail of `generateDesiredResource` (source lines 519-535): final resolve of
the error condition, then assembly of the desired GitOpsDeploymentManagedEnvironment
with its owner reference and spec. -/
def generateFinish (st : Cluster) (f : Faults) (env : Environment)
    (details : GitOpsDeploymentManagedEnvironmentSpec) (trace : List Op) : GenResult :=
  let r := updateConditionErrorAsResolved st f "" env
    EnvironmentConditionErrorOccurred ConditionFalse EnvironmentReasonErrorOccurred
  if r.err then
    ⟨Option.none, true, true, r.environment, r.cluster, trace ++ r.trace⟩
  else
    let managedEnv := generateEmptyManagedEnvironment env.name env.ns
    let final := { managedEnv with
      ownerReferences :=
        [{ apiVersion := GroupVersionGroup ++ "/" ++ GroupVersionVersion
         , kind := "Environment", name := env.name, uid := env.uid
         , blockOwnerDeletion := Option.none, controller := Option.none }]
      , spec := details }
    ⟨some final, false, false, r.environment, r.cluster, trace ++ r.trace⟩

/-- Common continuation of `generateDesiredResource` (source lines 418-535):
copy the inline cluster-resources flag and namespace list, resolve the source
credential secret, mirror it into the managed secret on the claim-driven path,
and assemble the desired resource. -/
def generateDesiredResourceCommon (st : Cluster) (f : Faults) (env : Environment)
    (details0 : GitOpsDeploymentManagedEnvironmentSpec) : GenResult :=
  let details :=
    match env.spec.unstableConfigurationFields with
    | some u => { details0 with clusterResources := u.clusterResources, namespaces := u.namespaces }
    | Option.none => details0
  match applyFault f.getSecret (findSecret st env.ns details.clusterCredentialsSecret) with
  | GetResult.notFound =>
    let r := updateStatusConditionOfEnvironment st f
      ("the secret " ++ details.clusterCredentialsSecret ++
        " referenced by the Environment resource was not found")
      env EnvironmentConditionErrorOccurred ConditionTrue EnvironmentReasonErrorOccurred
    if r.err then ⟨Option.none, true, true, r.environment, r.cluster, r.trace⟩
    else
      match f.deleteManagedSecret with
      | FaultMode.generic => ⟨Option.none, true, true, r.environment, r.cluster, r.trace⟩
      | FaultMode.notFound => ⟨Option.none, true, true, r.environment, r.cluster, r.trace⟩
      | FaultMode.ok =>
        match findSecret r.cluster env.ns (generateManagedEnvSecretName env.name) with
        | some _ =>
          ⟨Option.none, true, true, r.environment,
            removeSecret r.cluster env.ns (generateManagedEnvSecretName env.name),
            r.trace ++ [Op.deleteSecret env.ns (generateManagedEnvSecretName env.name)]⟩
        | Option.none => ⟨Option.none, true, true, r.environment, r.cluster, r.trace⟩
  | GetResult.genericError =>
    let r := updateStatusConditionOfEnvironment st f
      "Secret referenced by the Environment resource was not found"
      env EnvironmentConditionErrorOccurred ConditionTrue EnvironmentReasonErrorOccurred
    ⟨Option.none, true, true, r.environment, r.cluster, r.trace⟩
  | GetResult.found secret =>
    if env.GetDeploymentTargetClaimName != "" && secret.secretType != ManagedEnvironmentSecretType then
      match applyFault f.getManagedSecret
          (findSecret st env.ns (generateManagedEnvSecretName env.name)) with
      | GetResult.genericError => ⟨Option.none, false, true, env, st, []⟩
      | GetResult.notFound =>
        match f.createManagedSecret with
        | FaultMode.ok =>
          let newSec := { mkManagedEnvSecret env with data := secret.data }
          generateFinish (upsertSecret st newSec) f env
            { details with clusterCredentialsSecret := generateManagedEnvSecretName env.name }
            [Op.createSecret env.ns newSec.name]
        | _ => ⟨Option.none, false, true, env, st, []⟩
      | GetResult.found ms =>
        if secret.data != ms.data then
          match f.updateManagedSecret with
          | FaultMode.ok =>
            generateFinish (upsertSecret st { ms with data := secret.data }) f env
              { details with clusterCredentialsSecret := generateManagedEnvSecretName env.name }
              [Op.updateSecret env.ns ms.name]
          | _ => ⟨Option.none, false, true, env, st, []⟩
        else
          generateFinish st f env
            { details with clusterCredentialsSecret := generateManagedEnvSecretName env.name } []
    else
      generateFinish st f env details []

/-- `generateDesiredResource` from the controller source: claim branch,
inline-credentials branch, or neither; each claim-branch failure raises the
error condition and sets the semantic/no-retry flag and/or the error as the
source does. -/
def generateDesiredResource (st : Cluster) (f : Faults) (env : Environment) : GenResult :=
  let claimName := env.GetDeploymentTargetClaimName
  if claimName != "" then
    match applyFault f.getDTC (findDeploymentTargetClaim st env.ns claimName) with
    | GetResult.notFound =>
      let r := updateStatusConditionOfEnvironment st f
        "DeploymentTargetClaim not found while generating the desired Environment resource"
        env EnvironmentConditionErrorOccurred ConditionTrue EnvironmentReasonErrorOccurred
      if r.err then ⟨Option.none, true, true, r.environment, r.cluster, r.trace⟩
      else ⟨Option.none, true, false, r.environment, r.cluster, r.trace⟩
    | GetResult.genericError =>
      let r := updateStatusConditionOfEnvironment st f
        "Unable to find DeploymentTarget for DeploymentTargetClaim"
        env EnvironmentConditionErrorOccurred ConditionTrue EnvironmentReasonErrorOccurred
      ⟨Option.none, true, true, r.environment, r.cluster, r.trace⟩
    | GetResult.found dtc =>
      let r1 := updateConditionErrorAsResolved st f "" env
        EnvironmentConditionErrorOccurred ConditionFalse EnvironmentReasonErrorOccurred
      if r1.err then ⟨Option.none, true, true, r1.environment, r1.cluster, r1.trace⟩
      else if dtc.phase != DeploymentTargetClaimPhase_Bound then
        ⟨Option.none, false, false, r1.environment, r1.cluster, r1.trace⟩
      else
        match getDTBoundByDTC r1.cluster f dtc with
        | GetResult.notFound =>
          let r2 := updateStatusConditionOfEnvironment r1.cluster f
            "DeploymentTarget not found for DeploymentTargetClaim"
            r1.environment EnvironmentConditionErrorOccurred ConditionTrue EnvironmentReasonErrorOccurred
          if r2.err then ⟨Option.none, true, true, r2.environment, r2.cluster, r1.trace ++ r2.trace⟩
          else ⟨Option.none, true, false, r2.environment, r2.cluster, r1.trace ++ r2.trace⟩
        | GetResult.genericError =>
          let r2 := updateStatusConditionOfEnvironment r1.cluster f
            "Unable to find the DeploymentTarget for DeploymentTargetClaim"
            r1.environment EnvironmentConditionErrorOccurred ConditionTrue EnvironmentReasonErrorOccurred
          ⟨Option.none, true, true, r2.environment, r2.cluster, r1.trace ++ r2.trace⟩
        | GetResult.found dt =>
          let r2 := updateConditionErrorAsResolved r1.cluster f "" r1.environment
            EnvironmentConditionErrorOccurred ConditionFalse EnvironmentReasonErrorOccurred
          if r2.err then ⟨Option.none, true, true, r2.environment, r2.cluster, r1.trace ++ r2.trace⟩
          else
            let details : GitOpsDeploymentManagedEnvironmentSpec :=
              ⟨dt.kubernetesClusterCredentials.apiURL,
               dt.kubernetesClusterCredentials.clusterCredentialsSecret,
               dt.kubernetesClusterCredentials.allowInsecureSkipTLSVerify, false, []⟩
            let g := generateDesiredResourceCommon r2.cluster f r2.environment details
            { g with trace := r1.trace ++ r2.trace ++ g.trace }
  else
    match env.spec.unstableConfigurationFields with
    | some u =>
      let details : GitOpsDeploymentManagedEnvironmentSpec :=
        ⟨u.apiURL, u.clusterCredentialsSecret, u.allowInsecureSkipTLSVerify, false, []⟩
      generateDesiredResourceCommon st f env details
    | Option.none => ⟨Option.none, false, false, env, st, []⟩

/-- Result of one `Reconcile` call: `ok` is true exactly when the returned
error is nil, together with the resulting store and the trace of mutating
calls.  (The source always returns an empty `ctrl.Result`, so only the error
component is observable.) -/
structure ReconcileResult where
  ok : Bool
  cluster : Cluster
  trace : List Op
deriving DecidableEq, Repr

/-- `Reconcile` from the controller source. -/
def Reconcile (st : Cluster) (f : Faults) (reqNs reqName : String) : ReconcileResult :=
  if st.deletingNamespaces.contains reqNs then ⟨true, st, []⟩
  else
    match applyFault f.getEnv (findEnvironment st reqNs reqName) with
    | GetResult.genericError => ⟨false, st, []⟩
    | GetResult.notFound =>
      let key := generateEmptyManagedEnvironment reqName reqNs
      match applyFault f.getManagedEnvDel (findManagedEnvironment st reqNs key.name) with
      | GetResult.notFound => ⟨true, st, []⟩
      | GetResult.genericError => ⟨false, st, []⟩
      | GetResult.found _ =>
        match f.deleteManagedEnv with
        | FaultMode.ok =>
          ⟨true, removeManagedEnvironment st reqNs key.name, [Op.deleteManagedEnv reqNs key.name]⟩
        | FaultMode.notFound => ⟨true, st, []⟩
        | FaultMode.generic => ⟨false, st, []⟩
    | GetResult.found environment =>
      if environment.GetDeploymentTargetClaimName != "" &&
          environment.spec.unstableConfigurationFields.isSome then
        let r := updateStatusConditionOfEnvironment st f
          "Environment is invalid since it cannot have both DeploymentTargetClaim and credentials configuration set"
          environment EnvironmentConditionErrorOccurred ConditionTrue EnvironmentReasonErrorOccurred
        if r.err then ⟨false, r.cluster, r.trace⟩ else ⟨true, r.cluster, r.trace⟩
      else
        let g := generateDesiredResource st f environment
        if g.err then ⟨false, g.cluster, g.trace⟩
        else if g.semanticErr then ⟨true, g.cluster, g.trace⟩
        else
          match g.desired with
          | Option.none =>
            let r := updateConditionErrorAsResolved g.cluster f "" environment
              EnvironmentConditionErrorOccurred ConditionFalse EnvironmentReasonErrorOccurred
            if r.err then ⟨false, r.cluster, g.trace ++ r.trace⟩
            else ⟨true, r.cluster, g.trace ++ r.trace⟩
          | some desired =>
            match applyFault f.getManagedEnvCur
                (findManagedEnvironment g.cluster environment.ns
                  ("managed-environment-" ++ environment.name)) with
            | GetResult.notFound =>
              match f.createManagedEnv with
              | FaultMode.ok =>
                ⟨true, upsertManagedEnvironment g.cluster desired,
                  g.trace ++ [Op.createManagedEnv desired.ns desired.name]⟩
              | _ => ⟨false, g.cluster, g.trace⟩
            | GetResult.genericError => ⟨false, g.cluster, g.trace⟩
            | GetResult.found current =>
              let r := updateConditionErrorAsResolved g.cluster f "" environment
                EnvironmentConditionErrorOccurred ConditionFalse EnvironmentReasonErrorOccurred
              if r.err then ⟨false, r.cluster, g.trace ++ r.trace⟩
              else if current.spec == desired.spec then ⟨true, r.cluster, g.trace ++ r.trace⟩
              else
                let current2 := { current with spec := desired.spec }
                match f.updateManagedEnv with
                | FaultMode.ok =>
                  ⟨true, upsertManagedEnvironment r.cluster current2,
                    g.trace ++ r.trace ++ [Op.updateManagedEnv current2.ns current2.name]⟩
                | _ => ⟨false, r.cluster, g.trace ++ r.trace⟩

/-- A `reconcile.Request`: the namespaced name of an Environment to requeue. -/
structure Request where
  ns : String
  name : String
deriving DecidableEq, Repr

/-- `findObjectsForDeploymentTarget` from the controller source: keep the
claims in the target's namespace that bidirectionally match the target, then
request every Environment in the namespace referencing a kept claim. -/
def findObjectsForDeploymentTarget (st : Cluster) (dt : DeploymentTarget) : List Request :=
  let dtcList := st.deploymentTargetClaims.filter (fun d => d.ns == dt.ns)
  let dtcs := dtcList.filter (fun dtc => dtc.targetName == dt.name || dt.claimRef == dtc.name)
  let envList := st.environments.filter (fun e => e.ns == dt.ns)
  envList.flatMap fun env =>
    dtcs.filterMap fun dtc =>
      if env.GetDeploymentTargetClaimName == dtc.name then some ⟨env.ns, env.name⟩
      else Option.none

/-- Go map lookup with the zero-value default (`labels[key]`). -/
def getLabel (labels : List (String × String)) (key : String) : String :=
  match labels.find? (fun p => p.1 == key) with
  | some p => p.2
  | Option.none => ""

/-- The per-Environment loop of `findObjectsForSecret` (source lines 745-780):
an Environment without a claim reference is skipped; a failed fetch of any
Environment's claim aborts the whole mapping (`none`, the source's
`return []`); otherwise the first target bidirectionally matching the claim is
taken (zero-value target when none matches) and the Environment is requested
when that target's stored secret reference equals the changed secret's name. -/
def findObjectsForSecretLoop (st : Cluster) (secret : Secret)
    (dtList : List DeploymentTarget) : List Environment → Option (List Request)
  | [] => some []
  | env :: rest =>
    let dtcName := env.GetDeploymentTargetClaimName
    if dtcName == "" then findObjectsForSecretLoop st secret dtList rest
    else
      match findDeploymentTargetClaim st env.ns dtcName with
      | Option.none => Option.none
      | some dtc =>
        let dtSecretRef :=
          match dtList.find? (fun d => dtc.targetName == d.name || d.claimRef == dtc.name) with
          | some d => d.kubernetesClusterCredentials.clusterCredentialsSecret
          | Option.none => ""
        (findObjectsForSecretLoop st secret dtList rest).map fun reqs =>
          (if dtSecretRef == secret.name then [Request.mk env.ns env.name] else []) ++ reqs

/-- `findObjectsForSecret` from the controller source: filter by secret type;
managed-type secrets map through the environment label; opaque secrets map
through the Environment → claim → target resolution, any claim-fetch failure
yielding the empty request set. -/
def findObjectsForSecret (st : Cluster) (secret : Secret) : List Request :=
  if secret.secretType != SecretTypeOpaque && secret.secretType != ManagedEnvironmentSecretType then
    []
  else if secret.secretType == ManagedEnvironmentSecretType then
    let envName := getLabel secret.labels managedEnvironmentSecretLabel
    if envName != "" then [Request.mk secret.ns envName] else []
  else
    let envList := st.environments.filter (fun e => e.ns == secret.ns)
    let dtList := st.deploymentTargets.filter (fun d => d.ns == secret.ns)
    match findObjectsForSecretLoop st secret dtList envList with
    | some reqs => reqs
    | Option.none => []

/-- A trace containing no create and no update of a ManagedEnvironment or of
the managed secret. -/
def noCreateUpdate (tr : List Op) : Bool :=
  tr.all fun op => !op.isCreateOrUpdate

/-- Number of conditions of a given type in a condition list. -/
def countType (l : List Condition) (t : String) : Nat :=
  (l.filter fun c => c.condType == t).length

/-- Concrete ManagedEnvironment for the C2 witness. -/
def witnessDeletionManagedEnv : GitOpsDeploymentManagedEnvironment :=
  ⟨"managed-environment-gone", "n1", [], ⟨"", "", false, false, []⟩⟩

/-- Concrete store for the C2 witness. -/
def witnessDeletionCluster : Cluster := ⟨[], [witnessDeletionManagedEnv], [], [], [], []⟩

/-- Concrete raised condition for the C9 witness. -/
def witnessResolveCondition : Condition :=
  ⟨"ErrorOccurred", "boom", "True", "ErrorOccurred"⟩

/-- Concrete Environment carrying a raised condition, for the C9 witness. -/
def witnessResolveEnv : Environment :=
  ⟨"e", "n", "av", "Environment", "u", ⟨"", Option.none⟩, [witnessResolveCondition]⟩

/-- Concrete store for the C9 witness. -/
def witnessResolveCluster : Cluster := ⟨[witnessResolveEnv], [], [], [], [], []⟩

/-- Concrete Environment with both a claim reference and inline credentials,
for the C4 witness. -/
def witnessExclusiveEnv : Environment :=
  ⟨"e4", "n4", "av", "Environment", "u4",
   ⟨"c", some ⟨"url", "sec", false, false, []⟩⟩, []⟩

/-- Concrete store for the C4 witness. -/
def witnessExclusiveCluster : Cluster := ⟨[witnessExclusiveEnv], [], [], [], [], []⟩

/-- Concrete claim-driven Environment for the C5 counterexample. -/
def cex5Env : Environment := ⟨"e2", "n1", "av", "Environment", "u2", ⟨"c1", Option.none⟩, []⟩

/-- Concrete store for the C5 counterexample. -/
def cex5Cluster : Cluster := ⟨[cex5Env], [], [], [], [], []⟩

/-- Fault injection for the C5 counterexample: the DeploymentTargetClaim fetch
fails with a generic (non-not-found) error. -/
def cex5Faults : Faults := { Faults.none with getDTC := FaultMode.generic }

/-- Concrete inline-credentials Environment for the credential-secret-fetch
part of the amended C5 theorem's witness. -/
def cex5bEnv : Environment :=
  ⟨"e5b", "n5", "av", "Environment", "u5b",
   ⟨"", some ⟨"https://api5", "creds5", false, false, []⟩⟩, []⟩

/-- Concrete store for the credential-secret-fetch part of the amended C5
theorem's witness. -/
def cex5bCluster : Cluster := ⟨[cex5bEnv], [], [], [], [], []⟩

/-- Fault injection: the credential-secret fetch fails with a generic
(non-not-found) error. -/
def cex5bFaults : Faults := { Faults.none with getSecret := FaultMode.generic }

/-- Concrete claim-driven Environment for the managed-secret-fetch part of the
amended C5 theorem's witness. -/
def cex5cEnv : Environment :=
  ⟨"e5c", "n5c", "av", "Environment", "u5c", ⟨"c5c", Option.none⟩, []⟩

/-- Concrete bound claim for the managed-secret-fetch part of the witness. -/
def cex5cDTC : DeploymentTargetClaim := ⟨"c5c", "n5c", "t5c", "Bound"⟩

/-- Concrete matching target for the managed-secret-fetch part of the
witness. -/
def cex5cDT : DeploymentTarget := ⟨"t5c", "n5c", "", ⟨"https://dt5c", "src5c", false⟩⟩

/-- Concrete source credential secret for the managed-secret-fetch part of the
witness. -/
def cex5cSecret : Secret := ⟨"src5c", "n5c", "Opaque", [("a", "1")], [], []⟩

/-- Concrete store for the managed-secret-fetch part of the witness. -/
def cex5cCluster : Cluster :=
  ⟨[cex5cEnv], [], [cex5cSecret], [cex5cDTC], [cex5cDT], []⟩

/-- Fault injection: the managed-secret fetch fails with a generic
(non-not-found) error. -/
def cex5cFaults : Faults := { Faults.none with getManagedSecret := FaultMode.generic }

/-- Concrete inline credentials for the C1 witness. -/
def witnessInlineConfig : UnstableConfig := ⟨"https://api", "creds", true, true, ["x"]⟩

/-- Concrete Environment with inline credentials for the C1 witness. -/
def witnessInlineEnv : Environment :=
  ⟨"e1", "n1", "av", "Environment", "u1", ⟨"", some witnessInlineConfig⟩, []⟩

/-- Concrete credential secret for the C1 witness. -/
def witnessInlineSecret : Secret := ⟨"creds", "n1", "Opaque", [("k", "v")], [], []⟩

/-- Concrete store for the C1 witness. -/
def witnessInlineCluster : Cluster :=
  ⟨[witnessInlineEnv], [], [witnessInlineSecret], [], [], []⟩

/-- Outcome required by the missing-secret claim: retryable failure, no
ManagedEnvironment mutation, no create/update in the trace, canonical managed
secret absent afterwards, and the missing-secret condition raised. -/
def missingSecretOutcome (st : Cluster) (ns n secretName : String) : Prop :=
  (Reconcile st Faults.none ns n).ok = false ∧
  (Reconcile st Faults.none ns n).cluster.managedEnvironments = st.managedEnvironments ∧
  noCreateUpdate (Reconcile st Faults.none ns n).trace = true ∧
  findSecret (Reconcile st Faults.none ns n).cluster ns
    (generateManagedEnvSecretName n) = Option.none ∧
  ∃ env2, findEnvironment (Reconcile st Faults.none ns n).cluster ns n = some env2 ∧
    findCondition env2.conditions EnvironmentConditionErrorOccurred = some
      ⟨EnvironmentConditionErrorOccurred,
       "the secret " ++ secretName ++ " referenced by the Environment resource was not found",
       ConditionTrue, EnvironmentReasonErrorOccurred⟩

/-- Concrete Environment whose inline credential secret is absent, for the C6
witness. -/
def witnessMissingEnv : Environment :=
  ⟨"e6", "n6", "av", "Environment", "u6",
   ⟨"", some ⟨"url", "missing", false, false, []⟩⟩, []⟩

/-- Concrete store for the C6 witness. -/
def witnessMissingCluster : Cluster := ⟨[witnessMissingEnv], [], [], [], [], []⟩

/-- Concrete claim-driven Environment for the C7 witness. -/
def witnessMirrorEnv : Environment :=
  ⟨"e2", "n1", "appstudio.redhat.com/v1alpha1", "Environment", "u2", ⟨"c1", Option.none⟩, []⟩

/-- Concrete bound claim for the C7 witness. -/
def witnessMirrorDTC : DeploymentTargetClaim := ⟨"c1", "n1", "t1", "Bound"⟩

/-- Concrete target for the C7 witness. -/
def witnessMirrorDT : DeploymentTarget := ⟨"t1", "n1", "", ⟨"https://dt", "src", false⟩⟩

/-- Concrete plain-typed source secret for the C7 witness. -/
def witnessMirrorSecret : Secret := ⟨"src", "n1", "Opaque", [("a", "1")], [], []⟩

/-- Concrete store for the C7 witness. -/
def witnessMirrorCluster : Cluster :=
  ⟨[witnessMirrorEnv], [], [witnessMirrorSecret], [witnessMirrorDTC], [witnessMirrorDT], []⟩

/-- Concrete Environments, claim and target for the C8 fan-out instance. -/
def fanoutEnv1 : Environment := ⟨"E1", "nz", "av", "Environment", "u1", ⟨"c", Option.none⟩, []⟩

/-- Second Environment referencing claim `c`. -/
def fanoutEnv2 : Environment := ⟨"E2", "nz", "av", "Environment", "u2", ⟨"c", Option.none⟩, []⟩

/-- Environment referencing a different claim. -/
def fanoutEnv3 : Environment := ⟨"E3", "nz", "av", "Environment", "u3", ⟨"other", Option.none⟩, []⟩

/-- Claim bound to target `t`. -/
def fanoutDTC : DeploymentTargetClaim := ⟨"c", "nz", "t", "Bound"⟩

/-- The changed target. -/
def fanoutDT : DeploymentTarget := ⟨"t", "nz", "", ⟨"url", "sec", false⟩⟩

/-- Concrete store for the C8 fan-out instance. -/
def fanoutCluster : Cluster :=
  ⟨[fanoutEnv1, fanoutEnv2, fanoutEnv3], [], [], [fanoutDTC], [], []⟩

/-- Concrete Environment with a resolvable claim, for the C10 witness. -/
def danglingEnvOk : Environment := ⟨"eok", "n1", "av", "Environment", "u1", ⟨"c1", Option.none⟩, []⟩

/-- Concrete Environment with a dangling claim reference, for the C10 witness. -/
def danglingEnvBad : Environment :=
  ⟨"ebad", "n1", "av", "Environment", "u2", ⟨"cmissing", Option.none⟩, []⟩

/-- Concrete opaque secret for the C10 witness. -/
def danglingSecret : Secret := ⟨"src", "n1", "Opaque", [("a", "1")], [], []⟩

/-- Concrete store for the C10 witness: `eok` resolves through claim `c1` and
target `t1` to the changed secret, `ebad` has a dangling claim. -/
def danglingCluster : Cluster :=
  ⟨[danglingEnvOk, danglingEnvBad], [], [danglingSecret], [⟨"c1", "n1", "t1", "Bound"⟩],
   [⟨"t1", "n1", "", ⟨"https://dt", "src", false⟩⟩], []⟩

/-- Two stores that agree on DeploymentTargetClaims, DeploymentTargets,
deleting namespaces, and on the spec of every stored Environment (conditions
may differ).  Every Reconcile run maps a store to one agreeing with it. -/
def ClusterAgrees (st2 st : Cluster) : Prop :=
  st2.deploymentTargetClaims = st.deploymentTargetClaims ∧
  st2.deploymentTargets = st.deploymentTargets ∧
  st2.deletingNamespaces = st.deletingNamespaces ∧
  ∀ a b, ((findEnvironment st2 a b).map fun e => e.spec) =
    ((findEnvironment st a b).map fun e => e.spec)

/-- Idempotence witness input: an inline-credentials Environment whose source
secret exists, so the first run creates the ManagedEnvironment. -/
def idemEnv : Environment :=
  { name := "env-idem", ns := "team-idem", apiVersion := "appstudio.redhat.com/v1alpha1"
  , kind := "Environment", uid := "uid-idem"
  , spec := { deploymentTargetClaimName := ""
            , unstableConfigurationFields :=
                some ⟨"https://api.idem", "idem-secret", true, false, ["ns1"]⟩ }
  , conditions := [] }

/-- Idempotence witness input: the inline source secret. -/
def idemSecret : Secret :=
  { name := "idem-secret", ns := "team-idem", secretType := SecretTypeOpaque
  , data := [("kubeconfig", "abc")], labels := [], ownerReferences := [] }

/-- Idempotence witness input: the store before the first run. -/
def idemCluster : Cluster :=
  { environments := [idemEnv], managedEnvironments := [], secrets := [idemSecret]
  , deploymentTargetClaims := [], deploymentTargets := [], deletingNamespaces := [] }

/-! ### Generic list lemmas for the keyed-store operations -/

theorem find?_filter_imp {α : Type} (p q : α → Bool) (l : List α)
    (h : ∀ x, p x = true → q x = true) : (l.filter q).find? p = l.find? p := by
  induction l with
  | nil => rfl
  | cons a t ih =>
    cases hq : q a with
    | true =>
      cases hp : p a with
      | true => simp [List.filter_cons, hq, List.find?_cons, hp]
      | false => simp [List.filter_cons, hq, List.find?_cons, hp, ih]
    | false =>
      have hp : p a = false := by
        cases hpa : p a with
        | false => rfl
        | true => simp [h a hpa] at hq
      simp [List.filter_cons, hq, List.find?_cons, hp, ih]

theorem find?_filter_none {α : Type} (p q : α → Bool) (l : List α)
    (h : ∀ x, p x = true → q x = false) : (l.filter q).find? p = Option.none := by
  induction l with
  | nil => rfl
  | cons a t ih =>
    cases hq : q a with
    | true =>
      have hp : p a = false := by
        cases hpa : p a with
        | false => rfl
        | true => simp [h a hpa] at hq
      simp [List.filter_cons, hq, List.find?_cons, hp, ih]
    | false => simp [List.filter_cons, hq, ih]

theorem find?_map_pres {α : Type} (g : α → α) (p : α → Bool) (l : List α)
    (h : ∀ x, p (g x) = p x) : (l.map g).find? p = (l.find? p).map g := by
  induction l with
  | nil => rfl
  | cons a t ih =>
    cases hp : p a with
    | true => simp [List.find?_cons, h a, hp]
    | false => simp [List.find?_cons, h a, hp, ih]

/-! ### Store lemmas: each write touches only its own entity kind -/

@[simp] theorem upsertManagedEnvironment_environments (st : Cluster) (m : GitOpsDeploymentManagedEnvironment) :
    (upsertManagedEnvironment st m).environments = st.environments := rfl

@[simp] theorem upsertManagedEnvironment_secrets (st : Cluster) (m : GitOpsDeploymentManagedEnvironment) :
    (upsertManagedEnvironment st m).secrets = st.secrets := rfl

@[simp] theorem upsertManagedEnvironment_claims (st : Cluster) (m : GitOpsDeploymentManagedEnvironment) :
    (upsertManagedEnvironment st m).deploymentTargetClaims = st.deploymentTargetClaims := rfl

@[simp] theorem upsertManagedEnvironment_targets (st : Cluster) (m : GitOpsDeploymentManagedEnvironment) :
    (upsertManagedEnvironment st m).deploymentTargets = st.deploymentTargets := rfl

@[simp] theorem upsertManagedEnvironment_deleting (st : Cluster) (m : GitOpsDeploymentManagedEnvironment) :
    (upsertManagedEnvironment st m).deletingNamespaces = st.deletingNamespaces := rfl

@[simp] theorem removeManagedEnvironment_environments (st : Cluster) (ns n : String) :
    (removeManagedEnvironment st ns n).environments = st.environments := rfl

@[simp] theorem removeManagedEnvironment_secrets (st : Cluster) (ns n : String) :
    (removeManagedEnvironment st ns n).secrets = st.secrets := rfl

@[simp] theorem removeManagedEnvironment_claims (st : Cluster) (ns n : String) :
    (removeManagedEnvironment st ns n).deploymentTargetClaims = st.deploymentTargetClaims := rfl

@[simp] theorem removeManagedEnvironment_targets (st : Cluster) (ns n : String) :
    (removeManagedEnvironment st ns n).deploymentTargets = st.deploymentTargets := rfl

@[simp] theorem removeManagedEnvironment_deleting (st : Cluster) (ns n : String) :
    (removeManagedEnvironment st ns n).deletingNamespaces = st.deletingNamespaces := rfl

@[simp] theorem upsertSecret_environments (st : Cluster) (s : Secret) :
    (upsertSecret st s).environments = st.environments := rfl

@[simp] theorem upsertSecret_managedEnvironments (st : Cluster) (s : Secret) :
    (upsertSecret st s).managedEnvironments = st.managedEnvironments := rfl

@[simp] theorem upsertSecret_claims (st : Cluster) (s : Secret) :
    (upsertSecret st s).deploymentTargetClaims = st.deploymentTargetClaims := rfl

@[simp] theorem upsertSecret_targets (st : Cluster) (s : Secret) :
    (upsertSecret st s).deploymentTargets = st.deploymentTargets := rfl

@[simp] theorem upsertSecret_deleting (st : Cluster) (s : Secret) :
    (upsertSecret st s).deletingNamespaces = st.deletingNamespaces := rfl

@[simp] theorem removeSecret_environments (st : Cluster) (ns n : String) :
    (removeSecret st ns n).environments = st.environments := rfl

@[simp] theorem removeSecret_managedEnvironments (st : Cluster) (ns n : String) :
    (removeSecret st ns n).managedEnvironments = st.managedEnvironments := rfl

@[simp] theorem removeSecret_claims (st : Cluster) (ns n : String) :
    (removeSecret st ns n).deploymentTargetClaims = st.deploymentTargetClaims := rfl

@[simp] theorem removeSecret_targets (st : Cluster) (ns n : String) :
    (removeSecret st ns n).deploymentTargets = st.deploymentTargets := rfl

@[simp] theorem removeSecret_deleting (st : Cluster) (ns n : String) :
    (removeSecret st ns n).deletingNamespaces = st.deletingNamespaces := rfl

@[simp] theorem statusUpdateStore_managedEnvironments (st : Cluster) (env : Environment) :
    (statusUpdateStore st env).managedEnvironments = st.managedEnvironments := rfl

@[simp] theorem statusUpdateStore_secrets (st : Cluster) (env : Environment) :
    (statusUpdateStore st env).secrets = st.secrets := rfl

@[simp] theorem statusUpdateStore_claims (st : Cluster) (env : Environment) :
    (statusUpdateStore st env).deploymentTargetClaims = st.deploymentTargetClaims := rfl

@[simp] theorem statusUpdateStore_targets (st : Cluster) (env : Environment) :
    (statusUpdateStore st env).deploymentTargets = st.deploymentTargets := rfl

@[simp] theorem statusUpdateStore_deleting (st : Cluster) (env : Environment) :
    (statusUpdateStore st env).deletingNamespaces = st.deletingNamespaces := rfl

/-! ### Keyed-lookup lemmas over the store writes -/

theorem findManagedEnvironment_upsert (st : Cluster) (m : GitOpsDeploymentManagedEnvironment)
    (ns n : String) :
    findManagedEnvironment (upsertManagedEnvironment st m) ns n =
      if m.ns == ns && m.name == n then some m else findManagedEnvironment st ns n := by
  unfold findManagedEnvironment upsertManagedEnvironment
  dsimp only
  by_cases hk : (m.ns == ns && m.name == n) = true
  · rw [if_pos hk]
    exact List.find?_cons_of_pos _ hk
  · rw [if_neg hk]
    refine (List.find?_cons_of_neg _ (by simpa using hk)).trans ?_
    apply find?_filter_imp
    intro x hx
    simp only [Bool.and_eq_true, beq_iff_eq] at hx hk
    have hq : (x.ns == m.ns && x.name == m.name) = false := by
      apply Bool.eq_false_iff.mpr
      intro hc
      simp only [Bool.and_eq_true, beq_iff_eq] at hc
      exact hk ⟨hc.1.symm.trans hx.1, hc.2.symm.trans hx.2⟩
    simp [hq]

theorem findSecret_upsert (st : Cluster) (s : Secret) (ns n : String) :
    findSecret (upsertSecret st s) ns n =
      if s.ns == ns && s.name == n then some s else findSecret st ns n := by
  unfold findSecret upsertSecret
  dsimp only
  by_cases hk : (s.ns == ns && s.name == n) = true
  · rw [if_pos hk]
    exact List.find?_cons_of_pos _ hk
  · rw [if_neg hk]
    refine (List.find?_cons_of_neg _ (by simpa using hk)).trans ?_
    apply find?_filter_imp
    intro x hx
    simp only [Bool.and_eq_true, beq_iff_eq] at hx hk
    have hq : (x.ns == s.ns && x.name == s.name) = false := by
      apply Bool.eq_false_iff.mpr
      intro hc
      simp only [Bool.and_eq_true, beq_iff_eq] at hc
      exact hk ⟨hc.1.symm.trans hx.1, hc.2.symm.trans hx.2⟩
    simp [hq]

theorem findManagedEnvironment_remove (st : Cluster) (ns1 n1 ns n : String) :
    findManagedEnvironment (removeManagedEnvironment st ns1 n1) ns n =
      if ns1 == ns && n1 == n then Option.none else findManagedEnvironment st ns n := by
  unfold findManagedEnvironment removeManagedEnvironment
  dsimp only
  by_cases hk : (ns1 == ns && n1 == n) = true
  · rw [if_pos hk]
    simp only [Bool.and_eq_true, beq_iff_eq] at hk
    apply find?_filter_none
    intro x hx
    simp only [Bool.and_eq_true, beq_iff_eq] at hx
    have : (x.ns == ns1 && x.name == n1) = true := by
      simp only [Bool.and_eq_true, beq_iff_eq]
      exact ⟨hx.1.trans hk.1.symm, hx.2.trans hk.2.symm⟩
    simp [this]
  · rw [if_neg hk]
    apply find?_filter_imp
    intro x hx
    simp only [Bool.and_eq_true, beq_iff_eq] at hx hk
    have hq : (x.ns == ns1 && x.name == n1) = false := by
      apply Bool.eq_false_iff.mpr
      intro hc
      simp only [Bool.and_eq_true, beq_iff_eq] at hc
      exact hk ⟨hc.1.symm.trans hx.1, hc.2.symm.trans hx.2⟩
    simp [hq]

theorem findSecret_remove (st : Cluster) (ns1 n1 ns n : String) :
    findSecret (removeSecret st ns1 n1) ns n =
      if ns1 == ns && n1 == n then Option.none else findSecret st ns n := by
  unfold findSecret removeSecret
  dsimp only
  by_cases hk : (ns1 == ns && n1 == n) = true
  · rw [if_pos hk]
    simp only [Bool.and_eq_true, beq_iff_eq] at hk
    apply find?_filter_none
    intro x hx
    simp only [Bool.and_eq_true, beq_iff_eq] at hx
    have : (x.ns == ns1 && x.name == n1) = true := by
      simp only [Bool.and_eq_true, beq_iff_eq]
      exact ⟨hx.1.trans hk.1.symm, hx.2.trans hk.2.symm⟩
    simp [this]
  · rw [if_neg hk]
    apply find?_filter_imp
    intro x hx
    simp only [Bool.and_eq_true, beq_iff_eq] at hx hk
    have hq : (x.ns == ns1 && x.name == n1) = false := by
      apply Bool.eq_false_iff.mpr
      intro hc
      simp only [Bool.and_eq_true, beq_iff_eq] at hc
      exact hk ⟨hc.1.symm.trans hx.1, hc.2.symm.trans hx.2⟩
    simp [hq]

theorem findEnvironment_statusUpdateStore (st : Cluster) (env : Environment) (ns n : String) :
    findEnvironment (statusUpdateStore st env) ns n =
      (findEnvironment st ns n).map fun e =>
        if e.ns == env.ns && e.name == env.name then { e with conditions := env.conditions }
        else e := by
  unfold findEnvironment statusUpdateStore
  dsimp only
  apply find?_map_pres
  intro x
  by_cases hx : (x.ns == env.ns && x.name == env.name) = true
  · simp [hx]
  · simp [Bool.eq_false_iff.mpr hx]

/-! ### Traces containing no create/update of the derived resources -/

@[simp] theorem noCreateUpdate_nil : noCreateUpdate [] = true := rfl

@[simp] theorem noCreateUpdate_append (a b : List Op) :
    noCreateUpdate (a ++ b) = (noCreateUpdate a && noCreateUpdate b) := by
  simp [noCreateUpdate, List.all_append]

@[simp] theorem noCreateUpdate_statusWrite (ns n : String) :
    noCreateUpdate [Op.statusWrite ns n] = true := rfl

@[simp] theorem noCreateUpdate_deleteManagedEnv (ns n : String) :
    noCreateUpdate [Op.deleteManagedEnv ns n] = true := rfl

@[simp] theorem noCreateUpdate_deleteSecret (ns n : String) :
    noCreateUpdate [Op.deleteSecret ns n] = true := rfl

/-! ### Lemmas about the status-condition helpers -/

@[simp] theorem updateStatus_cluster_managedEnvironments (st : Cluster) (f : Faults)
    (m : String) (env : Environment) (t s r : String) :
    (updateStatusConditionOfEnvironment st f m env t s r).cluster.managedEnvironments =
      st.managedEnvironments := by
  unfold updateStatusConditionOfEnvironment
  dsimp only
  split
  · split <;> simp
  · rfl

@[simp] theorem updateStatus_cluster_secrets (st : Cluster) (f : Faults)
    (m : String) (env : Environment) (t s r : String) :
    (updateStatusConditionOfEnvironment st f m env t s r).cluster.secrets = st.secrets := by
  unfold updateStatusConditionOfEnvironment
  dsimp only
  split
  · split <;> simp
  · rfl

@[simp] theorem updateStatus_cluster_claims (st : Cluster) (f : Faults)
    (m : String) (env : Environment) (t s r : String) :
    (updateStatusConditionOfEnvironment st f m env t s r).cluster.deploymentTargetClaims =
      st.deploymentTargetClaims := by
  unfold updateStatusConditionOfEnvironment
  dsimp only
  split
  · split <;> simp
  · rfl

@[simp] theorem updateStatus_cluster_targets (st : Cluster) (f : Faults)
    (m : String) (env : Environment) (t s r : String) :
    (updateStatusConditionOfEnvironment st f m env t s r).cluster.deploymentTargets =
      st.deploymentTargets := by
  unfold updateStatusConditionOfEnvironment
  dsimp only
  split
  · split <;> simp
  · rfl

@[simp] theorem updateStatus_cluster_deleting (st : Cluster) (f : Faults)
    (m : String) (env : Environment) (t s r : String) :
    (updateStatusConditionOfEnvironment st f m env t s r).cluster.deletingNamespaces =
      st.deletingNamespaces := by
  unfold updateStatusConditionOfEnvironment
  dsimp only
  split
  · split <;> simp
  · rfl

@[simp] theorem updateStatus_err (st : Cluster) (f : Faults)
    (m : String) (env : Environment) (t s r : String) (hf : f.statusUpdate = FaultMode.ok) :
    (updateStatusConditionOfEnvironment st f m env t s r).err = false := by
  unfold updateStatusConditionOfEnvironment
  dsimp only
  rw [hf]
  split <;> rfl

@[simp] theorem updateStatus_trace (st : Cluster) (f : Faults)
    (m : String) (env : Environment) (t s r : String) :
    noCreateUpdate (updateStatusConditionOfEnvironment st f m env t s r).trace = true := by
  unfold updateStatusConditionOfEnvironment
  dsimp only
  split
  · split <;> simp
  · rfl

theorem updateStatus_environment_eq (st : Cluster) (f : Faults)
    (m : String) (env : Environment) (t s r : String) :
    ∃ c, (updateStatusConditionOfEnvironment st f m env t s r).environment =
      { env with conditions := c } := by
  unfold updateStatusConditionOfEnvironment
  dsimp only
  split
  · split
    · exact ⟨_, rfl⟩
    · exact ⟨_, rfl⟩
  · exact ⟨env.conditions, rfl⟩

@[simp] theorem resolve_cluster_managedEnvironments (st : Cluster) (f : Faults)
    (m : String) (env : Environment) (t s r : String) :
    (updateConditionErrorAsResolved st f m env t s r).cluster.managedEnvironments =
      st.managedEnvironments := by
  unfold updateConditionErrorAsResolved
  split
  · rfl
  · dsimp only
    split
    · simp
    · rfl

@[simp] theorem resolve_cluster_secrets (st : Cluster) (f : Faults)
    (m : String) (env : Environment) (t s r : String) :
    (updateConditionErrorAsResolved st f m env t s r).cluster.secrets = st.secrets := by
  unfold updateConditionErrorAsResolved
  split
  · rfl
  · dsimp only
    split
    · simp
    · rfl

@[simp] theorem resolve_cluster_claims (st : Cluster) (f : Faults)
    (m : String) (env : Environment) (t s r : String) :
    (updateConditionErrorAsResolved st f m env t s r).cluster.deploymentTargetClaims =
      st.deploymentTargetClaims := by
  unfold updateConditionErrorAsResolved
  split
  · rfl
  · dsimp only
    split
    · simp
    · rfl

@[simp] theorem resolve_cluster_targets (st : Cluster) (f : Faults)
    (m : String) (env : Environment) (t s r : String) :
    (updateConditionErrorAsResolved st f m env t s r).cluster.deploymentTargets =
      st.deploymentTargets := by
  unfold updateConditionErrorAsResolved
  split
  · rfl
  · dsimp only
    split
    · simp
    · rfl

@[simp] theorem resolve_cluster_deleting (st : Cluster) (f : Faults)
    (m : String) (env : Environment) (t s r : String) :
    (updateConditionErrorAsResolved st f m env t s r).cluster.deletingNamespaces =
      st.deletingNamespaces := by
  unfold updateConditionErrorAsResolved
  split
  · rfl
  · dsimp only
    split
    · simp
    · rfl

@[simp] theorem resolve_err (st : Cluster) (f : Faults)
    (m : String) (env : Environment) (t s r : String) (hf : f.statusUpdate = FaultMode.ok) :
    (updateConditionErrorAsResolved st f m env t s r).err = false := by
  unfold updateConditionErrorAsResolved
  split
  · rfl
  · dsimp only
    split
    · simp [hf]
    · rfl

@[simp] theorem resolve_trace (st : Cluster) (f : Faults)
    (m : String) (env : Environment) (t s r : String) :
    noCreateUpdate (updateConditionErrorAsResolved st f m env t s r).trace = true := by
  unfold updateConditionErrorAsResolved
  split
  · rfl
  · dsimp only
    split
    · simp
    · rfl

theorem resolve_environment_eq (st : Cluster) (f : Faults)
    (m : String) (env : Environment) (t s r : String) :
    ∃ c, (updateConditionErrorAsResolved st f m env t s r).environment =
      { env with conditions := c } := by
  unfold updateConditionErrorAsResolved
  split
  · exact ⟨env.conditions, rfl⟩
  · dsimp only
    split
    · exact updateStatus_environment_eq _ _ _ _ _ _ _
    · exact ⟨env.conditions, rfl⟩

/-! ### Condition upsert lemmas -/

theorem findCondition_upsert_self (c : Condition) (l : List Condition) :
    findCondition (insertOrUpdateConditionsInSlice c l).2 c.condType = some c := by
  unfold insertOrUpdateConditionsInSlice findCondition
  cases hf : l.find? (fun x => x.condType == c.condType) with
  | none =>
    dsimp only
    rw [List.find?_append, hf]
    simp
  | some c0 =>
    have hc0 : c0.condType = c.condType := by
      have := List.find?_some hf
      simpa using this
    dsimp only
    split
    · rename_i hid
      simp only [Bool.and_eq_true, beq_iff_eq] at hid
      have hceq : c0 = c := by
        obtain ⟨⟨h1, h2⟩, h3⟩ := hid
        cases c0; cases c
        simp_all
      dsimp only
      rw [hf, hceq]
    · rw [find?_map_pres]
      · rw [hf]
        simp [hc0]
      · intro x
        by_cases hx : (x.condType == c.condType) = true
        · simp [hx, beq_iff_eq.mp hx]
        · simp [Bool.eq_false_iff.mpr hx]

theorem insertOrUpdate_idem (c : Condition) (l : List Condition) :
    (insertOrUpdateConditionsInSlice c (insertOrUpdateConditionsInSlice c l).2).1 = false := by
  have h := findCondition_upsert_self c l
  unfold findCondition at h
  conv_lhs => rw [insertOrUpdateConditionsInSlice]
  rw [h]
  simp

theorem countType_upsert_one (c : Condition) (l : List Condition)
    (h : countType l c.condType ≤ 1) :
    countType (insertOrUpdateConditionsInSlice c l).2 c.condType = 1 := by
  unfold insertOrUpdateConditionsInSlice
  cases hf : l.find? (fun x => x.condType == c.condType) with
  | none =>
    have hnil : l.filter (fun x => x.condType == c.condType) = [] := by
      rw [List.filter_eq_nil_iff]
      intro x hx
      have := List.find?_eq_none.mp hf x hx
      simpa using this
    dsimp only
    unfold countType
    rw [List.filter_append, hnil]
    simp
  | some c0 =>
    have hmem := List.mem_of_find?_eq_some hf
    have hc0 : (c0.condType == c.condType) = true := by
      have := List.find?_some hf
      simpa using this
    have hpos : 1 ≤ countType l c.condType := by
      unfold countType
      have : c0 ∈ l.filter fun x => x.condType == c.condType := List.mem_filter.mpr ⟨hmem, hc0⟩
      exact List.length_pos_of_mem this
    have hone : countType l c.condType = 1 := Nat.le_antisymm h hpos
    dsimp only
    split
    · exact hone
    · unfold countType at hone ⊢
      rw [List.filter_map]
      have hpres : ∀ x : Condition,
          ((if x.condType == c.condType then c else x).condType == c.condType) =
            (x.condType == c.condType) := by
        intro x
        by_cases hx : (x.condType == c.condType) = true
        · simp [hx, beq_iff_eq.mp hx]
        · simp [Bool.eq_false_iff.mpr hx]
      have : (List.filter ((fun x => x.condType == c.condType) ∘
          fun x => if x.condType == c.condType then c else x) l) =
          List.filter (fun x => x.condType == c.condType) l := by
        apply List.filter_congr
        intro x _
        exact hpres x
      rw [this, List.length_map]
      exact hone

theorem findEnvironment_updateStatus (st : Cluster) (f : Faults) (m : String)
    (env : Environment) (t s r : String) (hf : f.statusUpdate = FaultMode.ok)
    (h : findEnvironment st env.ns env.name = some env) :
    findEnvironment (updateStatusConditionOfEnvironment st f m env t s r).cluster env.ns env.name =
      some (updateStatusConditionOfEnvironment st f m env t s r).environment := by
  unfold updateStatusConditionOfEnvironment
  dsimp only
  split
  · rw [hf]
    dsimp only
    rw [findEnvironment_statusUpdateStore, h]
    simp
  · exact h

theorem findEnvironment_resolve (st : Cluster) (f : Faults) (m : String)
    (env : Environment) (t s r : String) (hf : f.statusUpdate = FaultMode.ok)
    (h : findEnvironment st env.ns env.name = some env) :
    findEnvironment (updateConditionErrorAsResolved st f m env t s r).cluster env.ns env.name =
      some (updateConditionErrorAsResolved st f m env t s r).environment := by
  unfold updateConditionErrorAsResolved
  split
  · exact h
  · dsimp only
    split
    · exact findEnvironment_updateStatus _ _ _ _ _ _ _ hf h
    · exact h

/-! ### Claim theorems -/

/-- C2: when the Environment does not exist, Reconcile fetches the
canonically-named GitOpsDeploymentManagedEnvironment
(`managed-environment-<name>` in the request namespace); if it is absent,
Reconcile succeeds without mutating anything; if it is present, Reconcile
deletes exactly it and succeeds; a generic (non-not-found) error on that fetch
or on the delete makes Reconcile return a non-nil error. -/
theorem reconcile_absent_environment (st : Cluster) (ns n : String)
    (hns : st.deletingNamespaces.contains ns = false)
    (henv : findEnvironment st ns n = Option.none) :
    (findManagedEnvironment st ns ("managed-environment-" ++ n) = Option.none →
      Reconcile st Faults.none ns n = ⟨true, st, []⟩) ∧
    (∀ me, findManagedEnvironment st ns ("managed-environment-" ++ n) = some me →
      Reconcile st Faults.none ns n =
        ⟨true, removeManagedEnvironment st ns ("managed-environment-" ++ n),
         [Op.deleteManagedEnv ns ("managed-environment-" ++ n)]⟩) ∧
    ((Reconcile st { Faults.none with getManagedEnvDel := FaultMode.generic } ns n).ok = false) ∧
    (∀ me, findManagedEnvironment st ns ("managed-environment-" ++ n) = some me →
      (Reconcile st { Faults.none with deleteManagedEnv := FaultMode.generic } ns n).ok = false) := by
  have hns2 : ns ∉ st.deletingNamespaces := by simpa using hns
  refine ⟨?_, ?_, ?_, ?_⟩
  · intro hme
    simp [Reconcile, hns2, henv, hme, applyFault, Faults.none, generateEmptyManagedEnvironment]
  · intro me hme
    simp [Reconcile, hns2, henv, hme, applyFault, Faults.none, generateEmptyManagedEnvironment]
  · simp [Reconcile, hns2, henv, applyFault, Faults.none, generateEmptyManagedEnvironment]
  · intro me hme
    simp [Reconcile, hns2, henv, hme, applyFault, Faults.none, generateEmptyManagedEnvironment]

/-- Witness for C2 at a concrete store. -/
theorem reconcile_absent_environment_witness :
    witnessDeletionCluster.deletingNamespaces.contains "n1" = false ∧
    findEnvironment witnessDeletionCluster "n1" "gone" = Option.none ∧
    Reconcile witnessDeletionCluster Faults.none "n1" "gone" =
      ⟨true, removeManagedEnvironment witnessDeletionCluster "n1" ("managed-environment-" ++ "gone"),
       [Op.deleteManagedEnv "n1" ("managed-environment-" ++ "gone")]⟩ :=
  ⟨rfl, rfl,
    (reconcile_absent_environment witnessDeletionCluster "n1" "gone" rfl rfl).2.1
      witnessDeletionManagedEnv (by decide)⟩

/-- C9: the condition-resolve operation is idempotent — a no-op when no
`ErrorOccurred` condition is present, a no-op when the present condition's
reason already equals the given reason with `Resolved` appended, and otherwise
exactly one status write, after which resolving again is a no-op. -/
theorem resolve_idempotent (st : Cluster) (f : Faults) (env : Environment) (reason : String)
    (hf : f.statusUpdate = FaultMode.ok) :
    (findCondition env.conditions EnvironmentConditionErrorOccurred = Option.none →
      updateConditionErrorAsResolved st f "" env EnvironmentConditionErrorOccurred
          ConditionFalse reason = ⟨false, env, st, []⟩) ∧
    (∀ cond, findCondition env.conditions EnvironmentConditionErrorOccurred = some cond →
      cond.reason = reason ++ "Resolved" →
      updateConditionErrorAsResolved st f "" env EnvironmentConditionErrorOccurred
          ConditionFalse reason = ⟨false, env, st, []⟩) ∧
    (∀ cond, findCondition env.conditions EnvironmentConditionErrorOccurred = some cond →
      cond.reason ≠ reason ++ "Resolved" →
      (updateConditionErrorAsResolved st f "" env EnvironmentConditionErrorOccurred
          ConditionFalse reason).trace = [Op.statusWrite env.ns env.name] ∧
      updateConditionErrorAsResolved
          (updateConditionErrorAsResolved st f "" env EnvironmentConditionErrorOccurred
            ConditionFalse reason).cluster f ""
          (updateConditionErrorAsResolved st f "" env EnvironmentConditionErrorOccurred
            ConditionFalse reason).environment
          EnvironmentConditionErrorOccurred ConditionFalse reason =
        ⟨false,
          (updateConditionErrorAsResolved st f "" env EnvironmentConditionErrorOccurred
            ConditionFalse reason).environment,
          (updateConditionErrorAsResolved st f "" env EnvironmentConditionErrorOccurred
            ConditionFalse reason).cluster, []⟩) := by
  refine ⟨?_, ?_, ?_⟩
  · intro h
    simp [updateConditionErrorAsResolved, h]
  · intro cond hc heq
    simp [updateConditionErrorAsResolved, hc, heq]
  · intro cond hc hne
    have hbne : (cond.reason != reason ++ "Resolved") = true := by simp [hne]
    have hchanged : (insertOrUpdateConditionsInSlice
        { condType := EnvironmentConditionErrorOccurred, message := "", status := ConditionFalse,
          reason := reason ++ "Resolved" } env.conditions).1 = true := by
      unfold insertOrUpdateConditionsInSlice
      unfold findCondition at hc
      dsimp only
      rw [hc]
      have : (cond.reason == reason ++ "Resolved") = false := by simp [hne]
      simp [this]
    have hr1 : updateConditionErrorAsResolved st f "" env EnvironmentConditionErrorOccurred
        ConditionFalse reason =
        ⟨false,
          { env with conditions := (insertOrUpdateConditionsInSlice
              { condType := EnvironmentConditionErrorOccurred, message := "",
                status := ConditionFalse, reason := reason ++ "Resolved" } env.conditions).2 },
          statusUpdateStore st
            { env with conditions := (insertOrUpdateConditionsInSlice
                { condType := EnvironmentConditionErrorOccurred, message := "",
                  status := ConditionFalse, reason := reason ++ "Resolved" } env.conditions).2 },
          [Op.statusWrite env.ns env.name]⟩ := by
      simp [updateConditionErrorAsResolved, hc, hbne, updateStatusConditionOfEnvironment,
        hchanged, hf]
    have hfind := findCondition_upsert_self
      { condType := EnvironmentConditionErrorOccurred, message := "", status := ConditionFalse,
        reason := reason ++ "Resolved" } env.conditions
    constructor
    · rw [hr1]
    · rw [hr1]
      simp [updateConditionErrorAsResolved, hfind]

/-- Witness for C9 at a concrete condition list. -/
theorem resolve_idempotent_witness :
    Faults.none.statusUpdate = FaultMode.ok ∧
    findCondition witnessResolveEnv.conditions EnvironmentConditionErrorOccurred =
      some witnessResolveCondition ∧
    witnessResolveCondition.reason ≠ "ErrorOccurred" ++ "Resolved" ∧
    ((updateConditionErrorAsResolved witnessResolveCluster Faults.none "" witnessResolveEnv
        EnvironmentConditionErrorOccurred ConditionFalse "ErrorOccurred").trace =
      [Op.statusWrite witnessResolveEnv.ns witnessResolveEnv.name] ∧
    updateConditionErrorAsResolved
        (updateConditionErrorAsResolved witnessResolveCluster Faults.none "" witnessResolveEnv
          EnvironmentConditionErrorOccurred ConditionFalse "ErrorOccurred").cluster Faults.none ""
        (updateConditionErrorAsResolved witnessResolveCluster Faults.none "" witnessResolveEnv
          EnvironmentConditionErrorOccurred ConditionFalse "ErrorOccurred").environment
        EnvironmentConditionErrorOccurred ConditionFalse "ErrorOccurred" =
      ⟨false,
        (updateConditionErrorAsResolved witnessResolveCluster Faults.none "" witnessResolveEnv
          EnvironmentConditionErrorOccurred ConditionFalse "ErrorOccurred").environment,
        (updateConditionErrorAsResolved witnessResolveCluster Faults.none "" witnessResolveEnv
          EnvironmentConditionErrorOccurred ConditionFalse "ErrorOccurred").cluster, []⟩) :=
  ⟨rfl, rfl, by decide,
    (resolve_idempotent witnessResolveCluster Faults.none witnessResolveEnv "ErrorOccurred"
      rfl).2.2 witnessResolveCondition rfl (by decide)⟩

theorem insertOrUpdate_unchanged (c : Condition) (l : List Condition)
    (h : (insertOrUpdateConditionsInSlice c l).1 = false) :
    findCondition l c.condType = some c := by
  unfold insertOrUpdateConditionsInSlice at h
  unfold findCondition
  cases hf : l.find? (fun x => x.condType == c.condType) with
  | none => rw [hf] at h; simp at h
  | some c0 =>
    rw [hf] at h
    dsimp only at h
    split at h
    · rename_i hid
      simp only [Bool.and_eq_true, beq_iff_eq] at hid
      have hc0 : c0.condType = c.condType := by
        have := List.find?_some hf
        simpa using this
      have hceq : c0 = c := by
        obtain ⟨⟨h1, h2⟩, h3⟩ := hid
        cases c0; cases c
        simp_all
      exact congrArg some hceq
    · simp at h

theorem countType_pos_of_find (l : List Condition) (t : String) (c0 : Condition)
    (h : findCondition l t = some c0) : 1 ≤ countType l t := by
  unfold findCondition at h
  have hmem := List.mem_of_find?_eq_some h
  have hc0 := List.find?_some h
  unfold countType
  exact List.length_pos_of_mem (List.mem_filter.mpr ⟨hmem, hc0⟩)

/-- C4: an Environment with both a DeploymentTargetClaim reference and inline
credentials makes Reconcile raise the single `ErrorOccurred` condition with the
fixed invalidity message and return success, never touching the
ManagedEnvironments or Secrets; afterwards exactly one `ErrorOccurred`
condition is present, and a second Reconcile is a pure no-op. -/
theorem reconcile_mutually_exclusive (st : Cluster) (ns n : String) (env : Environment)
    (hns : st.deletingNamespaces.contains ns = false)
    (henv : findEnvironment st ns n = some env)
    (hclaim : env.GetDeploymentTargetClaimName ≠ "")
    (hinline : env.spec.unstableConfigurationFields.isSome = true)
    (hcount : countType env.conditions EnvironmentConditionErrorOccurred ≤ 1) :
    (Reconcile st Faults.none ns n).ok = true ∧
    (Reconcile st Faults.none ns n).cluster.managedEnvironments = st.managedEnvironments ∧
    (Reconcile st Faults.none ns n).cluster.secrets = st.secrets ∧
    noCreateUpdate (Reconcile st Faults.none ns n).trace = true ∧
    (∃ env2, findEnvironment (Reconcile st Faults.none ns n).cluster ns n = some env2 ∧
      countType env2.conditions EnvironmentConditionErrorOccurred = 1 ∧
      findCondition env2.conditions EnvironmentConditionErrorOccurred = some
        ⟨EnvironmentConditionErrorOccurred,
         "Environment is invalid since it cannot have both DeploymentTargetClaim and credentials configuration set",
         ConditionTrue, EnvironmentReasonErrorOccurred⟩) ∧
    Reconcile (Reconcile st Faults.none ns n).cluster Faults.none ns n =
      ⟨true, (Reconcile st Faults.none ns n).cluster, []⟩ := by
  have hns2 : ns ∉ st.deletingNamespaces := by simpa using hns
  have h2 : st.environments.find? (fun e => e.ns == ns && e.name == n) = some env := henv
  have hp := List.find?_some h2
  simp only [Bool.and_eq_true, beq_iff_eq] at hp
  obtain ⟨hens, henn⟩ := hp
  have hclaimB : (env.GetDeploymentTargetClaimName != "") = true := by simp [hclaim]
  have hclaimB2 : (env.spec.deploymentTargetClaimName != "") = true := by
    simpa [Environment.GetDeploymentTargetClaimName] using hclaimB
  cases hchanged : (insertOrUpdateConditionsInSlice
      ⟨EnvironmentConditionErrorOccurred,
       "Environment is invalid since it cannot have both DeploymentTargetClaim and credentials configuration set",
       ConditionTrue, EnvironmentReasonErrorOccurred⟩ env.conditions).1 with
  | false =>
    have hfound := insertOrUpdate_unchanged _ _ hchanged
    have hrec : Reconcile st Faults.none ns n = ⟨true, st, []⟩ := by
      simp [Reconcile, hns2, henv, applyFault, Faults.none, hclaimB, hinline,
        updateStatusConditionOfEnvironment, hchanged]
    rw [hrec]
    refine ⟨rfl, rfl, rfl, rfl, ⟨env, henv, ?_, hfound⟩, ?_⟩
    · exact Nat.le_antisymm hcount (countType_pos_of_find _ _ _ hfound)
    · simp [Reconcile, hns2, henv, applyFault, Faults.none, hclaimB, hinline,
        updateStatusConditionOfEnvironment, hchanged]
  | true =>
    have hrec : Reconcile st Faults.none ns n =
        ⟨true, statusUpdateStore st
          { env with conditions := (insertOrUpdateConditionsInSlice
              ⟨EnvironmentConditionErrorOccurred,
               "Environment is invalid since it cannot have both DeploymentTargetClaim and credentials configuration set",
               ConditionTrue, EnvironmentReasonErrorOccurred⟩ env.conditions).2 },
          [Op.statusWrite env.ns env.name]⟩ := by
      simp [Reconcile, hns2, henv, applyFault, Faults.none, hclaimB, hinline,
        updateStatusConditionOfEnvironment, hchanged]
    have hfind2 : findEnvironment (Reconcile st Faults.none ns n).cluster ns n =
        some { env with conditions := (insertOrUpdateConditionsInSlice
          ⟨EnvironmentConditionErrorOccurred,
           "Environment is invalid since it cannot have both DeploymentTargetClaim and credentials configuration set",
           ConditionTrue, EnvironmentReasonErrorOccurred⟩ env.conditions).2 } := by
      rw [hrec]
      dsimp only
      rw [findEnvironment_statusUpdateStore, henv]
      simp
    have hidem := insertOrUpdate_idem
      ⟨EnvironmentConditionErrorOccurred,
       "Environment is invalid since it cannot have both DeploymentTargetClaim and credentials configuration set",
       ConditionTrue, EnvironmentReasonErrorOccurred⟩ env.conditions
    refine ⟨?_, ?_, ?_, ?_, ⟨_, hfind2, ?_, ?_⟩, ?_⟩
    · rw [hrec]
    · rw [hrec]; simp
    · rw [hrec]; simp
    · rw [hrec]; simp
    · exact countType_upsert_one _ _ hcount
    · exact findCondition_upsert_self _ _
    · rw [hrec]
      dsimp only
      have henv2 : findEnvironment (statusUpdateStore st
          { env with conditions := (insertOrUpdateConditionsInSlice
            ⟨EnvironmentConditionErrorOccurred,
             "Environment is invalid since it cannot have both DeploymentTargetClaim and credentials configuration set",
             ConditionTrue, EnvironmentReasonErrorOccurred⟩ env.conditions).2 }) ns n =
          some { env with conditions := (insertOrUpdateConditionsInSlice
            ⟨EnvironmentConditionErrorOccurred,
             "Environment is invalid since it cannot have both DeploymentTargetClaim and credentials configuration set",
             ConditionTrue, EnvironmentReasonErrorOccurred⟩ env.conditions).2 } := by
        rw [findEnvironment_statusUpdateStore, henv]
        simp
      simp [Reconcile, hns2, henv2, applyFault, Faults.none, hclaimB, hclaimB2, hinline,
        updateStatusConditionOfEnvironment, hidem, Environment.GetDeploymentTargetClaimName]

/-- Witness for C4 at a concrete store. -/
theorem reconcile_mutually_exclusive_witness :
    witnessExclusiveCluster.deletingNamespaces.contains "n4" = false ∧
    findEnvironment witnessExclusiveCluster "n4" "e4" = some witnessExclusiveEnv ∧
    witnessExclusiveEnv.GetDeploymentTargetClaimName ≠ "" ∧
    witnessExclusiveEnv.spec.unstableConfigurationFields.isSome = true ∧
    countType witnessExclusiveEnv.conditions EnvironmentConditionErrorOccurred ≤ 1 ∧
    (Reconcile witnessExclusiveCluster Faults.none "n4" "e4").ok = true :=
  ⟨rfl, rfl, by decide, rfl, by decide,
    (reconcile_mutually_exclusive witnessExclusiveCluster "n4" "e4" witnessExclusiveEnv rfl rfl
      (by decide) rfl (by decide)).1⟩

/-- C5 counterexample: on a generic error fetching the DeploymentTargetClaim,
Reconcile does return a non-nil error, but the condition list does NOT stay
untouched — an `ErrorOccurred` condition is recorded on the Environment. -/
theorem reconcile_transient_error_counterexample :
    (Reconcile cex5Cluster cex5Faults "n1" "e2").ok = false ∧
    findEnvironment (Reconcile cex5Cluster cex5Faults "n1" "e2").cluster "n1" "e2" =
      some { cex5Env with conditions :=
        [⟨"ErrorOccurred", "Unable to find DeploymentTarget for DeploymentTargetClaim",
          "True", "ErrorOccurred"⟩] } := by
  decide

/-- C5 amended: a generic (non-not-found) store failure is surfaced as a
retryable (non-nil) error with no create or update of ManagedEnvironments or
Secrets at each of the three fetch sites below; at the
DeploymentTargetClaim-fetch and the credential-secret-fetch sites an
`ErrorOccurred` status condition IS recorded on the Environment before
returning (the condition list does not stay untouched), while at the
managed-secret-fetch site the store, condition list included, is left
completely untouched. -/
theorem reconcile_transient_error_behaviour (st : Cluster) (ns n : String)
    (env : Environment)
    (hns : st.deletingNamespaces.contains ns = false)
    (henv : findEnvironment st ns n = some env) :
    (∀ f : Faults, f.getEnv = FaultMode.ok → f.statusUpdate = FaultMode.ok →
      f.getDTC = FaultMode.generic →
      env.GetDeploymentTargetClaimName ≠ "" →
      env.spec.unstableConfigurationFields = Option.none →
      (Reconcile st f ns n).ok = false ∧
      (Reconcile st f ns n).cluster.managedEnvironments = st.managedEnvironments ∧
      (Reconcile st f ns n).cluster.secrets = st.secrets ∧
      noCreateUpdate (Reconcile st f ns n).trace = true ∧
      ∃ env2, findEnvironment (Reconcile st f ns n).cluster ns n = some env2 ∧
        findCondition env2.conditions EnvironmentConditionErrorOccurred =
          some ⟨EnvironmentConditionErrorOccurred,
            "Unable to find DeploymentTarget for DeploymentTargetClaim",
            ConditionTrue, EnvironmentReasonErrorOccurred⟩) ∧
    (∀ (f : Faults) (u : UnstableConfig), f.getEnv = FaultMode.ok →
      f.statusUpdate = FaultMode.ok → f.getSecret = FaultMode.generic →
      env.GetDeploymentTargetClaimName = "" →
      env.spec.unstableConfigurationFields = some u →
      (Reconcile st f ns n).ok = false ∧
      (Reconcile st f ns n).cluster.managedEnvironments = st.managedEnvironments ∧
      (Reconcile st f ns n).cluster.secrets = st.secrets ∧
      noCreateUpdate (Reconcile st f ns n).trace = true ∧
      ∃ env2, findEnvironment (Reconcile st f ns n).cluster ns n = some env2 ∧
        findCondition env2.conditions EnvironmentConditionErrorOccurred =
          some ⟨EnvironmentConditionErrorOccurred,
            "Secret referenced by the Environment resource was not found",
            ConditionTrue, EnvironmentReasonErrorOccurred⟩) ∧
    (∀ (f : Faults) (dtc : DeploymentTargetClaim) (dt : DeploymentTarget) (srcS : Secret),
      f.getEnv = FaultMode.ok → f.statusUpdate = FaultMode.ok → f.getDTC = FaultMode.ok →
      f.getDT = FaultMode.ok → f.getSecret = FaultMode.ok →
      f.getManagedSecret = FaultMode.generic →
      env.GetDeploymentTargetClaimName ≠ "" →
      env.spec.unstableConfigurationFields = Option.none →
      findDeploymentTargetClaim st ns env.GetDeploymentTargetClaimName = some dtc →
      dtc.phase = DeploymentTargetClaimPhase_Bound →
      st.deploymentTargets.find? (fun t => t.ns == dtc.ns &&
        (dtc.targetName == t.name || t.claimRef == dtc.name)) = some dt →
      findSecret st ns dt.kubernetesClusterCredentials.clusterCredentialsSecret = some srcS →
      srcS.secretType ≠ ManagedEnvironmentSecretType →
      findCondition env.conditions EnvironmentConditionErrorOccurred = Option.none →
      Reconcile st f ns n = ⟨false, st, []⟩) := by
  have hns2 : ns ∉ st.deletingNamespaces := by simpa using hns
  have h2 : st.environments.find? (fun e => e.ns == ns && e.name == n) = some env := henv
  have hp := List.find?_some h2
  simp only [Bool.and_eq_true, beq_iff_eq] at hp
  obtain ⟨hens, henn⟩ := hp
  subst hens
  subst henn
  refine ⟨?_, ?_, ?_⟩
  · intro f hf1 hf3 hf2 hclaim hnoinline
    have hclaimB : (env.GetDeploymentTargetClaimName != "") = true := by simp [hclaim]
    have hclaimB2 : (env.spec.deploymentTargetClaimName != "") = true := by
      simpa [Environment.GetDeploymentTargetClaimName] using hclaimB
    cases hchanged : (insertOrUpdateConditionsInSlice
        ⟨EnvironmentConditionErrorOccurred,
         "Unable to find DeploymentTarget for DeploymentTargetClaim",
         ConditionTrue, EnvironmentReasonErrorOccurred⟩ env.conditions).1 with
    | false =>
      have hfound := insertOrUpdate_unchanged _ _ hchanged
      have hrec : Reconcile st f env.ns env.name = ⟨false, st, []⟩ := by
        simp [Reconcile, generateDesiredResource, hns2, henv, applyFault, hf1, hf2, hf3,
          hclaimB, hclaimB2, hnoinline, Environment.GetDeploymentTargetClaimName,
          updateStatusConditionOfEnvironment, hchanged]
      rw [hrec]
      exact ⟨rfl, rfl, rfl, rfl, env, henv, hfound⟩
    | true =>
      have hrec : Reconcile st f env.ns env.name =
          ⟨false, statusUpdateStore st
            { env with conditions := (insertOrUpdateConditionsInSlice
                ⟨EnvironmentConditionErrorOccurred,
                 "Unable to find DeploymentTarget for DeploymentTargetClaim",
                 ConditionTrue, EnvironmentReasonErrorOccurred⟩ env.conditions).2 },
            [Op.statusWrite env.ns env.name]⟩ := by
        simp [Reconcile, generateDesiredResource, hns2, henv, applyFault, hf1, hf2, hf3,
          hclaimB, hclaimB2, hnoinline, Environment.GetDeploymentTargetClaimName,
          updateStatusConditionOfEnvironment, hchanged]
      rw [hrec]
      refine ⟨rfl, by simp, by simp, rfl,
        { env with conditions := (insertOrUpdateConditionsInSlice
            ⟨EnvironmentConditionErrorOccurred,
             "Unable to find DeploymentTarget for DeploymentTargetClaim",
             ConditionTrue, EnvironmentReasonErrorOccurred⟩ env.conditions).2 }, ?_,
        findCondition_upsert_self _ _⟩
      dsimp only
      rw [findEnvironment_statusUpdateStore, henv]
      simp
  · intro f u hf1 hf3 hfsec hclaim hinline
    have hclaimB : (env.GetDeploymentTargetClaimName != "") = false := by simp [hclaim]
    have hclaimB2 : (env.spec.deploymentTargetClaimName != "") = false := by
      simpa [Environment.GetDeploymentTargetClaimName] using hclaimB
    cases hchanged : (insertOrUpdateConditionsInSlice
        ⟨EnvironmentConditionErrorOccurred,
         "Secret referenced by the Environment resource was not found",
         ConditionTrue, EnvironmentReasonErrorOccurred⟩ env.conditions).1 with
    | false =>
      have hfound := insertOrUpdate_unchanged _ _ hchanged
      have hrec : Reconcile st f env.ns env.name = ⟨false, st, []⟩ := by
        simp [Reconcile, generateDesiredResource, generateDesiredResourceCommon, hns2, henv,
          applyFault, hf1, hfsec, hf3, hclaimB, hclaimB2, hinline,
          Environment.GetDeploymentTargetClaimName, updateStatusConditionOfEnvironment,
          hchanged]
      rw [hrec]
      exact ⟨rfl, rfl, rfl, rfl, env, henv, hfound⟩
    | true =>
      have hrec : Reconcile st f env.ns env.name =
          ⟨false, statusUpdateStore st
            { env with conditions := (insertOrUpdateConditionsInSlice
                ⟨EnvironmentConditionErrorOccurred,
                 "Secret referenced by the Environment resource was not found",
                 ConditionTrue, EnvironmentReasonErrorOccurred⟩ env.conditions).2 },
            [Op.statusWrite env.ns env.name]⟩ := by
        simp [Reconcile, generateDesiredResource, generateDesiredResourceCommon, hns2, henv,
          applyFault, hf1, hfsec, hf3, hclaimB, hclaimB2, hinline,
          Environment.GetDeploymentTargetClaimName, updateStatusConditionOfEnvironment,
          hchanged]
      rw [hrec]
      refine ⟨rfl, by simp, by simp, rfl,
        { env with conditions := (insertOrUpdateConditionsInSlice
            ⟨EnvironmentConditionErrorOccurred,
             "Secret referenced by the Environment resource was not found",
             ConditionTrue, EnvironmentReasonErrorOccurred⟩ env.conditions).2 }, ?_,
        findCondition_upsert_self _ _⟩
      dsimp only
      rw [findEnvironment_statusUpdateStore, henv]
      simp
  · intro f dtc dt srcS hf1 hf3 hfdtc hfdt hfsec hfms hclaim hnoinline hdtc hbound hdt
      hsec htype hcond
    have hclaimB : (env.GetDeploymentTargetClaimName != "") = true := by simp [hclaim]
    have hclaimB2 : (env.spec.deploymentTargetClaimName != "") = true := by
      simpa [Environment.GetDeploymentTargetClaimName] using hclaimB
    have hboundB : (dtc.phase != DeploymentTargetClaimPhase_Bound) = false := by
      simp [hbound]
    have hdt2 : getDTBoundByDTC st f dtc = GetResult.found dt := by
      unfold getDTBoundByDTC
      simp [applyFault, hfdt, hdt]
    have htypeB : (srcS.secretType != ManagedEnvironmentSecretType) = true := by simp [htype]
    have hdtc3 : findDeploymentTargetClaim st env.ns env.spec.deploymentTargetClaimName =
        some dtc := hdtc
    simp [Reconcile, generateDesiredResource, generateDesiredResourceCommon, hns2, henv,
      applyFault, hf1, hf3, hfdtc, hfsec, hfms, hclaimB, hclaimB2, hnoinline, hdtc, hdtc3,
      hboundB, hdt2, hsec, htypeB, updateConditionErrorAsResolved, hcond,
      Environment.GetDeploymentTargetClaimName]

/-- Witness for the amended C5 theorem: one concrete run through each of the
three fault sites (DeploymentTargetClaim fetch, credential-secret fetch,
managed-secret fetch). -/
theorem reconcile_transient_error_behaviour_witness :
    (Reconcile cex5Cluster cex5Faults "n1" "e2").ok = false ∧
    (Reconcile cex5bCluster cex5bFaults "n5" "e5b").ok = false ∧
    Reconcile cex5cCluster cex5cFaults "n5c" "e5c" = ⟨false, cex5cCluster, []⟩ :=
  ⟨((reconcile_transient_error_behaviour cex5Cluster "n1" "e2" cex5Env rfl rfl).1
      cex5Faults rfl rfl rfl (by decide) rfl).1,
   ((reconcile_transient_error_behaviour cex5bCluster "n5" "e5b" cex5bEnv rfl rfl).2.1
      cex5bFaults ⟨"https://api5", "creds5", false, false, []⟩ rfl rfl rfl rfl rfl).1,
   (reconcile_transient_error_behaviour cex5cCluster "n5c" "e5c" cex5cEnv rfl rfl).2.2
      cex5cFaults cex5cDTC cex5cDT cex5cSecret rfl rfl rfl rfl rfl rfl (by decide) rfl rfl
      rfl rfl rfl (by decide) rfl⟩


@[simp] theorem faultsNone_getEnv : Faults.none.getEnv = FaultMode.ok := rfl
@[simp] theorem faultsNone_getManagedEnvDel : Faults.none.getManagedEnvDel = FaultMode.ok := rfl
@[simp] theorem faultsNone_deleteManagedEnv : Faults.none.deleteManagedEnv = FaultMode.ok := rfl
@[simp] theorem faultsNone_statusUpdate : Faults.none.statusUpdate = FaultMode.ok := rfl
@[simp] theorem faultsNone_getDTC : Faults.none.getDTC = FaultMode.ok := rfl
@[simp] theorem faultsNone_getDT : Faults.none.getDT = FaultMode.ok := rfl
@[simp] theorem faultsNone_getSecret : Faults.none.getSecret = FaultMode.ok := rfl
@[simp] theorem faultsNone_deleteManagedSecret : Faults.none.deleteManagedSecret = FaultMode.ok := rfl
@[simp] theorem faultsNone_getManagedSecret : Faults.none.getManagedSecret = FaultMode.ok := rfl
@[simp] theorem faultsNone_createManagedSecret : Faults.none.createManagedSecret = FaultMode.ok := rfl
@[simp] theorem faultsNone_updateManagedSecret : Faults.none.updateManagedSecret = FaultMode.ok := rfl
@[simp] theorem faultsNone_getManagedEnvCur : Faults.none.getManagedEnvCur = FaultMode.ok := rfl
@[simp] theorem faultsNone_createManagedEnv : Faults.none.createManagedEnv = FaultMode.ok := rfl
@[simp] theorem faultsNone_updateManagedEnv : Faults.none.updateManagedEnv = FaultMode.ok := rfl

theorem findManagedEnvironment_congr {st1 st2 : Cluster}
    (h : st1.managedEnvironments = st2.managedEnvironments) (ns n : String) :
    findManagedEnvironment st1 ns n = findManagedEnvironment st2 ns n := by
  unfold findManagedEnvironment
  rw [h]

theorem findSecret_congr {st1 st2 : Cluster}
    (h : st1.secrets = st2.secrets) (ns n : String) :
    findSecret st1 ns n = findSecret st2 ns n := by
  unfold findSecret
  rw [h]

/-- Characterization of `generateDesiredResource` on the inline-credentials
branch with the referenced secret present: the desired ManagedEnvironment
carries exactly the transformed inline credentials. -/
theorem generate_inline (st : Cluster) (f : Faults) (env : Environment) (u : UnstableConfig)
    (s : Secret)
    (hf3 : f.statusUpdate = FaultMode.ok) (hfsec : f.getSecret = FaultMode.ok)
    (hclaim : env.GetDeploymentTargetClaimName = "")
    (hinline : env.spec.unstableConfigurationFields = some u)
    (hsecret : findSecret st env.ns u.clusterCredentialsSecret = some s) :
    generateDesiredResource st f env =
      ⟨some { name := "managed-environment-" ++ env.name, ns := env.ns,
              ownerReferences := [⟨GroupVersionGroup ++ "/" ++ GroupVersionVersion, "Environment",
                env.name, env.uid, Option.none, Option.none⟩],
              spec := ⟨u.apiURL, u.clusterCredentialsSecret, u.allowInsecureSkipTLSVerify,
                       u.clusterResources, u.namespaces⟩ },
        false, false,
        (updateConditionErrorAsResolved st f "" env EnvironmentConditionErrorOccurred
          ConditionFalse EnvironmentReasonErrorOccurred).environment,
        (updateConditionErrorAsResolved st f "" env EnvironmentConditionErrorOccurred
          ConditionFalse EnvironmentReasonErrorOccurred).cluster,
        (updateConditionErrorAsResolved st f "" env EnvironmentConditionErrorOccurred
          ConditionFalse EnvironmentReasonErrorOccurred).trace⟩ := by
  have hclaimB : (env.GetDeploymentTargetClaimName != "") = false := by simp [hclaim]
  have hclaimB2 : (env.spec.deploymentTargetClaimName != "") = false := by
    simpa [Environment.GetDeploymentTargetClaimName] using hclaimB
  simp [generateDesiredResource, generateDesiredResourceCommon, generateFinish,
    hclaimB, hclaimB2, hinline, applyFault, hfsec, hsecret, hf3,
    generateEmptyManagedEnvironment, Environment.GetDeploymentTargetClaimName]

/-- C1: for an Environment with inline credentials (no claim reference) whose
referenced credential secret exists, one Reconcile succeeds and leaves a
GitOpsDeploymentManagedEnvironment named `managed-environment-<name>` in the
Environment's namespace whose spec is exactly the transformation of the inline
credentials (API URL, secret name, TLS-skip flag, cluster-resources flag and a
copy of the namespace list). -/
theorem reconcile_inline_credentials (st : Cluster) (ns n : String) (env : Environment)
    (u : UnstableConfig)
    (hns : st.deletingNamespaces.contains ns = false)
    (henv : findEnvironment st ns n = some env)
    (hclaim : env.GetDeploymentTargetClaimName = "")
    (hinline : env.spec.unstableConfigurationFields = some u)
    (hsecret : ∃ s, findSecret st ns u.clusterCredentialsSecret = some s) :
    (Reconcile st Faults.none ns n).ok = true ∧
    (findManagedEnvironment (Reconcile st Faults.none ns n).cluster ns
      ("managed-environment-" ++ n)).map (fun m => m.spec) =
      some ⟨u.apiURL, u.clusterCredentialsSecret, u.allowInsecureSkipTLSVerify,
            u.clusterResources, u.namespaces⟩ := by
  obtain ⟨s, hsec⟩ := hsecret
  have hns2 : ns ∉ st.deletingNamespaces := by simpa using hns
  have h2 : st.environments.find? (fun e => e.ns == ns && e.name == n) = some env := henv
  have hp := List.find?_some h2
  simp only [Bool.and_eq_true, beq_iff_eq] at hp
  obtain ⟨hens, henn⟩ := hp
  subst hens
  subst henn
  have hclaimB : (env.GetDeploymentTargetClaimName != "") = false := by simp [hclaim]
  have hgen := generate_inline st Faults.none env u s rfl rfl hclaim hinline hsec
  have hmm1 : (updateConditionErrorAsResolved st Faults.none "" env
      EnvironmentConditionErrorOccurred ConditionFalse
      EnvironmentReasonErrorOccurred).cluster.managedEnvironments = st.managedEnvironments := by
    simp
  have hkey := findManagedEnvironment_congr hmm1 env.ns ("managed-environment-" ++ env.name)
  cases hcur : findManagedEnvironment st env.ns ("managed-environment-" ++ env.name) with
  | none =>
    have hrec : Reconcile st Faults.none env.ns env.name =
        ⟨true,
          upsertManagedEnvironment (updateConditionErrorAsResolved st Faults.none "" env
            EnvironmentConditionErrorOccurred ConditionFalse
            EnvironmentReasonErrorOccurred).cluster
            { name := "managed-environment-" ++ env.name, ns := env.ns,
              ownerReferences := [⟨GroupVersionGroup ++ "/" ++ GroupVersionVersion, "Environment",
                env.name, env.uid, Option.none, Option.none⟩],
              spec := ⟨u.apiURL, u.clusterCredentialsSecret, u.allowInsecureSkipTLSVerify,
                       u.clusterResources, u.namespaces⟩ },
          (updateConditionErrorAsResolved st Faults.none "" env
            EnvironmentConditionErrorOccurred ConditionFalse
            EnvironmentReasonErrorOccurred).trace ++
            [Op.createManagedEnv env.ns ("managed-environment-" ++ env.name)]⟩ := by
      simp [Reconcile, hns2, henv, applyFault, hclaimB, hgen, hkey, hcur]
    rw [hrec]
    refine ⟨rfl, ?_⟩
    rw [findManagedEnvironment_upsert]
    simp
  | some current =>
    have hkey2 : findManagedEnvironment (updateConditionErrorAsResolved
        (updateConditionErrorAsResolved st Faults.none "" env EnvironmentConditionErrorOccurred
          ConditionFalse EnvironmentReasonErrorOccurred).cluster Faults.none "" env
        EnvironmentConditionErrorOccurred ConditionFalse EnvironmentReasonErrorOccurred).cluster
          env.ns ("managed-environment-" ++ env.name) = some current := by
      have ha : (updateConditionErrorAsResolved
          (updateConditionErrorAsResolved st Faults.none "" env EnvironmentConditionErrorOccurred
            ConditionFalse EnvironmentReasonErrorOccurred).cluster Faults.none "" env
          EnvironmentConditionErrorOccurred ConditionFalse
          EnvironmentReasonErrorOccurred).cluster.managedEnvironments =
          st.managedEnvironments := by simp
      exact (findManagedEnvironment_congr ha env.ns
        ("managed-environment-" ++ env.name)).trans hcur
    by_cases hspec : current.spec = ⟨u.apiURL, u.clusterCredentialsSecret,
        u.allowInsecureSkipTLSVerify, u.clusterResources, u.namespaces⟩
    · have hrec : (Reconcile st Faults.none env.ns env.name).ok = true ∧
          findManagedEnvironment (Reconcile st Faults.none env.ns env.name).cluster
            env.ns ("managed-environment-" ++ env.name) = some current := by
        refine ⟨?_, ?_⟩ <;>
          simp [Reconcile, hns2, henv, applyFault, hclaimB, hgen, hkey, hcur,
            hkey2, hspec]
      refine ⟨hrec.1, ?_⟩
      rw [hrec.2]
      simp [hspec]
    · have hspecB : (current.spec == GitOpsDeploymentManagedEnvironmentSpec.mk u.apiURL
          u.clusterCredentialsSecret u.allowInsecureSkipTLSVerify u.clusterResources
          u.namespaces) = false := by
        simp [hspec]
      have hrec : (Reconcile st Faults.none env.ns env.name).ok = true ∧
          (Reconcile st Faults.none env.ns env.name).cluster =
            upsertManagedEnvironment (updateConditionErrorAsResolved
              (updateConditionErrorAsResolved st Faults.none "" env
                EnvironmentConditionErrorOccurred ConditionFalse
                EnvironmentReasonErrorOccurred).cluster Faults.none "" env
              EnvironmentConditionErrorOccurred ConditionFalse
              EnvironmentReasonErrorOccurred).cluster
              { current with spec := ⟨u.apiURL, u.clusterCredentialsSecret,
                u.allowInsecureSkipTLSVerify, u.clusterResources, u.namespaces⟩ } := by
        refine ⟨?_, ?_⟩ <;>
          simp [Reconcile, hns2, henv, applyFault, hclaimB, hgen, hkey, hcur,
            hkey2, hspecB]
      have hcurkey : current.ns = env.ns ∧ current.name = "managed-environment-" ++ env.name := by
        have hq := List.find?_some (hcur :
          st.managedEnvironments.find? (fun m => m.ns == env.ns &&
            m.name == "managed-environment-" ++ env.name) = some current)
        simpa using hq
      refine ⟨hrec.1, ?_⟩
      rw [hrec.2, findManagedEnvironment_upsert]
      simp [hcurkey.1, hcurkey.2]

/-- Witness for C1 at a concrete store. -/
theorem reconcile_inline_credentials_witness :
    witnessInlineCluster.deletingNamespaces.contains "n1" = false ∧
    findEnvironment witnessInlineCluster "n1" "e1" = some witnessInlineEnv ∧
    witnessInlineEnv.GetDeploymentTargetClaimName = "" ∧
    witnessInlineEnv.spec.unstableConfigurationFields = some witnessInlineConfig ∧
    (∃ s, findSecret witnessInlineCluster "n1"
      witnessInlineConfig.clusterCredentialsSecret = some s) ∧
    (Reconcile witnessInlineCluster Faults.none "n1" "e1").ok = true ∧
    (findManagedEnvironment (Reconcile witnessInlineCluster Faults.none "n1" "e1").cluster "n1"
      ("managed-environment-" ++ "e1")).map (fun m => m.spec) =
      some ⟨witnessInlineConfig.apiURL, witnessInlineConfig.clusterCredentialsSecret,
            witnessInlineConfig.allowInsecureSkipTLSVerify,
            witnessInlineConfig.clusterResources, witnessInlineConfig.namespaces⟩ := by
  have h := reconcile_inline_credentials witnessInlineCluster "n1" "e1" witnessInlineEnv
    witnessInlineConfig rfl rfl rfl rfl ⟨witnessInlineSecret, rfl⟩
  exact ⟨rfl, rfl, rfl, rfl, ⟨witnessInlineSecret, rfl⟩, h.1, h.2⟩

/-! ### Projection lemmas letting proofs treat status operations opaquely -/

@[simp] theorem findSecret_updateStatus_cluster (st : Cluster) (f : Faults) (m : String)
    (env : Environment) (t s r a b : String) :
    findSecret (updateStatusConditionOfEnvironment st f m env t s r).cluster a b =
      findSecret st a b :=
  findSecret_congr (by simp) a b

@[simp] theorem findSecret_resolve_cluster (st : Cluster) (f : Faults) (m : String)
    (env : Environment) (t s r a b : String) :
    findSecret (updateConditionErrorAsResolved st f m env t s r).cluster a b =
      findSecret st a b :=
  findSecret_congr (by simp) a b

@[simp] theorem findManagedEnvironment_updateStatus_cluster (st : Cluster) (f : Faults)
    (m : String) (env : Environment) (t s r a b : String) :
    findManagedEnvironment (updateStatusConditionOfEnvironment st f m env t s r).cluster a b =
      findManagedEnvironment st a b :=
  findManagedEnvironment_congr (by simp) a b

@[simp] theorem findManagedEnvironment_resolve_cluster (st : Cluster) (f : Faults)
    (m : String) (env : Environment) (t s r a b : String) :
    findManagedEnvironment (updateConditionErrorAsResolved st f m env t s r).cluster a b =
      findManagedEnvironment st a b :=
  findManagedEnvironment_congr (by simp) a b

@[simp] theorem getDTBoundByDTC_updateStatus_cluster (st : Cluster) (f : Faults) (m : String)
    (env : Environment) (t s r : String) (dtc : DeploymentTargetClaim) :
    getDTBoundByDTC (updateStatusConditionOfEnvironment st f m env t s r).cluster f dtc =
      getDTBoundByDTC st f dtc := by
  unfold getDTBoundByDTC
  rw [updateStatus_cluster_targets]

@[simp] theorem getDTBoundByDTC_resolve_cluster (st : Cluster) (f : Faults) (m : String)
    (env : Environment) (t s r : String) (dtc : DeploymentTargetClaim) :
    getDTBoundByDTC (updateConditionErrorAsResolved st f m env t s r).cluster f dtc =
      getDTBoundByDTC st f dtc := by
  unfold getDTBoundByDTC
  rw [resolve_cluster_targets]

@[simp] theorem updateStatus_environment_name (st : Cluster) (f : Faults) (m : String)
    (env : Environment) (t s r : String) :
    (updateStatusConditionOfEnvironment st f m env t s r).environment.name = env.name := by
  obtain ⟨c, hc⟩ := updateStatus_environment_eq st f m env t s r
  simp [hc]

@[simp] theorem updateStatus_environment_ns (st : Cluster) (f : Faults) (m : String)
    (env : Environment) (t s r : String) :
    (updateStatusConditionOfEnvironment st f m env t s r).environment.ns = env.ns := by
  obtain ⟨c, hc⟩ := updateStatus_environment_eq st f m env t s r
  simp [hc]

@[simp] theorem updateStatus_environment_spec (st : Cluster) (f : Faults) (m : String)
    (env : Environment) (t s r : String) :
    (updateStatusConditionOfEnvironment st f m env t s r).environment.spec = env.spec := by
  obtain ⟨c, hc⟩ := updateStatus_environment_eq st f m env t s r
  simp [hc]

@[simp] theorem updateStatus_environment_uid (st : Cluster) (f : Faults) (m : String)
    (env : Environment) (t s r : String) :
    (updateStatusConditionOfEnvironment st f m env t s r).environment.uid = env.uid := by
  obtain ⟨c, hc⟩ := updateStatus_environment_eq st f m env t s r
  simp [hc]

@[simp] theorem updateStatus_environment_apiVersion (st : Cluster) (f : Faults) (m : String)
    (env : Environment) (t s r : String) :
    (updateStatusConditionOfEnvironment st f m env t s r).environment.apiVersion =
      env.apiVersion := by
  obtain ⟨c, hc⟩ := updateStatus_environment_eq st f m env t s r
  simp [hc]

@[simp] theorem updateStatus_environment_kind (st : Cluster) (f : Faults) (m : String)
    (env : Environment) (t s r : String) :
    (updateStatusConditionOfEnvironment st f m env t s r).environment.kind = env.kind := by
  obtain ⟨c, hc⟩ := updateStatus_environment_eq st f m env t s r
  simp [hc]

@[simp] theorem resolve_environment_name (st : Cluster) (f : Faults) (m : String)
    (env : Environment) (t s r : String) :
    (updateConditionErrorAsResolved st f m env t s r).environment.name = env.name := by
  obtain ⟨c, hc⟩ := resolve_environment_eq st f m env t s r
  simp [hc]

@[simp] theorem resolve_environment_ns (st : Cluster) (f : Faults) (m : String)
    (env : Environment) (t s r : String) :
    (updateConditionErrorAsResolved st f m env t s r).environment.ns = env.ns := by
  obtain ⟨c, hc⟩ := resolve_environment_eq st f m env t s r
  simp [hc]

@[simp] theorem resolve_environment_spec (st : Cluster) (f : Faults) (m : String)
    (env : Environment) (t s r : String) :
    (updateConditionErrorAsResolved st f m env t s r).environment.spec = env.spec := by
  obtain ⟨c, hc⟩ := resolve_environment_eq st f m env t s r
  simp [hc]

@[simp] theorem resolve_environment_uid (st : Cluster) (f : Faults) (m : String)
    (env : Environment) (t s r : String) :
    (updateConditionErrorAsResolved st f m env t s r).environment.uid = env.uid := by
  obtain ⟨c, hc⟩ := resolve_environment_eq st f m env t s r
  simp [hc]

@[simp] theorem resolve_environment_apiVersion (st : Cluster) (f : Faults) (m : String)
    (env : Environment) (t s r : String) :
    (updateConditionErrorAsResolved st f m env t s r).environment.apiVersion =
      env.apiVersion := by
  obtain ⟨c, hc⟩ := resolve_environment_eq st f m env t s r
  simp [hc]

@[simp] theorem resolve_environment_kind (st : Cluster) (f : Faults) (m : String)
    (env : Environment) (t s r : String) :
    (updateConditionErrorAsResolved st f m env t s r).environment.kind = env.kind := by
  obtain ⟨c, hc⟩ := resolve_environment_eq st f m env t s r
  simp [hc]

theorem updateStatus_environment_findCondition (st : Cluster) (f : Faults) (m : String)
    (env : Environment) (s r : String) (hf : f.statusUpdate = FaultMode.ok) :
    findCondition (updateStatusConditionOfEnvironment st f m env
        EnvironmentConditionErrorOccurred s r).environment.conditions
      EnvironmentConditionErrorOccurred =
      some ⟨EnvironmentConditionErrorOccurred, m, s, r⟩ := by
  unfold updateStatusConditionOfEnvironment
  dsimp only
  split
  · rw [hf]
    dsimp only
    exact findCondition_upsert_self ⟨EnvironmentConditionErrorOccurred, m, s, r⟩ env.conditions
  · rename_i hch
    have hch2 : (insertOrUpdateConditionsInSlice
        ⟨EnvironmentConditionErrorOccurred, m, s, r⟩ env.conditions).1 = false := by
      simpa using hch
    exact insertOrUpdate_unchanged _ _ hch2

@[simp] theorem findEnvironment_upsertSecret (st : Cluster) (s : Secret) (a b : String) :
    findEnvironment (upsertSecret st s) a b = findEnvironment st a b := rfl

@[simp] theorem findEnvironment_removeSecret (st : Cluster) (x y a b : String) :
    findEnvironment (removeSecret st x y) a b = findEnvironment st a b := rfl

@[simp] theorem findEnvironment_upsertManagedEnvironment (st : Cluster)
    (m : GitOpsDeploymentManagedEnvironment) (a b : String) :
    findEnvironment (upsertManagedEnvironment st m) a b = findEnvironment st a b := rfl

@[simp] theorem findEnvironment_removeManagedEnvironment (st : Cluster) (x y a b : String) :
    findEnvironment (removeManagedEnvironment st x y) a b = findEnvironment st a b := rfl

/-- Behaviour of the common continuation when the resolved credential secret
is absent: semantic flag AND a non-nil error are both set, the condition is
raised, the managed secret is best-effort deleted (with not-found on the
delete ignored), and no create/update is performed. -/
theorem generateCommon_missing_secret (st : Cluster) (f : Faults) (env : Environment)
    (details0 : GitOpsDeploymentManagedEnvironmentSpec)
    (hf3 : f.statusUpdate = FaultMode.ok) (hfsec : f.getSecret = FaultMode.ok)
    (hfdel : f.deleteManagedSecret ≠ FaultMode.generic)
    (hmiss : findSecret st env.ns details0.clusterCredentialsSecret = Option.none)
    (henvfind : findEnvironment st env.ns env.name = some env) :
    (generateDesiredResourceCommon st f env details0).err = true ∧
    (generateDesiredResourceCommon st f env details0).semanticErr = true ∧
    (generateDesiredResourceCommon st f env details0).cluster.managedEnvironments =
      st.managedEnvironments ∧
    noCreateUpdate (generateDesiredResourceCommon st f env details0).trace = true ∧
    (f.deleteManagedSecret = FaultMode.ok →
      findSecret (generateDesiredResourceCommon st f env details0).cluster env.ns
        (generateManagedEnvSecretName env.name) = Option.none) ∧
    (∃ env2, findEnvironment (generateDesiredResourceCommon st f env details0).cluster
        env.ns env.name = some env2 ∧
      findCondition env2.conditions EnvironmentConditionErrorOccurred = some
        ⟨EnvironmentConditionErrorOccurred,
         "the secret " ++ details0.clusterCredentialsSecret ++
           " referenced by the Environment resource was not found",
         ConditionTrue, EnvironmentReasonErrorOccurred⟩) := by
  have hfe := findEnvironment_updateStatus st f
    ("the secret " ++ details0.clusterCredentialsSecret ++
      " referenced by the Environment resource was not found")
    env EnvironmentConditionErrorOccurred ConditionTrue EnvironmentReasonErrorOccurred
    hf3 henvfind
  have hfc := updateStatus_environment_findCondition st f
    ("the secret " ++ details0.clusterCredentialsSecret ++
      " referenced by the Environment resource was not found")
    env ConditionTrue EnvironmentReasonErrorOccurred hf3
  cases hdel : f.deleteManagedSecret with
  | generic => exact absurd hdel hfdel
  | notFound =>
    cases hu : env.spec.unstableConfigurationFields with
    | none =>
      refine ⟨by simp [generateDesiredResourceCommon, hu, applyFault, hfsec, hmiss, hf3, hdel],
        by simp [generateDesiredResourceCommon, hu, applyFault, hfsec, hmiss, hf3, hdel],
        by simp [generateDesiredResourceCommon, hu, applyFault, hfsec, hmiss, hf3, hdel],
        by simp [generateDesiredResourceCommon, hu, applyFault, hfsec, hmiss, hf3, hdel],
        ?_, ⟨_, ?_, hfc⟩⟩
      · intro hok
        exact absurd hok (by decide)
      · simp [generateDesiredResourceCommon, hu, applyFault, hfsec, hmiss, hf3, hdel, hfe]
    | some u =>
      refine ⟨by simp [generateDesiredResourceCommon, hu, applyFault, hfsec, hmiss, hf3, hdel],
        by simp [generateDesiredResourceCommon, hu, applyFault, hfsec, hmiss, hf3, hdel],
        by simp [generateDesiredResourceCommon, hu, applyFault, hfsec, hmiss, hf3, hdel],
        by simp [generateDesiredResourceCommon, hu, applyFault, hfsec, hmiss, hf3, hdel],
        ?_, ⟨_, ?_, hfc⟩⟩
      · intro hok
        exact absurd hok (by decide)
      · simp [generateDesiredResourceCommon, hu, applyFault, hfsec, hmiss, hf3, hdel, hfe]
  | ok =>
    cases hms : findSecret st env.ns (generateManagedEnvSecretName env.name) with
    | none =>
      cases hu : env.spec.unstableConfigurationFields with
      | none =>
        refine ⟨by simp [generateDesiredResourceCommon, hu, applyFault, hfsec, hmiss, hf3,
            hdel, hms],
          by simp [generateDesiredResourceCommon, hu, applyFault, hfsec, hmiss, hf3, hdel, hms],
          by simp [generateDesiredResourceCommon, hu, applyFault, hfsec, hmiss, hf3, hdel, hms],
          by simp [generateDesiredResourceCommon, hu, applyFault, hfsec, hmiss, hf3, hdel, hms],
          fun _ => by simp [generateDesiredResourceCommon, hu, applyFault, hfsec, hmiss, hf3,
            hdel, hms],
          ⟨_, ?_, hfc⟩⟩
        simp [generateDesiredResourceCommon, hu, applyFault, hfsec, hmiss, hf3, hdel, hms, hfe]
      | some u =>
        refine ⟨by simp [generateDesiredResourceCommon, hu, applyFault, hfsec, hmiss, hf3,
            hdel, hms],
          by simp [generateDesiredResourceCommon, hu, applyFault, hfsec, hmiss, hf3, hdel, hms],
          by simp [generateDesiredResourceCommon, hu, applyFault, hfsec, hmiss, hf3, hdel, hms],
          by simp [generateDesiredResourceCommon, hu, applyFault, hfsec, hmiss, hf3, hdel, hms],
          fun _ => by simp [generateDesiredResourceCommon, hu, applyFault, hfsec, hmiss, hf3,
            hdel, hms],
          ⟨_, ?_, hfc⟩⟩
        simp [generateDesiredResourceCommon, hu, applyFault, hfsec, hmiss, hf3, hdel, hms, hfe]
    | some msec =>
      have hrm : findSecret (removeSecret (updateStatusConditionOfEnvironment st f
          ("the secret " ++ details0.clusterCredentialsSecret ++
            " referenced by the Environment resource was not found")
          env EnvironmentConditionErrorOccurred ConditionTrue
          EnvironmentReasonErrorOccurred).cluster env.ns
          (generateManagedEnvSecretName env.name)) env.ns
          (generateManagedEnvSecretName env.name) = Option.none := by
        rw [findSecret_remove]
        simp
      cases hu : env.spec.unstableConfigurationFields with
      | none =>
        refine ⟨by simp [generateDesiredResourceCommon, hu, applyFault, hfsec, hmiss, hf3,
            hdel, hms],
          by simp [generateDesiredResourceCommon, hu, applyFault, hfsec, hmiss, hf3, hdel, hms],
          by simp [generateDesiredResourceCommon, hu, applyFault, hfsec, hmiss, hf3, hdel, hms],
          by simp [generateDesiredResourceCommon, hu, applyFault, hfsec, hmiss, hf3, hdel, hms],
          fun _ => by simp [generateDesiredResourceCommon, hu, applyFault, hfsec, hmiss, hf3,
            hdel, hms, hrm],
          ⟨_, ?_, hfc⟩⟩
        simp [generateDesiredResourceCommon, hu, applyFault, hfsec, hmiss, hf3, hdel, hms, hfe]
      | some u =>
        refine ⟨by simp [generateDesiredResourceCommon, hu, applyFault, hfsec, hmiss, hf3,
            hdel, hms],
          by simp [generateDesiredResourceCommon, hu, applyFault, hfsec, hmiss, hf3, hdel, hms],
          by simp [generateDesiredResourceCommon, hu, applyFault, hfsec, hmiss, hf3, hdel, hms],
          by simp [generateDesiredResourceCommon, hu, applyFault, hfsec, hmiss, hf3, hdel, hms],
          fun _ => by simp [generateDesiredResourceCommon, hu, applyFault, hfsec, hmiss, hf3,
            hdel, hms, hrm],
          ⟨_, ?_, hfc⟩⟩
        simp [generateDesiredResourceCommon, hu, applyFault, hfsec, hmiss, hf3, hdel, hms, hfe]

/-- On the claim branch with a bound claim and a matching target,
`generateDesiredResource` reduces to the common continuation run on a store
that differs from the original only in Environment conditions, seeded with the
target's credentials. -/
theorem generate_claim_reduces (st : Cluster) (f : Faults) (env : Environment)
    (dtc : DeploymentTargetClaim) (dt : DeploymentTarget)
    (hf3 : f.statusUpdate = FaultMode.ok) (hfdtc : f.getDTC = FaultMode.ok)
    (hfdt : f.getDT = FaultMode.ok)
    (hclaimB : (env.GetDeploymentTargetClaimName != "") = true)
    (hdtc : findDeploymentTargetClaim st env.ns env.GetDeploymentTargetClaimName = some dtc)
    (hbound : dtc.phase = DeploymentTargetClaimPhase_Bound)
    (hdt : st.deploymentTargets.find? (fun t => t.ns == dtc.ns &&
      (dtc.targetName == t.name || t.claimRef == dtc.name)) = some dt)
    (henvfind : findEnvironment st env.ns env.name = some env) :
    ∃ st2 env2 tr,
      generateDesiredResource st f env =
        { generateDesiredResourceCommon st2 f env2
            ⟨dt.kubernetesClusterCredentials.apiURL,
             dt.kubernetesClusterCredentials.clusterCredentialsSecret,
             dt.kubernetesClusterCredentials.allowInsecureSkipTLSVerify, false, []⟩ with
          trace := tr ++ (generateDesiredResourceCommon st2 f env2
            ⟨dt.kubernetesClusterCredentials.apiURL,
             dt.kubernetesClusterCredentials.clusterCredentialsSecret,
             dt.kubernetesClusterCredentials.allowInsecureSkipTLSVerify, false, []⟩).trace } ∧
      st2.secrets = st.secrets ∧
      st2.managedEnvironments = st.managedEnvironments ∧
      findEnvironment st2 env.ns env.name = some env2 ∧
      env2.ns = env.ns ∧ env2.name = env.name ∧ env2.spec = env.spec ∧
      env2.uid = env.uid ∧ env2.apiVersion = env.apiVersion ∧ env2.kind = env.kind ∧
      noCreateUpdate tr = true := by
  have hdt2 : getDTBoundByDTC st f dtc = GetResult.found dt := by
    unfold getDTBoundByDTC
    simp [applyFault, hfdt, hdt]
  have hboundB : (dtc.phase != DeploymentTargetClaimPhase_Bound) = false := by simp [hbound]
  have e1 := findEnvironment_resolve st f "" env EnvironmentConditionErrorOccurred
    ConditionFalse EnvironmentReasonErrorOccurred hf3 henvfind
  have h2 : findEnvironment (updateConditionErrorAsResolved st f "" env
      EnvironmentConditionErrorOccurred ConditionFalse EnvironmentReasonErrorOccurred).cluster
      (updateConditionErrorAsResolved st f "" env EnvironmentConditionErrorOccurred
        ConditionFalse EnvironmentReasonErrorOccurred).environment.ns
      (updateConditionErrorAsResolved st f "" env EnvironmentConditionErrorOccurred
        ConditionFalse EnvironmentReasonErrorOccurred).environment.name =
      some (updateConditionErrorAsResolved st f "" env EnvironmentConditionErrorOccurred
        ConditionFalse EnvironmentReasonErrorOccurred).environment := by
    rw [resolve_environment_ns, resolve_environment_name]
    exact e1
  have e2 := findEnvironment_resolve _ f "" _ EnvironmentConditionErrorOccurred ConditionFalse
    EnvironmentReasonErrorOccurred hf3 h2
  rw [resolve_environment_ns, resolve_environment_name] at e2
  refine ⟨(updateConditionErrorAsResolved (updateConditionErrorAsResolved st f "" env
      EnvironmentConditionErrorOccurred ConditionFalse
      EnvironmentReasonErrorOccurred).cluster f ""
      (updateConditionErrorAsResolved st f "" env EnvironmentConditionErrorOccurred
        ConditionFalse EnvironmentReasonErrorOccurred).environment
      EnvironmentConditionErrorOccurred ConditionFalse
      EnvironmentReasonErrorOccurred).cluster,
    (updateConditionErrorAsResolved (updateConditionErrorAsResolved st f "" env
      EnvironmentConditionErrorOccurred ConditionFalse
      EnvironmentReasonErrorOccurred).cluster f ""
      (updateConditionErrorAsResolved st f "" env EnvironmentConditionErrorOccurred
        ConditionFalse EnvironmentReasonErrorOccurred).environment
      EnvironmentConditionErrorOccurred ConditionFalse
      EnvironmentReasonErrorOccurred).environment,
    (updateConditionErrorAsResolved st f "" env EnvironmentConditionErrorOccurred
      ConditionFalse EnvironmentReasonErrorOccurred).trace ++
    (updateConditionErrorAsResolved (updateConditionErrorAsResolved st f "" env
      EnvironmentConditionErrorOccurred ConditionFalse
      EnvironmentReasonErrorOccurred).cluster f ""
      (updateConditionErrorAsResolved st f "" env EnvironmentConditionErrorOccurred
        ConditionFalse EnvironmentReasonErrorOccurred).environment
      EnvironmentConditionErrorOccurred ConditionFalse
      EnvironmentReasonErrorOccurred).trace,
    ?_, by simp, by simp, e2, by simp, by simp, by simp, by simp, by simp, by simp, by simp⟩
  simp [generateDesiredResource, hclaimB, applyFault, hfdtc, hdtc, hf3, hboundB, hdt2]

/-- C6: when the resolved credential secret is absent, Reconcile raises the
error condition, best-effort deletes the canonically-named managed secret, and
returns a non-nil (retryable) error — on the inline-credentials branch and on
the claim-driven branch alike. -/
theorem reconcile_missing_secret (st : Cluster) (ns n : String) (env : Environment)
    (hns : st.deletingNamespaces.contains ns = false)
    (henv : findEnvironment st ns n = some env) :
    (∀ u, env.GetDeploymentTargetClaimName = "" →
      env.spec.unstableConfigurationFields = some u →
      findSecret st ns u.clusterCredentialsSecret = Option.none →
      missingSecretOutcome st ns n u.clusterCredentialsSecret) ∧
    (∀ dtc dt, env.GetDeploymentTargetClaimName ≠ "" →
      env.spec.unstableConfigurationFields = Option.none →
      findDeploymentTargetClaim st ns env.GetDeploymentTargetClaimName = some dtc →
      dtc.phase = DeploymentTargetClaimPhase_Bound →
      st.deploymentTargets.find? (fun t => t.ns == dtc.ns &&
        (dtc.targetName == t.name || t.claimRef == dtc.name)) = some dt →
      findSecret st ns dt.kubernetesClusterCredentials.clusterCredentialsSecret = Option.none →
      missingSecretOutcome st ns n dt.kubernetesClusterCredentials.clusterCredentialsSecret) := by
  have hns2 : ns ∉ st.deletingNamespaces := by simpa using hns
  have h2 : st.environments.find? (fun e => e.ns == ns && e.name == n) = some env := henv
  have hp := List.find?_some h2
  simp only [Bool.and_eq_true, beq_iff_eq] at hp
  obtain ⟨hens, henn⟩ := hp
  subst hens
  subst henn
  constructor
  · intro u hclaim hinline hmiss
    have hclaimB : (env.GetDeploymentTargetClaimName != "") = false := by simp [hclaim]
    have hclaim2 : env.spec.deploymentTargetClaimName = "" := hclaim
    have hred : generateDesiredResource st Faults.none env =
        generateDesiredResourceCommon st Faults.none env
          ⟨u.apiURL, u.clusterCredentialsSecret, u.allowInsecureSkipTLSVerify, false, []⟩ := by
      simp [generateDesiredResource, Environment.GetDeploymentTargetClaimName, hclaim2, hinline]
    obtain ⟨herr, hsem, hmenv, htr, hdel, env2, hfe2, hfc2⟩ :=
      generateCommon_missing_secret st Faults.none env
        ⟨u.apiURL, u.clusterCredentialsSecret, u.allowInsecureSkipTLSVerify, false, []⟩
        rfl rfl (by decide) hmiss henv
    have hrec : Reconcile st Faults.none env.ns env.name =
        ⟨false,
          (generateDesiredResourceCommon st Faults.none env
            ⟨u.apiURL, u.clusterCredentialsSecret, u.allowInsecureSkipTLSVerify,
             false, []⟩).cluster,
          (generateDesiredResourceCommon st Faults.none env
            ⟨u.apiURL, u.clusterCredentialsSecret, u.allowInsecureSkipTLSVerify,
             false, []⟩).trace⟩ := by
      simp [Reconcile, hns2, henv, applyFault, hclaimB, hred, herr]
    refine ⟨?_, ?_, ?_, ?_, env2, ?_, hfc2⟩
    · rw [hrec]
    · rw [hrec]; exact hmenv
    · rw [hrec]; exact htr
    · rw [hrec]; exact hdel rfl
    · rw [hrec]; exact hfe2
  · intro dtc dt hclaim hnoinline hdtc hbound hdt hmiss
    have hclaimB : (env.GetDeploymentTargetClaimName != "") = true := by simp [hclaim]
    obtain ⟨st2, env2, tr, heq, hsecs, hmenvs, hfind2, hns2e, hname2, hspec2, _, _, _, htrnc⟩ :=
      generate_claim_reduces st Faults.none env dtc dt rfl rfl rfl hclaimB hdtc hbound hdt henv
    have hmiss2 : findSecret st2 env2.ns
        dt.kubernetesClusterCredentials.clusterCredentialsSecret = Option.none := by
      unfold findSecret
      rw [hsecs, hns2e]
      exact hmiss
    have hfind2e : findEnvironment st2 env2.ns env2.name = some env2 := by
      rw [hns2e, hname2]
      exact hfind2
    obtain ⟨herr, hsem, hmenv2, htrc, hdelc, env3, hfe3, hfc3⟩ :=
      generateCommon_missing_secret st2 Faults.none env2
        ⟨dt.kubernetesClusterCredentials.apiURL,
         dt.kubernetesClusterCredentials.clusterCredentialsSecret,
         dt.kubernetesClusterCredentials.allowInsecureSkipTLSVerify, false, []⟩
        rfl rfl (by decide) hmiss2 hfind2e
    have hrec : Reconcile st Faults.none env.ns env.name =
        ⟨false,
          (generateDesiredResourceCommon st2 Faults.none env2
            ⟨dt.kubernetesClusterCredentials.apiURL,
             dt.kubernetesClusterCredentials.clusterCredentialsSecret,
             dt.kubernetesClusterCredentials.allowInsecureSkipTLSVerify, false, []⟩).cluster,
          tr ++ (generateDesiredResourceCommon st2 Faults.none env2
            ⟨dt.kubernetesClusterCredentials.apiURL,
             dt.kubernetesClusterCredentials.clusterCredentialsSecret,
             dt.kubernetesClusterCredentials.allowInsecureSkipTLSVerify, false, []⟩).trace⟩ := by
      simp [Reconcile, hns2, henv, applyFault, hclaimB, hnoinline, heq, herr]
    refine ⟨?_, ?_, ?_, ?_, env3, ?_, hfc3⟩
    · rw [hrec]
    · rw [hrec]
      dsimp only
      rw [hmenv2, hmenvs]
    · rw [hrec]
      dsimp only
      simp [htrnc, htrc]
    · rw [hrec]
      dsimp only
      have := hdelc rfl
      rw [hns2e, hname2] at this
      exact this
    · rw [hrec]
      dsimp only
      rw [hns2e, hname2] at hfe3
      exact hfe3

/-- Witness for C6 at a concrete store. -/
theorem reconcile_missing_secret_witness :
    witnessMissingCluster.deletingNamespaces.contains "n6" = false ∧
    findEnvironment witnessMissingCluster "n6" "e6" = some witnessMissingEnv ∧
    missingSecretOutcome witnessMissingCluster "n6" "e6" "missing" :=
  ⟨rfl, rfl,
    (reconcile_missing_secret witnessMissingCluster "n6" "e6" witnessMissingEnv rfl rfl).1
      ⟨"url", "missing", false, false, []⟩ rfl rfl rfl⟩

theorem not_mem_of_noCreateUpdate (tr : List Op) (op : Op)
    (hop : op.isCreateOrUpdate = true) (h : noCreateUpdate tr = true) : op ∉ tr := by
  intro hmem
  unfold noCreateUpdate at h
  have h2 := List.all_eq_true.mp h op hmem
  rw [hop] at h2
  simp at h2

/-- Tail of `Reconcile` once the generator has produced a desired resource:
the current ManagedEnvironment is fetched, created when absent, overwritten
when its spec differs and left alone when equal; in all cases the resulting
store holds the desired spec under the canonical key and the tail issues no
secret create/update. -/
theorem reconcile_with_desired (st : Cluster) (env : Environment)
    (D : GitOpsDeploymentManagedEnvironment) (envX : Environment) (stX : Cluster) (trX : List Op)
    (hns2 : env.ns ∉ st.deletingNamespaces)
    (henv : findEnvironment st env.ns env.name = some env)
    (hinvalid : (env.GetDeploymentTargetClaimName != "" &&
      env.spec.unstableConfigurationFields.isSome) = false)
    (hgen : generateDesiredResource st Faults.none env = ⟨some D, false, false, envX, stX, trX⟩)
    (hD1 : D.ns = env.ns) (hD2 : D.name = "managed-environment-" ++ env.name) :
    (Reconcile st Faults.none env.ns env.name).ok = true ∧
    (findManagedEnvironment (Reconcile st Faults.none env.ns env.name).cluster env.ns
      ("managed-environment-" ++ env.name)).map (fun m => m.spec) = some D.spec ∧
    (Reconcile st Faults.none env.ns env.name).cluster.secrets = stX.secrets ∧
    ∃ tl, (Reconcile st Faults.none env.ns env.name).trace = trX ++ tl ∧
      (∀ a b, Op.createSecret a b ∉ tl) ∧ (∀ a b, Op.updateSecret a b ∉ tl) := by
  cases hcur : findManagedEnvironment stX env.ns ("managed-environment-" ++ env.name) with
  | none =>
    have hrec : Reconcile st Faults.none env.ns env.name =
        ⟨true, upsertManagedEnvironment stX D, trX ++ [Op.createManagedEnv D.ns D.name]⟩ := by
      simp [Reconcile, hns2, henv, applyFault, hinvalid, hgen, hcur]
    rw [hrec]
    refine ⟨rfl, ?_, by simp, [Op.createManagedEnv D.ns D.name], rfl, by simp, by simp⟩
    rw [findManagedEnvironment_upsert]
    simp [hD1, hD2]
  | some current =>
    have hcurkey := List.find?_some (hcur :
      stX.managedEnvironments.find? (fun m => m.ns == env.ns &&
        m.name == "managed-environment-" ++ env.name) = some current)
    simp only [Bool.and_eq_true, beq_iff_eq] at hcurkey
    by_cases hsp : current.spec = D.spec
    · have hspB : (current.spec == D.spec) = true := by simp [hsp]
      have hrec : Reconcile st Faults.none env.ns env.name =
          ⟨true, (updateConditionErrorAsResolved stX Faults.none "" env
            EnvironmentConditionErrorOccurred ConditionFalse
            EnvironmentReasonErrorOccurred).cluster,
           trX ++ (updateConditionErrorAsResolved stX Faults.none "" env
            EnvironmentConditionErrorOccurred ConditionFalse
            EnvironmentReasonErrorOccurred).trace⟩ := by
        simp [Reconcile, hns2, henv, applyFault, hinvalid, hgen, hcur, hspB]
      rw [hrec]
      refine ⟨rfl, ?_, by simp, _, rfl, ?_, ?_⟩
      · rw [findManagedEnvironment_resolve_cluster, hcur]
        simp [hsp]
      · intro a b
        exact not_mem_of_noCreateUpdate _ (Op.createSecret a b) rfl (resolve_trace _ _ _ _ _ _ _)
      · intro a b
        exact not_mem_of_noCreateUpdate _ (Op.updateSecret a b) rfl (resolve_trace _ _ _ _ _ _ _)
    · have hspB : (current.spec == D.spec) = false := by simp [hsp]
      have hrec : Reconcile st Faults.none env.ns env.name =
          ⟨true, upsertManagedEnvironment (updateConditionErrorAsResolved stX Faults.none "" env
              EnvironmentConditionErrorOccurred ConditionFalse
              EnvironmentReasonErrorOccurred).cluster { current with spec := D.spec },
           trX ++ ((updateConditionErrorAsResolved stX Faults.none "" env
              EnvironmentConditionErrorOccurred ConditionFalse
              EnvironmentReasonErrorOccurred).trace ++
            [Op.updateManagedEnv current.ns current.name])⟩ := by
        simp [Reconcile, hns2, henv, applyFault, hinvalid, hgen, hcur, hspB]
      rw [hrec]
      refine ⟨rfl, ?_, by simp, _, rfl, ?_, ?_⟩
      · rw [findManagedEnvironment_upsert]
        simp [hcurkey.1, hcurkey.2]
      · intro a b
        simp only [List.mem_append]
        rintro (h | h)
        · exact not_mem_of_noCreateUpdate _ (Op.createSecret a b) rfl
            (resolve_trace _ _ _ _ _ _ _) h
        · simp at h
      · intro a b
        simp only [List.mem_append]
        rintro (h | h)
        · exact not_mem_of_noCreateUpdate _ (Op.updateSecret a b) rfl
            (resolve_trace _ _ _ _ _ _ _) h
        · simp at h

/-- Behaviour of the common continuation on the claim-driven path when the
source secret exists and is not of the managed-environment type: the source
data is mirrored into the canonically-named managed secret (created when
absent, updated only when the data differs) and the desired spec references
the managed secret's name. -/
theorem generateCommon_mirror (st : Cluster) (env : Environment)
    (details0 : GitOpsDeploymentManagedEnvironmentSpec) (srcSecret : Secret)
    (hnoinline : env.spec.unstableConfigurationFields = Option.none)
    (hclaimB : (env.GetDeploymentTargetClaimName != "") = true)
    (hsec : findSecret st env.ns details0.clusterCredentialsSecret = some srcSecret)
    (htype : (srcSecret.secretType != ManagedEnvironmentSecretType) = true) :
    ∃ envX stX trX,
      generateDesiredResourceCommon st Faults.none env details0 =
        ⟨some { name := "managed-environment-" ++ env.name, ns := env.ns,
                ownerReferences := [⟨GroupVersionGroup ++ "/" ++ GroupVersionVersion,
                  "Environment", env.name, env.uid, Option.none, Option.none⟩],
                spec := { details0 with clusterCredentialsSecret :=
                  generateManagedEnvSecretName env.name } },
          false, false, envX, stX, trX⟩ ∧
      (findSecret st env.ns (generateManagedEnvSecretName env.name) = Option.none →
        findSecret stX env.ns (generateManagedEnvSecretName env.name) =
          some { mkManagedEnvSecret env with data := srcSecret.data } ∧
        Op.createSecret env.ns (generateManagedEnvSecretName env.name) ∈ trX) ∧
      (∀ ms, findSecret st env.ns (generateManagedEnvSecretName env.name) = some ms →
        findSecret stX env.ns (generateManagedEnvSecretName env.name) =
          some { ms with data := srcSecret.data } ∧
        (srcSecret.data = ms.data → noCreateUpdate trX = true)) ∧
      stX.managedEnvironments = st.managedEnvironments ∧
      findSecret stX env.ns details0.clusterCredentialsSecret = some srcSecret := by
  cases hms : findSecret st env.ns (generateManagedEnvSecretName env.name) with
  | none =>
    have hupkey : findSecret (upsertSecret st
        { mkManagedEnvSecret env with data := srcSecret.data }) env.ns
        (generateManagedEnvSecretName env.name) =
        some { mkManagedEnvSecret env with data := srcSecret.data } := by
      rw [findSecret_upsert]
      simp [mkManagedEnvSecret]
    have hred : generateDesiredResourceCommon st Faults.none env details0 =
        generateFinish (upsertSecret st { mkManagedEnvSecret env with data := srcSecret.data })
          Faults.none env
          { details0 with clusterCredentialsSecret := generateManagedEnvSecretName env.name }
          [Op.createSecret env.ns (generateManagedEnvSecretName env.name)] := by
      simp [generateDesiredResourceCommon, hnoinline, applyFault, hsec, hclaimB, htype, hms,
        mkManagedEnvSecret]
    have hfin : generateFinish (upsertSecret st
        { mkManagedEnvSecret env with data := srcSecret.data }) Faults.none env
        { details0 with clusterCredentialsSecret := generateManagedEnvSecretName env.name }
        [Op.createSecret env.ns (generateManagedEnvSecretName env.name)] =
        ⟨some { name := "managed-environment-" ++ env.name, ns := env.ns,
                ownerReferences := [⟨GroupVersionGroup ++ "/" ++ GroupVersionVersion,
                  "Environment", env.name, env.uid, Option.none, Option.none⟩],
                spec := { details0 with clusterCredentialsSecret :=
                  generateManagedEnvSecretName env.name } },
          false, false,
          (updateConditionErrorAsResolved (upsertSecret st
            { mkManagedEnvSecret env with data := srcSecret.data }) Faults.none "" env
            EnvironmentConditionErrorOccurred ConditionFalse
            EnvironmentReasonErrorOccurred).environment,
          (updateConditionErrorAsResolved (upsertSecret st
            { mkManagedEnvSecret env with data := srcSecret.data }) Faults.none "" env
            EnvironmentConditionErrorOccurred ConditionFalse
            EnvironmentReasonErrorOccurred).cluster,
          Op.createSecret env.ns (generateManagedEnvSecretName env.name) ::
          (updateConditionErrorAsResolved (upsertSecret st
            { mkManagedEnvSecret env with data := srcSecret.data }) Faults.none "" env
            EnvironmentConditionErrorOccurred ConditionFalse
            EnvironmentReasonErrorOccurred).trace⟩ := by
      simp [generateFinish, generateEmptyManagedEnvironment]
    refine ⟨_, _, _, hred.trans hfin, ?_, ?_, ?_, ?_⟩
    · intro _
      refine ⟨?_, by simp⟩
      rw [findSecret_resolve_cluster, hupkey]
    · intro ms hmsc
      exact Option.noConfusion hmsc
    · simp
    · have hne : ¬ (generateManagedEnvSecretName env.name =
          details0.clusterCredentialsSecret) := by
        intro h
        rw [h] at hms
        rw [hms] at hsec
        exact Option.noConfusion hsec
      simp [findSecret_upsert, mkManagedEnvSecret, hne, hsec]
  | some ms =>
    have hmskey := List.find?_some (hms :
      st.secrets.find? (fun s => s.ns == env.ns &&
        s.name == generateManagedEnvSecretName env.name) = some ms)
    simp only [Bool.and_eq_true, beq_iff_eq] at hmskey
    by_cases hdata : srcSecret.data = ms.data
    · have hdataB : (srcSecret.data != ms.data) = false := by simp [hdata]
      have hred : generateDesiredResourceCommon st Faults.none env details0 =
          generateFinish st Faults.none env
            { details0 with clusterCredentialsSecret := generateManagedEnvSecretName env.name }
            [] := by
        simp [generateDesiredResourceCommon, hnoinline, applyFault, hsec, hclaimB, htype, hms,
          hdataB]
      have hfin : generateFinish st Faults.none env
          { details0 with clusterCredentialsSecret := generateManagedEnvSecretName env.name }
          [] =
          ⟨some { name := "managed-environment-" ++ env.name, ns := env.ns,
                  ownerReferences := [⟨GroupVersionGroup ++ "/" ++ GroupVersionVersion,
                    "Environment", env.name, env.uid, Option.none, Option.none⟩],
                  spec := { details0 with clusterCredentialsSecret :=
                    generateManagedEnvSecretName env.name } },
            false, false,
            (updateConditionErrorAsResolved st Faults.none "" env
              EnvironmentConditionErrorOccurred ConditionFalse
              EnvironmentReasonErrorOccurred).environment,
            (updateConditionErrorAsResolved st Faults.none "" env
              EnvironmentConditionErrorOccurred ConditionFalse
              EnvironmentReasonErrorOccurred).cluster,
            (updateConditionErrorAsResolved st Faults.none "" env
              EnvironmentConditionErrorOccurred ConditionFalse
              EnvironmentReasonErrorOccurred).trace⟩ := by
        simp [generateFinish, generateEmptyManagedEnvironment]
      refine ⟨_, _, _, hred.trans hfin, ?_, ?_, ?_, ?_⟩
      · intro hc
        exact Option.noConfusion hc
      · intro ms2 hms2
        injection hms2 with hms2e
        subst hms2e
        refine ⟨?_, fun _ => by simp⟩
        rw [findSecret_resolve_cluster, hms, hdata]
      · simp
      · rw [findSecret_resolve_cluster]
        exact hsec
    · have hdataB : (srcSecret.data != ms.data) = true := by simp [hdata]
      have hupkey : findSecret (upsertSecret st { ms with data := srcSecret.data }) env.ns
          (generateManagedEnvSecretName env.name) =
          some { ms with data := srcSecret.data } := by
        rw [findSecret_upsert]
        simp [hmskey.1, hmskey.2]
      have hred : generateDesiredResourceCommon st Faults.none env details0 =
          generateFinish (upsertSecret st { ms with data := srcSecret.data }) Faults.none env
            { details0 with clusterCredentialsSecret := generateManagedEnvSecretName env.name }
            [Op.updateSecret env.ns ms.name] := by
        simp [generateDesiredResourceCommon, hnoinline, applyFault, hsec, hclaimB, htype, hms,
          hdataB]
      have hfin : generateFinish (upsertSecret st { ms with data := srcSecret.data })
          Faults.none env
          { details0 with clusterCredentialsSecret := generateManagedEnvSecretName env.name }
          [Op.updateSecret env.ns ms.name] =
          ⟨some { name := "managed-environment-" ++ env.name, ns := env.ns,
                  ownerReferences := [⟨GroupVersionGroup ++ "/" ++ GroupVersionVersion,
                    "Environment", env.name, env.uid, Option.none, Option.none⟩],
                  spec := { details0 with clusterCredentialsSecret :=
                    generateManagedEnvSecretName env.name } },
            false, false,
            (updateConditionErrorAsResolved (upsertSecret st
              { ms with data := srcSecret.data }) Faults.none "" env
              EnvironmentConditionErrorOccurred ConditionFalse
              EnvironmentReasonErrorOccurred).environment,
            (updateConditionErrorAsResolved (upsertSecret st
              { ms with data := srcSecret.data }) Faults.none "" env
              EnvironmentConditionErrorOccurred ConditionFalse
              EnvironmentReasonErrorOccurred).cluster,
            Op.updateSecret env.ns ms.name ::
            (updateConditionErrorAsResolved (upsertSecret st
              { ms with data := srcSecret.data }) Faults.none "" env
              EnvironmentConditionErrorOccurred ConditionFalse
              EnvironmentReasonErrorOccurred).trace⟩ := by
        simp [generateFinish, generateEmptyManagedEnvironment]
      refine ⟨_, _, _, hred.trans hfin, ?_, ?_, ?_, ?_⟩
      · intro hc
        exact Option.noConfusion hc
      · intro ms2 hms2
        injection hms2 with hms2e
        subst hms2e
        refine ⟨?_, fun hc => absurd hc hdata⟩
        rw [findSecret_resolve_cluster, hupkey]
      · simp
      · have hne : ¬ (generateManagedEnvSecretName env.name =
            details0.clusterCredentialsSecret) := by
          intro h
          rw [h] at hms
          rw [hms] at hsec
          injection hsec with he
          exact hdata (by rw [he])
        simp [findSecret_upsert, hmskey.1, hmskey.2, hne, hsec]

/-- C7: for a claim-driven Environment whose resolved source secret exists and
is not of the managed-environment type, Reconcile mirrors the source data into
the secret `managed-environment-secret-<name>` (created with the Environment
label and owner reference when absent; updated in place, preserving name and
owner references, exactly when the data differs) and the produced
ManagedEnvironment spec references the managed secret's name instead of the
original one. -/
theorem reconcile_secret_mirroring (st : Cluster) (ns n : String) (env : Environment)
    (dtc : DeploymentTargetClaim) (dt : DeploymentTarget) (srcSecret : Secret)
    (hns : st.deletingNamespaces.contains ns = false)
    (henv : findEnvironment st ns n = some env)
    (hclaim : env.GetDeploymentTargetClaimName ≠ "")
    (hnoinline : env.spec.unstableConfigurationFields = Option.none)
    (hdtc : findDeploymentTargetClaim st ns env.GetDeploymentTargetClaimName = some dtc)
    (hbound : dtc.phase = DeploymentTargetClaimPhase_Bound)
    (hdt : st.deploymentTargets.find? (fun t => t.ns == dtc.ns &&
      (dtc.targetName == t.name || t.claimRef == dtc.name)) = some dt)
    (hsec : findSecret st ns dt.kubernetesClusterCredentials.clusterCredentialsSecret =
      some srcSecret)
    (htype : srcSecret.secretType ≠ ManagedEnvironmentSecretType) :
    (Reconcile st Faults.none ns n).ok = true ∧
    (findManagedEnvironment (Reconcile st Faults.none ns n).cluster ns
      ("managed-environment-" ++ n)).map (fun m => m.spec.clusterCredentialsSecret) =
      some (generateManagedEnvSecretName n) ∧
    (findSecret st ns (generateManagedEnvSecretName n) = Option.none →
      findSecret (Reconcile st Faults.none ns n).cluster ns (generateManagedEnvSecretName n) =
        some { mkManagedEnvSecret env with data := srcSecret.data }) ∧
    (∀ ms, findSecret st ns (generateManagedEnvSecretName n) = some ms →
      findSecret (Reconcile st Faults.none ns n).cluster ns (generateManagedEnvSecretName n) =
        some { ms with data := srcSecret.data } ∧
      (srcSecret.data = ms.data →
        (∀ a b, Op.createSecret a b ∉ (Reconcile st Faults.none ns n).trace) ∧
        (∀ a b, Op.updateSecret a b ∉ (Reconcile st Faults.none ns n).trace))) := by
  have hns2 : ns ∉ st.deletingNamespaces := by simpa using hns
  have h2 : st.environments.find? (fun e => e.ns == ns && e.name == n) = some env := henv
  have hp := List.find?_some h2
  simp only [Bool.and_eq_true, beq_iff_eq] at hp
  obtain ⟨hens, henn⟩ := hp
  subst hens
  subst henn
  have hclaimB : (env.GetDeploymentTargetClaimName != "") = true := by simp [hclaim]
  have htypeB : (srcSecret.secretType != ManagedEnvironmentSecretType) = true := by simp [htype]
  obtain ⟨st2, env2, tr, heq, hsecs, hmenvs, hfind2, hns2e, hname2, hspec2, huid2, hapi2,
    hkind2, htrnc⟩ :=
    generate_claim_reduces st Faults.none env dtc dt rfl rfl rfl hclaimB hdtc hbound hdt henv
  have hnoinline2 : env2.spec.unstableConfigurationFields = Option.none := by
    rw [hspec2]
    exact hnoinline
  have hclaimB2 : (env2.GetDeploymentTargetClaimName != "") = true := by
    unfold Environment.GetDeploymentTargetClaimName
    rw [hspec2]
    exact hclaimB
  have hsec2 : findSecret st2 env2.ns
      dt.kubernetesClusterCredentials.clusterCredentialsSecret = some srcSecret := by
    unfold findSecret
    rw [hsecs, hns2e]
    exact hsec
  obtain ⟨envX, stX, trX, hcomeq, hcreate, hupdate, hmenvX, hsrcX⟩ :=
    generateCommon_mirror st2 env2
      ⟨dt.kubernetesClusterCredentials.apiURL,
       dt.kubernetesClusterCredentials.clusterCredentialsSecret,
       dt.kubernetesClusterCredentials.allowInsecureSkipTLSVerify, false, []⟩
      srcSecret hnoinline2 hclaimB2 hsec2 htypeB
  rw [hcomeq] at heq
  have hmkeq : mkManagedEnvSecret env2 = mkManagedEnvSecret env := by
    unfold mkManagedEnvSecret
    rw [hname2, hns2e, hapi2, hkind2, huid2]
  have hgen : generateDesiredResource st Faults.none env =
      ⟨some { name := "managed-environment-" ++ env2.name, ns := env2.ns,
              ownerReferences := [⟨GroupVersionGroup ++ "/" ++ GroupVersionVersion,
                "Environment", env2.name, env2.uid, Option.none, Option.none⟩],
              spec := ⟨dt.kubernetesClusterCredentials.apiURL,
                generateManagedEnvSecretName env2.name,
                dt.kubernetesClusterCredentials.allowInsecureSkipTLSVerify, false, []⟩ },
        false, false, envX, stX, tr ++ trX⟩ := by
    rw [heq]
  have hinvalid : (env.GetDeploymentTargetClaimName != "" &&
      env.spec.unstableConfigurationFields.isSome) = false := by
    simp [hnoinline]
  obtain ⟨hok, hfindm, hsecrets, tl, htl, hntlc, hntlu⟩ :=
    reconcile_with_desired st env _ envX stX (tr ++ trX) hns2 henv hinvalid hgen
      hns2e (by rw [hname2])
  have hfscongr : ∀ a b, findSecret (Reconcile st Faults.none env.ns env.name).cluster a b =
      findSecret stX a b := fun a b => findSecret_congr hsecrets a b
  refine ⟨hok, ?_, ?_, ?_⟩
  · cases hfind : findManagedEnvironment (Reconcile st Faults.none env.ns env.name).cluster
        env.ns ("managed-environment-" ++ env.name) with
    | none => rw [hfind] at hfindm; cases hfindm
    | some m =>
      rw [hfind] at hfindm
      simp only [Option.map_some', Option.some.injEq] at hfindm
      simp only [Option.map_some', Option.some.injEq]
      rw [hfindm]
      dsimp only
      rw [hname2]
  · intro hmsnone
    have hmsnone2 : findSecret st2 env2.ns (generateManagedEnvSecretName env2.name) =
        Option.none := by
      unfold findSecret
      rw [hsecs, hns2e, hname2]
      exact hmsnone
    obtain ⟨hcx, _⟩ := hcreate hmsnone2
    rw [hfscongr]
    rw [← hns2e, ← hname2]
    rw [hcx, hmkeq]
  · intro ms hmssome
    have hmssome2 : findSecret st2 env2.ns (generateManagedEnvSecretName env2.name) =
        some ms := by
      unfold findSecret
      rw [hsecs, hns2e, hname2]
      exact hmssome
    obtain ⟨hux, himp⟩ := hupdate ms hmssome2
    constructor
    · rw [hfscongr]
      rw [← hns2e, ← hname2]
      exact hux
    · intro hdata
      have htrXnc := himp hdata
      refine ⟨?_, ?_⟩
      · intro a b
        rw [htl]
        simp only [List.mem_append]
        rintro ((h | h) | h)
        · exact not_mem_of_noCreateUpdate _ (Op.createSecret a b) rfl htrnc h
        · exact not_mem_of_noCreateUpdate _ (Op.createSecret a b) rfl htrXnc h
        · exact hntlc a b h
      · intro a b
        rw [htl]
        simp only [List.mem_append]
        rintro ((h | h) | h)
        · exact not_mem_of_noCreateUpdate _ (Op.updateSecret a b) rfl htrnc h
        · exact not_mem_of_noCreateUpdate _ (Op.updateSecret a b) rfl htrXnc h
        · exact hntlu a b h

/-- Witness for C7 at a concrete store. -/
theorem reconcile_secret_mirroring_witness :
    findEnvironment witnessMirrorCluster "n1" "e2" = some witnessMirrorEnv ∧
    witnessMirrorEnv.GetDeploymentTargetClaimName ≠ "" ∧
    witnessMirrorSecret.secretType ≠ ManagedEnvironmentSecretType ∧
    (Reconcile witnessMirrorCluster Faults.none "n1" "e2").ok = true ∧
    findSecret (Reconcile witnessMirrorCluster Faults.none "n1" "e2").cluster "n1"
      (generateManagedEnvSecretName "e2") =
      some { mkManagedEnvSecret witnessMirrorEnv with data := witnessMirrorSecret.data } := by
  have h := reconcile_secret_mirroring witnessMirrorCluster "n1" "e2" witnessMirrorEnv
    witnessMirrorDTC witnessMirrorDT witnessMirrorSecret rfl rfl (by decide) rfl rfl rfl rfl
    rfl (by decide)
  exact ⟨rfl, by decide, by decide, h.1, h.2.2.1 rfl⟩

/-- C8: the DeploymentTarget mapper returns exactly the requests for
Environments in the target's namespace whose claim reference names a claim
bidirectionally matching the target (claim's target name equals the target's
name, or the target's claim reference equals the claim's name); on the
concrete store where claim `c` is referenced by E1 and E2 but not E3, the
result is exactly {E1, E2}. -/
theorem findObjectsForDeploymentTarget_spec :
    (∀ (st : Cluster) (dt : DeploymentTarget) (req : Request),
      req ∈ findObjectsForDeploymentTarget st dt ↔
        ∃ env ∈ st.environments, env.ns = dt.ns ∧ req = ⟨env.ns, env.name⟩ ∧
          ∃ dtcl ∈ st.deploymentTargetClaims, dtcl.ns = dt.ns ∧
            (dtcl.targetName = dt.name ∨ dt.claimRef = dtcl.name) ∧
            env.GetDeploymentTargetClaimName = dtcl.name) ∧
    findObjectsForDeploymentTarget fanoutCluster fanoutDT =
      [⟨"nz", "E1"⟩, ⟨"nz", "E2"⟩] := by
  constructor
  · intro st dt req
    unfold findObjectsForDeploymentTarget
    simp only [List.mem_flatMap, List.mem_filterMap, List.mem_filter, Bool.and_eq_true,
      beq_iff_eq, Bool.or_eq_true]
    constructor
    · rintro ⟨env, ⟨henvm, henvns⟩, dtcl, ⟨⟨hdtcm, hdtcns⟩, hmatch⟩, hif⟩
      rw [ite_eq_iff] at hif
      rcases hif with ⟨hc, hreq⟩ | ⟨_, hreq⟩
      · injection hreq with hreq2
        exact ⟨env, henvm, henvns, hreq2.symm, dtcl, hdtcm, hdtcns, hmatch, by simpa using hc⟩
      · cases hreq
    · rintro ⟨env, henvm, henvns, hreq, dtcl, hdtcm, hdtcns, hmatch, hname⟩
      refine ⟨env, ⟨henvm, henvns⟩, dtcl, ⟨⟨hdtcm, hdtcns⟩, hmatch⟩, ?_⟩
      rw [if_pos (by simpa using hname), hreq]
  · decide

theorem findObjectsForSecretLoop_none (st : Cluster) (secret : Secret)
    (dtList : List DeploymentTarget) (l : List Environment) (env : Environment)
    (hmem : env ∈ l) (hclaim : env.GetDeploymentTargetClaimName ≠ "")
    (hdtc : findDeploymentTargetClaim st env.ns env.GetDeploymentTargetClaimName =
      Option.none) :
    findObjectsForSecretLoop st secret dtList l = Option.none := by
  induction l with
  | nil => cases hmem
  | cons a rest ih =>
    rcases List.mem_cons.mp hmem with heq | hmem2
    · subst heq
      have hc : (env.GetDeploymentTargetClaimName == "") = false := by simp [hclaim]
      unfold findObjectsForSecretLoop
      simp [hc, hdtc]
    · unfold findObjectsForSecretLoop
      by_cases ha : (a.GetDeploymentTargetClaimName == "") = true
      · simp [ha, ih hmem2]
      · have haf : (a.GetDeploymentTargetClaimName == "") = false := Bool.eq_false_iff.mpr ha
        cases hadtc : findDeploymentTargetClaim st a.ns a.GetDeploymentTargetClaimName with
        | none => simp [haf, hadtc]
        | some dtc => simp [haf, hadtc, ih hmem2]

/-- C10: for an opaque-type Secret event, if any listed Environment in the
secret's namespace has a non-empty claim reference whose
DeploymentTargetClaim fetch fails (in particular a dangling reference), the
mapper returns the empty request set — dropping requests even for other
Environments whose claims resolve. -/
theorem findObjectsForSecret_dangling (st : Cluster) (secret : Secret) (env : Environment)
    (htype : secret.secretType = SecretTypeOpaque)
    (hmem : env ∈ st.environments) (hns : env.ns = secret.ns)
    (hclaim : env.GetDeploymentTargetClaimName ≠ "")
    (hdtc : findDeploymentTargetClaim st env.ns env.GetDeploymentTargetClaimName =
      Option.none) :
    findObjectsForSecret st secret = [] := by
  have hmem2 : env ∈ st.environments.filter (fun e => e.ns == secret.ns) := by
    rw [List.mem_filter]
    exact ⟨hmem, by simp [hns]⟩
  have hloop := findObjectsForSecretLoop_none st secret
    (st.deploymentTargets.filter (fun d => d.ns == secret.ns))
    (st.environments.filter (fun e => e.ns == secret.ns)) env hmem2 hclaim hdtc
  unfold findObjectsForSecret
  rw [htype]
  simp [hloop, SecretTypeOpaque, ManagedEnvironmentSecretType]

/-- Witness for C10 at a concrete store: without the dangling Environment the
mapper returns `eok`'s request, with it the result is empty. -/
theorem findObjectsForSecret_dangling_witness :
    danglingSecret.secretType = SecretTypeOpaque ∧
    danglingEnvBad ∈ danglingCluster.environments ∧
    danglingEnvBad.GetDeploymentTargetClaimName ≠ "" ∧
    findDeploymentTargetClaim danglingCluster danglingEnvBad.ns
      danglingEnvBad.GetDeploymentTargetClaimName = Option.none ∧
    findObjectsForSecret danglingCluster danglingSecret = [] ∧
    findObjectsForSecret
      { danglingCluster with environments := [danglingEnvOk] } danglingSecret =
      [⟨"n1", "eok"⟩] :=
  ⟨rfl, by decide, by decide, rfl,
    findObjectsForSecret_dangling danglingCluster danglingSecret danglingEnvBad rfl
      (by decide) rfl (by decide) rfl,
    by decide⟩

/-- Behaviour of the common continuation when the mirroring step is skipped
(no claim reference, or the source secret is already of managed type): the
desired resource carries the seeded details unchanged and only status
operations are traced. -/
theorem generateCommon_skip (st : Cluster) (env : Environment)
    (details0 : GitOpsDeploymentManagedEnvironmentSpec) (srcSecret : Secret)
    (hnoinline : env.spec.unstableConfigurationFields = Option.none)
    (hsec : findSecret st env.ns details0.clusterCredentialsSecret = some srcSecret)
    (hskip : (env.GetDeploymentTargetClaimName != "" &&
      srcSecret.secretType != ManagedEnvironmentSecretType) = false) :
    ∃ envX stX trX,
      generateDesiredResourceCommon st Faults.none env details0 =
        ⟨some { name := "managed-environment-" ++ env.name, ns := env.ns,
                ownerReferences := [⟨GroupVersionGroup ++ "/" ++ GroupVersionVersion,
                  "Environment", env.name, env.uid, Option.none, Option.none⟩],
                spec := details0 },
          false, false, envX, stX, trX⟩ ∧
      stX.secrets = st.secrets ∧
      stX.managedEnvironments = st.managedEnvironments ∧
      noCreateUpdate trX = true := by
  have hred : generateDesiredResourceCommon st Faults.none env details0 =
      generateFinish st Faults.none env details0 [] := by
    simp [generateDesiredResourceCommon, hnoinline, applyFault, hsec, hskip]
  have hfin : generateFinish st Faults.none env details0 [] =
      ⟨some { name := "managed-environment-" ++ env.name, ns := env.ns,
              ownerReferences := [⟨GroupVersionGroup ++ "/" ++ GroupVersionVersion,
                "Environment", env.name, env.uid, Option.none, Option.none⟩],
              spec := details0 },
        false, false,
        (updateConditionErrorAsResolved st Faults.none "" env
          EnvironmentConditionErrorOccurred ConditionFalse
          EnvironmentReasonErrorOccurred).environment,
        (updateConditionErrorAsResolved st Faults.none "" env
          EnvironmentConditionErrorOccurred ConditionFalse
          EnvironmentReasonErrorOccurred).cluster,
        (updateConditionErrorAsResolved st Faults.none "" env
          EnvironmentConditionErrorOccurred ConditionFalse
          EnvironmentReasonErrorOccurred).trace⟩ := by
    simp [generateFinish, generateEmptyManagedEnvironment]
  exact ⟨_, _, _, hred.trans hfin, by simp, by simp, by simp⟩

/-- A reconciliation performs no create/update call whenever the store already
agrees with the generator's output: on the inline branch the canonical
ManagedEnvironment already carries the transformed inline credentials, and on
the fully-resolved claim branch the managed secret already mirrors the source
data and the canonical ManagedEnvironment already carries the target-derived
spec.  All other branches only delete or write status. -/
theorem reconcile_clean (S : Cluster) (ns n : String)
    (Hinline : ∀ env u s, findEnvironment S ns n = some env →
      env.GetDeploymentTargetClaimName = "" →
      env.spec.unstableConfigurationFields = some u →
      findSecret S ns u.clusterCredentialsSecret = some s →
      ∃ m, findManagedEnvironment S ns ("managed-environment-" ++ n) = some m ∧
        m.spec = ⟨u.apiURL, u.clusterCredentialsSecret, u.allowInsecureSkipTLSVerify,
                  u.clusterResources, u.namespaces⟩)
    (Hclaim : ∀ env dtc dt srcS, findEnvironment S ns n = some env →
      env.GetDeploymentTargetClaimName ≠ "" →
      env.spec.unstableConfigurationFields = Option.none →
      findDeploymentTargetClaim S ns env.GetDeploymentTargetClaimName = some dtc →
      dtc.phase = DeploymentTargetClaimPhase_Bound →
      S.deploymentTargets.find? (fun t => t.ns == dtc.ns &&
        (dtc.targetName == t.name || t.claimRef == dtc.name)) = some dt →
      findSecret S ns dt.kubernetesClusterCredentials.clusterCredentialsSecret = some srcS →
      ((srcS.secretType ≠ ManagedEnvironmentSecretType →
        (∃ ms, findSecret S ns (generateManagedEnvSecretName n) = some ms ∧
          srcS.data = ms.data) ∧
        ∃ m, findManagedEnvironment S ns ("managed-environment-" ++ n) = some m ∧
          m.spec = ⟨dt.kubernetesClusterCredentials.apiURL, generateManagedEnvSecretName n,
                    dt.kubernetesClusterCredentials.allowInsecureSkipTLSVerify, false, []⟩) ∧
       (srcS.secretType = ManagedEnvironmentSecretType →
        ∃ m, findManagedEnvironment S ns ("managed-environment-" ++ n) = some m ∧
          m.spec = ⟨dt.kubernetesClusterCredentials.apiURL,
                    dt.kubernetesClusterCredentials.clusterCredentialsSecret,
                    dt.kubernetesClusterCredentials.allowInsecureSkipTLSVerify, false, []⟩))) :
    noCreateUpdate (Reconcile S Faults.none ns n).trace = true := by
  by_cases hdel : ns ∈ S.deletingNamespaces
  · simp [Reconcile, hdel]
  · cases henv : findEnvironment S ns n with
    | none =>
      cases hm : findManagedEnvironment S ns ("managed-environment-" ++ n) with
      | none =>
        simp [Reconcile, hdel, henv, hm, applyFault, generateEmptyManagedEnvironment]
      | some me =>
        simp [Reconcile, hdel, henv, hm, applyFault, generateEmptyManagedEnvironment]
    | some env =>
      have h2 : S.environments.find? (fun e => e.ns == ns && e.name == n) = some env := henv
      have hp := List.find?_some h2
      simp only [Bool.and_eq_true, beq_iff_eq] at hp
      obtain ⟨hens, henn⟩ := hp
      subst hens
      subst henn
      by_cases hval : (env.GetDeploymentTargetClaimName != "" &&
          env.spec.unstableConfigurationFields.isSome) = true
      · simp [Reconcile, hdel, henv, applyFault, hval, updateStatusConditionOfEnvironment]
        split <;> simp
      · have hvalF : (env.GetDeploymentTargetClaimName != "" &&
            env.spec.unstableConfigurationFields.isSome) = false := Bool.eq_false_iff.mpr hval
        by_cases hcl : env.GetDeploymentTargetClaimName = ""
        · have hcl2 : env.spec.deploymentTargetClaimName = "" := hcl
          cases hu : env.spec.unstableConfigurationFields with
          | none =>
            simp [Reconcile, hdel, henv, applyFault, hvalF, generateDesiredResource,
              Environment.GetDeploymentTargetClaimName, hcl2, hu]
          | some u =>
            have hred : generateDesiredResource S Faults.none env =
                generateDesiredResourceCommon S Faults.none env
                  ⟨u.apiURL, u.clusterCredentialsSecret, u.allowInsecureSkipTLSVerify,
                   false, []⟩ := by
              simp [generateDesiredResource, Environment.GetDeploymentTargetClaimName,
                hcl2, hu]
            cases hsec : findSecret S env.ns u.clusterCredentialsSecret with
            | none =>
              obtain ⟨herr, _, _, htr, _, _⟩ := generateCommon_missing_secret S Faults.none env
                ⟨u.apiURL, u.clusterCredentialsSecret, u.allowInsecureSkipTLSVerify, false, []⟩
                rfl rfl (by decide) hsec henv
              simp [Reconcile, hdel, henv, applyFault, hvalF, hred, herr, htr]
            | some s =>
              obtain ⟨m, hmfind, hmspec⟩ := Hinline env u s henv hcl hu hsec
              have hgen := generate_inline S Faults.none env u s rfl rfl hcl hu hsec
              have hspB : (m.spec == GitOpsDeploymentManagedEnvironmentSpec.mk u.apiURL
                  u.clusterCredentialsSecret u.allowInsecureSkipTLSVerify u.clusterResources
                  u.namespaces) = true := by
                simp [hmspec]
              simp [Reconcile, hdel, henv, applyFault, hvalF, hgen, hmfind, hspB]
        · have hclB : (env.GetDeploymentTargetClaimName != "") = true := by simp [hcl]
          cases hu : env.spec.unstableConfigurationFields with
          | some u =>
            exact absurd (by simp [hclB, hu] : (env.GetDeploymentTargetClaimName != "" &&
              env.spec.unstableConfigurationFields.isSome) = true) hval
          | none =>
            cases hdtc : findDeploymentTargetClaim S env.ns
                env.GetDeploymentTargetClaimName with
            | none =>
              simp [Reconcile, hdel, henv, applyFault, hvalF, generateDesiredResource,
                hclB, hdtc, hu]
            | some dtc =>
              by_cases hb : dtc.phase = DeploymentTargetClaimPhase_Bound
              · cases hdt : S.deploymentTargets.find? (fun t => t.ns == dtc.ns &&
                    (dtc.targetName == t.name || t.claimRef == dtc.name)) with
                | none =>
                  have hdt2 : getDTBoundByDTC S Faults.none dtc = GetResult.notFound := by
                    unfold getDTBoundByDTC
                    simp [applyFault, hdt]
                  have hbB : (dtc.phase != DeploymentTargetClaimPhase_Bound) = false := by
                    simp [hb]
                  simp [Reconcile, hdel, henv, applyFault, hvalF, generateDesiredResource,
                    hclB, hdtc, hbB, hdt2, hu]
                | some dt =>
                  obtain ⟨st2, env2, tr, heq, hsecs, hmenvs, hfind2, hns2e, hname2, hspec2,
                    huid2, hapi2, hkind2, htrnc⟩ :=
                    generate_claim_reduces S Faults.none env dtc dt rfl rfl rfl hclB hdtc
                      hb hdt henv
                  have hnoinline2 : env2.spec.unstableConfigurationFields = Option.none := by
                    rw [hspec2]
                    exact hu
                  cases hsec : findSecret S env.ns
                      dt.kubernetesClusterCredentials.clusterCredentialsSecret with
                  | none =>
                    have hsec2 : findSecret st2 env2.ns
                        dt.kubernetesClusterCredentials.clusterCredentialsSecret =
                        Option.none := by
                      unfold findSecret
                      rw [hsecs, hns2e]
                      exact hsec
                    have hfind2e : findEnvironment st2 env2.ns env2.name = some env2 := by
                      rw [hns2e, hname2]
                      exact hfind2
                    obtain ⟨herr, _, _, htr, _, _⟩ := generateCommon_missing_secret st2
                      Faults.none env2
                      ⟨dt.kubernetesClusterCredentials.apiURL,
                       dt.kubernetesClusterCredentials.clusterCredentialsSecret,
                       dt.kubernetesClusterCredentials.allowInsecureSkipTLSVerify, false, []⟩
                      rfl rfl (by decide) hsec2 hfind2e
                    simp [Reconcile, hdel, henv, applyFault, hvalF, heq, herr, htrnc, htr]
                  | some srcS =>
                    have hsec2 : findSecret st2 env2.ns
                        dt.kubernetesClusterCredentials.clusterCredentialsSecret =
                        some srcS := by
                      unfold findSecret
                      rw [hsecs, hns2e]
                      exact hsec
                    have hclB2 : (env2.GetDeploymentTargetClaimName != "") = true := by
                      unfold Environment.GetDeploymentTargetClaimName
                      rw [hspec2]
                      exact hclB
                    by_cases hty : srcS.secretType = ManagedEnvironmentSecretType
                    · obtain ⟨m, hmfind, hmspec⟩ :=
                        ((Hclaim env dtc dt srcS henv hcl hu hdtc hb hdt hsec).2) hty
                      have hskip : (env2.GetDeploymentTargetClaimName != "" &&
                          srcS.secretType != ManagedEnvironmentSecretType) = false := by
                        simp [hty]
                      obtain ⟨envX, stX, trX, hcomeq, hsecsX, hmenvX, htrX⟩ :=
                        generateCommon_skip st2 env2
                          ⟨dt.kubernetesClusterCredentials.apiURL,
                           dt.kubernetesClusterCredentials.clusterCredentialsSecret,
                           dt.kubernetesClusterCredentials.allowInsecureSkipTLSVerify,
                           false, []⟩ srcS hnoinline2 hsec2 hskip
                      rw [hcomeq] at heq
                      have hcurX : findManagedEnvironment stX env.ns
                          ("managed-environment-" ++ env.name) = some m := by
                        rw [findManagedEnvironment_congr (hmenvX.trans hmenvs) env.ns
                          ("managed-environment-" ++ env.name)]
                        exact hmfind
                      have hspB : (m.spec == GitOpsDeploymentManagedEnvironmentSpec.mk
                          dt.kubernetesClusterCredentials.apiURL
                          dt.kubernetesClusterCredentials.clusterCredentialsSecret
                          dt.kubernetesClusterCredentials.allowInsecureSkipTLSVerify
                          false []) = true := by
                        simp [hmspec]
                      simp [Reconcile, hdel, henv, applyFault, hvalF, heq, hcurX, hspB,
                        htrnc, htrX]
                    · obtain ⟨⟨ms, hmsfind, hmsdata⟩, m, hmfind, hmspec⟩ :=
                        ((Hclaim env dtc dt srcS henv hcl hu hdtc hb hdt hsec).1) hty
                      have htyB : (srcS.secretType != ManagedEnvironmentSecretType) = true := by
                        simp [hty]
                      obtain ⟨envX, stX, trX, hcomeq, _, hupdate, hmenvX, _⟩ :=
                        generateCommon_mirror st2 env2
                          ⟨dt.kubernetesClusterCredentials.apiURL,
                           dt.kubernetesClusterCredentials.clusterCredentialsSecret,
                           dt.kubernetesClusterCredentials.allowInsecureSkipTLSVerify,
                           false, []⟩ srcS hnoinline2 hclB2 hsec2 htyB
                      have hmsfind2 : findSecret st2 env2.ns
                          (generateManagedEnvSecretName env2.name) = some ms := by
                        unfold findSecret
                        rw [hsecs, hns2e, hname2]
                        exact hmsfind
                      obtain ⟨_, himp⟩ := hupdate ms hmsfind2
                      have htrX := himp hmsdata
                      rw [hcomeq] at heq
                      have hcurX : findManagedEnvironment stX env.ns
                          ("managed-environment-" ++ env.name) = some m := by
                        rw [findManagedEnvironment_congr (hmenvX.trans hmenvs) env.ns
                          ("managed-environment-" ++ env.name)]
                        exact hmfind
                      have hspB : (m.spec == GitOpsDeploymentManagedEnvironmentSpec.mk
                          dt.kubernetesClusterCredentials.apiURL
                          (generateManagedEnvSecretName env2.name)
                          dt.kubernetesClusterCredentials.allowInsecureSkipTLSVerify
                          false []) = true := by
                        rw [hname2]
                        simp [hmspec]
                      simp [Reconcile, hdel, henv, applyFault, hvalF, heq, hcurX, hspB,
                        htrnc, htrX]
              · have hbB : (dtc.phase != DeploymentTargetClaimPhase_Bound) = true := by
                  simp [hb]
                simp [Reconcile, hdel, henv, applyFault, hvalF, generateDesiredResource,
                  hclB, hdtc, hbB, hu]

/-! ### Reconcile preserves claims, targets, namespaces and Environment specs -/

@[simp] theorem findSecret_upsertManagedEnvironment (st : Cluster)
    (m : GitOpsDeploymentManagedEnvironment) (a b : String) :
    findSecret (upsertManagedEnvironment st m) a b = findSecret st a b := rfl

@[simp] theorem findSecret_removeManagedEnvironment (st : Cluster) (x y a b : String) :
    findSecret (removeManagedEnvironment st x y) a b = findSecret st a b := rfl

@[simp] theorem findManagedEnvironment_upsertSecret (st : Cluster) (s : Secret)
    (a b : String) :
    findManagedEnvironment (upsertSecret st s) a b = findManagedEnvironment st a b := rfl

@[simp] theorem findManagedEnvironment_removeSecret (st : Cluster) (x y a b : String) :
    findManagedEnvironment (removeSecret st x y) a b = findManagedEnvironment st a b := rfl

theorem findDeploymentTargetClaim_congr {st1 st2 : Cluster}
    (h : st1.deploymentTargetClaims = st2.deploymentTargetClaims) (ns n : String) :
    findDeploymentTargetClaim st1 ns n = findDeploymentTargetClaim st2 ns n := by
  unfold findDeploymentTargetClaim
  rw [h]

theorem agrees_refl (st : Cluster) : ClusterAgrees st st :=
  ⟨rfl, rfl, rfl, fun _ _ => rfl⟩

theorem agrees_trans {a b c : Cluster} (h1 : ClusterAgrees a b) (h2 : ClusterAgrees b c) :
    ClusterAgrees a c :=
  ⟨h1.1.trans h2.1, h1.2.1.trans h2.2.1, h1.2.2.1.trans h2.2.2.1,
    fun x y => (h1.2.2.2 x y).trans (h2.2.2.2 x y)⟩

theorem agrees_statusUpdateStore (st : Cluster) (e : Environment) :
    ClusterAgrees (statusUpdateStore st e) st := by
  refine ⟨rfl, rfl, rfl, fun a b => ?_⟩
  rw [findEnvironment_statusUpdateStore]
  cases findEnvironment st a b with
  | none => rfl
  | some x =>
    simp only [Option.map_some']
    split <;> rfl

theorem agrees_upsertSecret (st : Cluster) (s : Secret) :
    ClusterAgrees (upsertSecret st s) st :=
  ⟨rfl, rfl, rfl, fun _ _ => rfl⟩

theorem agrees_removeSecret (st : Cluster) (x y : String) :
    ClusterAgrees (removeSecret st x y) st :=
  ⟨rfl, rfl, rfl, fun _ _ => rfl⟩

theorem agrees_upsertManagedEnvironment (st : Cluster)
    (m : GitOpsDeploymentManagedEnvironment) :
    ClusterAgrees (upsertManagedEnvironment st m) st :=
  ⟨rfl, rfl, rfl, fun _ _ => rfl⟩

theorem agrees_removeManagedEnvironment (st : Cluster) (x y : String) :
    ClusterAgrees (removeManagedEnvironment st x y) st :=
  ⟨rfl, rfl, rfl, fun _ _ => rfl⟩

theorem agrees_updateStatus (st : Cluster) (f : Faults) (m : String) (env : Environment)
    (t s r : String) :
    ClusterAgrees (updateStatusConditionOfEnvironment st f m env t s r).cluster st := by
  unfold updateStatusConditionOfEnvironment
  dsimp only
  split
  · cases f.statusUpdate <;> dsimp only
    · exact agrees_statusUpdateStore _ _
    · exact agrees_refl st
    · exact agrees_refl st
  · exact agrees_refl st

theorem agrees_resolve (st : Cluster) (f : Faults) (m : String) (env : Environment)
    (t s r : String) :
    ClusterAgrees (updateConditionErrorAsResolved st f m env t s r).cluster st := by
  unfold updateConditionErrorAsResolved
  split
  · exact agrees_refl st
  · dsimp only
    split
    · exact agrees_updateStatus st f "" env EnvironmentConditionErrorOccurred ConditionFalse _
    · exact agrees_refl st

theorem agrees_generateFinish (st : Cluster) (f : Faults) (env : Environment)
    (d : GitOpsDeploymentManagedEnvironmentSpec) (tr : List Op) :
    ClusterAgrees (generateFinish st f env d tr).cluster st := by
  unfold generateFinish
  dsimp only
  split <;> exact agrees_resolve st f "" env EnvironmentConditionErrorOccurred ConditionFalse
    EnvironmentReasonErrorOccurred

theorem agrees_generateCommon (st : Cluster) (f : Faults) (env : Environment)
    (details0 : GitOpsDeploymentManagedEnvironmentSpec) :
    ClusterAgrees (generateDesiredResourceCommon st f env details0).cluster st := by
  unfold generateDesiredResourceCommon
  dsimp only
  split
  · split
    · exact agrees_updateStatus _ _ _ _ _ _ _
    · split
      · exact agrees_updateStatus _ _ _ _ _ _ _
      · exact agrees_updateStatus _ _ _ _ _ _ _
      · split
        · exact agrees_trans (agrees_removeSecret _ _ _) (agrees_updateStatus _ _ _ _ _ _ _)
        · exact agrees_updateStatus _ _ _ _ _ _ _
  · exact agrees_updateStatus _ _ _ _ _ _ _
  · split
    · split
      · exact agrees_refl st
      · split
        · exact agrees_trans (agrees_generateFinish _ _ _ _ _) (agrees_upsertSecret _ _)
        · exact agrees_refl st
      · split
        · split
          · exact agrees_trans (agrees_generateFinish _ _ _ _ _) (agrees_upsertSecret _ _)
          · exact agrees_refl st
        · exact agrees_generateFinish _ _ _ _ _
    · exact agrees_generateFinish _ _ _ _ _

theorem agrees_generate (st : Cluster) (f : Faults) (env : Environment) :
    ClusterAgrees (generateDesiredResource st f env).cluster st := by
  unfold generateDesiredResource
  dsimp only
  split
  · split
    · split
      · exact agrees_updateStatus _ _ _ _ _ _ _
      · exact agrees_updateStatus _ _ _ _ _ _ _
    · exact agrees_updateStatus _ _ _ _ _ _ _
    · split
      · exact agrees_resolve _ _ _ _ _ _ _
      · split
        · exact agrees_resolve _ _ _ _ _ _ _
        · split
          · split
            · exact agrees_trans (agrees_updateStatus _ _ _ _ _ _ _)
                (agrees_resolve _ _ _ _ _ _ _)
            · exact agrees_trans (agrees_updateStatus _ _ _ _ _ _ _)
                (agrees_resolve _ _ _ _ _ _ _)
          · exact agrees_trans (agrees_updateStatus _ _ _ _ _ _ _)
              (agrees_resolve _ _ _ _ _ _ _)
          · split
            · exact agrees_trans (agrees_resolve _ _ _ _ _ _ _)
                (agrees_resolve _ _ _ _ _ _ _)
            · exact agrees_trans (agrees_generateCommon _ _ _ _)
                (agrees_trans (agrees_resolve _ _ _ _ _ _ _) (agrees_resolve _ _ _ _ _ _ _))
  · split
    · exact agrees_generateCommon _ _ _ _
    · exact agrees_refl st

theorem agrees_reconcile (st : Cluster) (f : Faults) (reqNs reqName : String) :
    ClusterAgrees (Reconcile st f reqNs reqName).cluster st := by
  unfold Reconcile
  dsimp only
  split
  · exact agrees_refl st
  · split
    · exact agrees_refl st
    · split
      · exact agrees_refl st
      · exact agrees_refl st
      · split
        · exact agrees_removeManagedEnvironment _ _ _
        · exact agrees_refl st
        · exact agrees_refl st
    · split
      · split
        · exact agrees_updateStatus _ _ _ _ _ _ _
        · exact agrees_updateStatus _ _ _ _ _ _ _
      · split
        · exact agrees_generate _ _ _
        · split
          · exact agrees_generate _ _ _
          · split
            · split
              · exact agrees_trans (agrees_resolve _ _ _ _ _ _ _) (agrees_generate _ _ _)
              · exact agrees_trans (agrees_resolve _ _ _ _ _ _ _) (agrees_generate _ _ _)
            · split
              · split
                · exact agrees_trans (agrees_upsertManagedEnvironment _ _)
                    (agrees_generate _ _ _)
                · exact agrees_generate _ _ _
              · exact agrees_generate _ _ _
              · split
                · exact agrees_trans (agrees_resolve _ _ _ _ _ _ _) (agrees_generate _ _ _)
                · split
                  · exact agrees_trans (agrees_resolve _ _ _ _ _ _ _) (agrees_generate _ _ _)
                  · split
                    · exact agrees_trans (agrees_upsertManagedEnvironment _ _)
                        (agrees_trans (agrees_resolve _ _ _ _ _ _ _) (agrees_generate _ _ _))
                    · exact agrees_trans (agrees_resolve _ _ _ _ _ _ _)
                        (agrees_generate _ _ _)

/-- After a fault-free Reconcile of an inline-credentials Environment whose
source secret exists, the canonical ManagedEnvironment holds the transformed
inline credentials. -/
theorem reconcile_inline_post (st : Cluster) (env : Environment) (u : UnstableConfig)
    (s : Secret)
    (hdel : env.ns ∉ st.deletingNamespaces)
    (henv : findEnvironment st env.ns env.name = some env)
    (hclaim : env.GetDeploymentTargetClaimName = "")
    (hinline : env.spec.unstableConfigurationFields = some u)
    (hsec : findSecret st env.ns u.clusterCredentialsSecret = some s) :
    ∃ m, findManagedEnvironment (Reconcile st Faults.none env.ns env.name).cluster env.ns
      ("managed-environment-" ++ env.name) = some m ∧
      m.spec = ⟨u.apiURL, u.clusterCredentialsSecret, u.allowInsecureSkipTLSVerify,
        u.clusterResources, u.namespaces⟩ := by
  have hvalF : (env.GetDeploymentTargetClaimName != "" &&
      env.spec.unstableConfigurationFields.isSome) = false := by
    simp [hclaim]
  have hgen := generate_inline st Faults.none env u s rfl rfl hclaim hinline hsec
  obtain ⟨hok, hmap, hsecs2, tl, htr, hc1, hc2⟩ :=
    reconcile_with_desired st env _ _ _ _ hdel henv hvalF hgen rfl rfl
  obtain ⟨m, hm, hmspec⟩ := Option.map_eq_some'.mp hmap
  exact ⟨m, hm, hmspec⟩

/-- After a fault-free Reconcile of a claim-driven Environment whose claim is
bound, target resolvable and source secret present: the source secret is
unchanged, the managed secret mirrors its data (when it is not of the managed
type), and the canonical ManagedEnvironment holds the target-derived spec. -/
theorem reconcile_claim_post (st : Cluster) (env : Environment) (dtc : DeploymentTargetClaim)
    (dt : DeploymentTarget) (srcS : Secret)
    (hdel : env.ns ∉ st.deletingNamespaces)
    (henv : findEnvironment st env.ns env.name = some env)
    (hclaim : env.GetDeploymentTargetClaimName ≠ "")
    (hnoinline : env.spec.unstableConfigurationFields = Option.none)
    (hdtc : findDeploymentTargetClaim st env.ns env.GetDeploymentTargetClaimName = some dtc)
    (hbound : dtc.phase = DeploymentTargetClaimPhase_Bound)
    (hdt : st.deploymentTargets.find? (fun t => t.ns == dtc.ns &&
      (dtc.targetName == t.name || t.claimRef == dtc.name)) = some dt)
    (hsec : findSecret st env.ns dt.kubernetesClusterCredentials.clusterCredentialsSecret =
      some srcS) :
    findSecret (Reconcile st Faults.none env.ns env.name).cluster env.ns
      dt.kubernetesClusterCredentials.clusterCredentialsSecret = some srcS ∧
    (srcS.secretType ≠ ManagedEnvironmentSecretType →
      (∃ ms, findSecret (Reconcile st Faults.none env.ns env.name).cluster env.ns
        (generateManagedEnvSecretName env.name) = some ms ∧ srcS.data = ms.data) ∧
      ∃ m, findManagedEnvironment (Reconcile st Faults.none env.ns env.name).cluster env.ns
        ("managed-environment-" ++ env.name) = some m ∧
        m.spec = ⟨dt.kubernetesClusterCredentials.apiURL, generateManagedEnvSecretName env.name,
          dt.kubernetesClusterCredentials.allowInsecureSkipTLSVerify, false, []⟩) ∧
    (srcS.secretType = ManagedEnvironmentSecretType →
      ∃ m, findManagedEnvironment (Reconcile st Faults.none env.ns env.name).cluster env.ns
        ("managed-environment-" ++ env.name) = some m ∧
        m.spec = ⟨dt.kubernetesClusterCredentials.apiURL,
          dt.kubernetesClusterCredentials.clusterCredentialsSecret,
          dt.kubernetesClusterCredentials.allowInsecureSkipTLSVerify, false, []⟩) := by
  have hclaimB : (env.GetDeploymentTargetClaimName != "") = true := by simp [hclaim]
  have hvalF : (env.GetDeploymentTargetClaimName != "" &&
      env.spec.unstableConfigurationFields.isSome) = false := by
    simp [hnoinline]
  obtain ⟨stG, envG, tr, heq, hsecs, hmenvs, hfindG, hnsG, hnameG, hspecG, huidG, hapiG,
    hkindG, htrnc⟩ :=
    generate_claim_reduces st Faults.none env dtc dt rfl rfl rfl hclaimB hdtc hbound hdt henv
  have hnoinlineG : envG.spec.unstableConfigurationFields = Option.none := by
    rw [hspecG]
    exact hnoinline
  have hclaimBG : (envG.GetDeploymentTargetClaimName != "") = true := by
    unfold Environment.GetDeploymentTargetClaimName
    rw [hspecG]
    exact hclaimB
  have hsecG : findSecret stG envG.ns
      dt.kubernetesClusterCredentials.clusterCredentialsSecret = some srcS := by
    unfold findSecret
    rw [hsecs, hnsG]
    exact hsec
  have hDname : ("managed-environment-" ++ envG.name : String) =
      "managed-environment-" ++ env.name := by
    rw [hnameG]
  by_cases hty : srcS.secretType = ManagedEnvironmentSecretType
  · have hskip : (envG.GetDeploymentTargetClaimName != "" &&
        srcS.secretType != ManagedEnvironmentSecretType) = false := by
      simp [hty]
    obtain ⟨envX, stX, trX, hcomeq, hsecsX, hmenvX, htrX⟩ :=
      generateCommon_skip stG envG
        ⟨dt.kubernetesClusterCredentials.apiURL,
         dt.kubernetesClusterCredentials.clusterCredentialsSecret,
         dt.kubernetesClusterCredentials.allowInsecureSkipTLSVerify, false, []⟩
        srcS hnoinlineG hsecG hskip
    rw [hcomeq] at heq
    have heq2 : generateDesiredResource st Faults.none env =
        ⟨some { name := "managed-environment-" ++ envG.name, ns := envG.ns,
                ownerReferences := [⟨GroupVersionGroup ++ "/" ++ GroupVersionVersion,
                  "Environment", envG.name, envG.uid, Option.none, Option.none⟩],
                spec := ⟨dt.kubernetesClusterCredentials.apiURL,
                  dt.kubernetesClusterCredentials.clusterCredentialsSecret,
                  dt.kubernetesClusterCredentials.allowInsecureSkipTLSVerify, false, []⟩ },
          false, false, envX, stX, tr ++ trX⟩ := heq
    obtain ⟨hok, hmap, hsecsR, tl, htrR, hc1, hc2⟩ :=
      reconcile_with_desired st env _ _ _ _ hdel henv hvalF heq2 hnsG hDname
    refine ⟨?_, fun hne => absurd hty hne, fun _ => ?_⟩
    · rw [findSecret_congr (hsecsR.trans (hsecsX.trans hsecs))]
      exact hsec
    · obtain ⟨m, hm, hmspec⟩ := Option.map_eq_some'.mp hmap
      exact ⟨m, hm, hmspec⟩
  · have htyB : (srcS.secretType != ManagedEnvironmentSecretType) = true := by simp [hty]
    obtain ⟨envX, stX, trX, hcomeq, hcreate, hupdate, hmenvX, hsrcX⟩ :=
      generateCommon_mirror stG envG
        ⟨dt.kubernetesClusterCredentials.apiURL,
         dt.kubernetesClusterCredentials.clusterCredentialsSecret,
         dt.kubernetesClusterCredentials.allowInsecureSkipTLSVerify, false, []⟩
        srcS hnoinlineG hclaimBG hsecG htyB
    rw [hcomeq] at heq
    have heq2 : generateDesiredResource st Faults.none env =
        ⟨some { name := "managed-environment-" ++ envG.name, ns := envG.ns,
                ownerReferences := [⟨GroupVersionGroup ++ "/" ++ GroupVersionVersion,
                  "Environment", envG.name, envG.uid, Option.none, Option.none⟩],
                spec := ⟨dt.kubernetesClusterCredentials.apiURL,
                  generateManagedEnvSecretName envG.name,
                  dt.kubernetesClusterCredentials.allowInsecureSkipTLSVerify, false, []⟩ },
          false, false, envX, stX, tr ++ trX⟩ := heq
    obtain ⟨hok, hmap, hsecsR, tl, htrR, hc1, hc2⟩ :=
      reconcile_with_desired st env _ _ _ _ hdel henv hvalF heq2 hnsG hDname
    refine ⟨?_, fun _ => ⟨?_, ?_⟩, fun hc => absurd hc hty⟩
    · rw [findSecret_congr hsecsR, ← hnsG]
      exact hsrcX
    · cases hms : findSecret stG envG.ns (generateManagedEnvSecretName envG.name) with
      | none =>
        obtain ⟨hfound, _⟩ := hcreate hms
        refine ⟨{ mkManagedEnvSecret envG with data := srcS.data }, ?_, rfl⟩
        rw [findSecret_congr hsecsR, ← hnsG, ← hnameG]
        exact hfound
      | some ms0 =>
        obtain ⟨hfound, _⟩ := hupdate ms0 hms
        refine ⟨{ ms0 with data := srcS.data }, ?_, rfl⟩
        rw [findSecret_congr hsecsR, ← hnsG, ← hnameG]
        exact hfound
    · obtain ⟨m, hm, hmspec⟩ := Option.map_eq_some'.mp hmap
      refine ⟨m, hm, ?_⟩
      have hDspec : (⟨dt.kubernetesClusterCredentials.apiURL,
          generateManagedEnvSecretName envG.name,
          dt.kubernetesClusterCredentials.allowInsecureSkipTLSVerify, false, []⟩ :
          GitOpsDeploymentManagedEnvironmentSpec) =
          ⟨dt.kubernetesClusterCredentials.apiURL, generateManagedEnvSecretName env.name,
           dt.kubernetesClusterCredentials.allowInsecureSkipTLSVerify, false, []⟩ := by
        rw [hnameG]
      exact hmspec.trans hDspec

/-- C3: for every store, running Reconcile a second time immediately after a
successful fault-free first run, with no external change in between, performs
no create and no update of a ManagedEnvironment or of the managed secret in
the second run (the spec compare and the managed-secret data compare
short-circuit as no-ops; only status writes and deletes may occur). -/
theorem reconcile_idempotent (st : Cluster) (ns n : String)
    (hok : (Reconcile st Faults.none ns n).ok = true) :
    noCreateUpdate (Reconcile (Reconcile st Faults.none ns n).cluster Faults.none ns n).trace =
      true := by
  by_cases hdel : ns ∈ st.deletingNamespaces
  · have hrec : Reconcile st Faults.none ns n = ⟨true, st, []⟩ := by
      simp [Reconcile, hdel]
    rw [hrec]
    simp [Reconcile, hdel]
  · have hag := agrees_reconcile st Faults.none ns n
    refine reconcile_clean _ ns n ?_ ?_
    · intro env2 u2 s2 hfind2 hcl2 hu2 hsec2
      have hmap := hag.2.2.2 ns n
      rw [hfind2] at hmap
      simp only [Option.map_some'] at hmap
      obtain ⟨env, henv, hespec⟩ := Option.map_eq_some'.mp hmap.symm
      have h2 : st.environments.find? (fun e => e.ns == ns && e.name == n) = some env := henv
      have hp := List.find?_some h2
      simp only [Bool.and_eq_true, beq_iff_eq] at hp
      obtain ⟨hens, henn⟩ := hp
      subst hens
      subst henn
      have hcl : env.GetDeploymentTargetClaimName = "" := by
        unfold Environment.GetDeploymentTargetClaimName
        rw [hespec]
        exact hcl2
      have hu : env.spec.unstableConfigurationFields = some u2 := by
        rw [hespec]
        exact hu2
      cases hsec : findSecret st env.ns u2.clusterCredentialsSecret with
      | none =>
        have hcl3 : env.spec.deploymentTargetClaimName = "" := hcl
        have hred : generateDesiredResource st Faults.none env =
            generateDesiredResourceCommon st Faults.none env
              ⟨u2.apiURL, u2.clusterCredentialsSecret, u2.allowInsecureSkipTLSVerify,
               false, []⟩ := by
          simp [generateDesiredResource, Environment.GetDeploymentTargetClaimName, hcl3, hu]
        obtain ⟨herr, _, _, _, _, _⟩ := generateCommon_missing_secret st Faults.none env
          ⟨u2.apiURL, u2.clusterCredentialsSecret, u2.allowInsecureSkipTLSVerify, false, []⟩
          rfl rfl (by decide) hsec henv
        have hvalF : (env.GetDeploymentTargetClaimName != "" &&
            env.spec.unstableConfigurationFields.isSome) = false := by
          simp [hcl]
        have hko : (Reconcile st Faults.none env.ns env.name).ok = false := by
          simp [Reconcile, hdel, henv, applyFault, hvalF, hred, herr]
        rw [hko] at hok
        exact absurd hok (by decide)
      | some s =>
        exact reconcile_inline_post st env u2 s hdel henv hcl hu hsec
    · intro env2 dtc2 dt2 srcS2 hfind2 hcl2 hu2 hdtc2 hb2 hdt2 hsec2
      have hmap := hag.2.2.2 ns n
      rw [hfind2] at hmap
      simp only [Option.map_some'] at hmap
      obtain ⟨env, henv, hespec⟩ := Option.map_eq_some'.mp hmap.symm
      have h2 : st.environments.find? (fun e => e.ns == ns && e.name == n) = some env := henv
      have hp := List.find?_some h2
      simp only [Bool.and_eq_true, beq_iff_eq] at hp
      obtain ⟨hens, henn⟩ := hp
      subst hens
      subst henn
      have hclg : env.GetDeploymentTargetClaimName = env2.GetDeploymentTargetClaimName := by
        unfold Environment.GetDeploymentTargetClaimName
        rw [hespec]
      have hcl : env.GetDeploymentTargetClaimName ≠ "" := by
        rw [hclg]
        exact hcl2
      have hu : env.spec.unstableConfigurationFields = Option.none := by
        rw [hespec]
        exact hu2
      have hdtc : findDeploymentTargetClaim st env.ns env.GetDeploymentTargetClaimName =
          some dtc2 := by
        rw [hclg, ← findDeploymentTargetClaim_congr hag.1 env.ns
          env2.GetDeploymentTargetClaimName]
        exact hdtc2
      have hdt : st.deploymentTargets.find? (fun t => t.ns == dtc2.ns &&
          (dtc2.targetName == t.name || t.claimRef == dtc2.name)) = some dt2 := by
        rw [← hag.2.1]
        exact hdt2
      cases hsec : findSecret st env.ns
          dt2.kubernetesClusterCredentials.clusterCredentialsSecret with
      | none =>
        obtain ⟨stG, envG, tr, heq, hsecs, hmenvs, hfindG, hnsG, hnameG, hspecG, _, _, _,
          htrnc⟩ :=
          generate_claim_reduces st Faults.none env dtc2 dt2 rfl rfl rfl (by simp [hcl])
            hdtc hb2 hdt henv
        have hsecG : findSecret stG envG.ns
            dt2.kubernetesClusterCredentials.clusterCredentialsSecret = Option.none := by
          unfold findSecret
          rw [hsecs, hnsG]
          exact hsec
        have hfindGe : findEnvironment stG envG.ns envG.name = some envG := by
          rw [hnsG, hnameG]
          exact hfindG
        obtain ⟨herr, _, _, _, _, _⟩ := generateCommon_missing_secret stG Faults.none envG
          ⟨dt2.kubernetesClusterCredentials.apiURL,
           dt2.kubernetesClusterCredentials.clusterCredentialsSecret,
           dt2.kubernetesClusterCredentials.allowInsecureSkipTLSVerify, false, []⟩
          rfl rfl (by decide) hsecG hfindGe
        have hvalF : (env.GetDeploymentTargetClaimName != "" &&
            env.spec.unstableConfigurationFields.isSome) = false := by
          simp [hu]
        have hko : (Reconcile st Faults.none env.ns env.name).ok = false := by
          simp [Reconcile, hdel, henv, applyFault, hvalF, heq, herr]
        rw [hko] at hok
        exact absurd hok (by decide)
      | some srcS =>
        obtain ⟨hsrc, hmirror, hskipc⟩ := reconcile_claim_post st env dtc2 dt2 srcS hdel henv
          hcl hu hdtc hb2 hdt hsec
        rw [hsrc] at hsec2
        injection hsec2 with hseq
        subst hseq
        exact ⟨hmirror, hskipc⟩

/-- Witness: a first run that creates the ManagedEnvironment succeeds, and the
second run performs no create or update. -/
theorem reconcile_idempotent_witness :
    (Reconcile idemCluster Faults.none "team-idem" "env-idem").ok = true ∧
    noCreateUpdate (Reconcile (Reconcile idemCluster Faults.none "team-idem"
      "env-idem").cluster Faults.none "team-idem" "env-idem").trace = true :=
  ⟨by decide, reconcile_idempotent idemCluster "team-idem" "env-idem" (by decide)⟩
